import Mathlib

/-!
# SBUS2 telemetry (src/main/telemetry/sbus2.c, sbus2.h)

A shallow embedding of the SBUS2 telemetry store, the slot scheduler, the
transmit task and the payload encoders, with the properties of the
specification stated over it.

Conventions of the embedding.
* C unsigned integers are natural numbers; every place where the C code
  truncates or wraps carries an explicit `% 2^w`.
* The three process-wide arrays of `SBUS2_SLOT_COUNT = 32` entries are
  functions on `Fin 32`.
* The serial port is an output list of bytes returned next to the new store.
-/

namespace Sbus2

/-! ## Constants of sbus2.h -/

/-- Number of local slots in one page (sbus2.h). -/
def SBUS2_TELEMETRY_SLOTS : Nat := 8

/-- Number of telemetry pages (sbus2.h). -/
def SBUS2_TELEMETRY_PAGES : Nat := 4

/-- Modelled from the spec: the macro MS2US lives in common/time.h, which is
not part of this slice; it converts milliseconds to microseconds
(the spec gives DEADTIME as 2 ms and the staleness bound as 8 ms). -/
def MS2US (ms : Nat) : Nat := ms * 1000

/-- Silence after an inbound frame, in microseconds (sbus2.h). -/
def SBUS2_DEADTIME : Nat := MS2US 2

/-- Width of one slot window, in microseconds (sbus2.h). -/
def SBUS2_SLOT_TIME : Nat := 650

/-- Latest offset inside a window at which a frame may still start (sbus2.h);
MIN is the usual minimum macro of common/utils.h. -/
def SBUS2_SLOT_DELAY_MAX : Nat := min 350 (SBUS2_SLOT_TIME / 2)

/-- Number of global slots (sbus2.h). -/
def SBUS2_SLOT_COUNT : Nat := SBUS2_TELEMETRY_PAGES * SBUS2_TELEMETRY_SLOTS

/-- Modelled from the spec: timeUs_t is declared in common/time.h, which is
not part of this slice; it is the 32-bit microsecond counter, so arithmetic
on times wraps at this modulus. -/
def TIMEUS_WRAP : Nat := 4294967296

/-- Modulus of `unsigned int` arithmetic on the 32-bit target. -/
def UINT_WRAP : Nat := 4294967296

/-! ## The telemetry store -/

/-- The table sbus2SlotIds as a list, in source order. -/
def sbus2SlotIdsTable : List Nat :=
  [0x03, 0x83, 0x43, 0xC3, 0x23, 0xA3, 0x63, 0xE3,
   0x13, 0x93, 0x53, 0xD3, 0x33, 0xB3, 0x73, 0xF3,
   0x0B, 0x8B, 0x4B, 0xCB, 0x2B, 0xAB, 0x6B, 0xEB,
   0x1B, 0x9B, 0x5B, 0xDB, 0x3B, 0xBB, 0x7B, 0xFB]

/-- The entry sbus2SlotIds[i]. -/
def sbus2SlotIds (i : Fin 32) : Nat := sbus2SlotIdsTable.getD i.val 0

/-- The packed wire frame sbus2_telemetry_frame_t: slot id and two payload
bytes, three bytes in this order. -/
structure sbus2_telemetry_frame_t where
  slotId : Nat
  data0 : Nat
  data1 : Nat
deriving DecidableEq, Repr

/-- The three process-wide arrays of sbus2.c. -/
structure Store where
  sbusTelemetryData : Fin 32 → sbus2_telemetry_frame_t
  sbusTelemetryDataUsed : Fin 32 → Nat
  sbusTelemetryMinDelay : Fin 32 → Nat

/-- The zero-initialised store (the arrays are defined with empty braces). -/
def Store.zero : Store where
  sbusTelemetryData := fun _ => { slotId := 0, data0 := 0, data1 := 0 }
  sbusTelemetryDataUsed := fun _ => 0
  sbusTelemetryMinDelay := fun _ => 0

/-- Assignment to one array element. -/
def setAt {α : Type} (f : Fin 32 → α) (i : Fin 32) (v : α) : Fin 32 → α :=
  fun j => if j = i then v else f j

/-- The store write SBUS2_transmit_telemetry_data. The argument slotId is the
value of the uint8_t parameter; callers perform the conversion to 8 bits. -/
def SBUS2_transmit_telemetry_data (st : Store) (slotId : Nat) (b0 b1 : Nat) : Store :=
  if h : 0 < slotId ∧ slotId < SBUS2_SLOT_COUNT then
    let i : Fin 32 := ⟨slotId, h.2⟩
    { sbusTelemetryData :=
        setAt st.sbusTelemetryData i { slotId := sbus2SlotIds i, data0 := b0, data1 := b1 }
      sbusTelemetryDataUsed := setAt st.sbusTelemetryDataUsed i 1
      sbusTelemetryMinDelay := st.sbusTelemetryMinDelay }
  else st

/-! ## The slot scheduler -/

/-- The scheduler sbus2GetTelemetrySlot. The remainder minus one is computed in
unsigned arithmetic and then truncated to uint8_t; the product and the
difference of the window test are unsigned 32-bit. -/
def sbus2GetTelemetrySlot (elapsed : Nat) : Nat :=
  if elapsed < SBUS2_DEADTIME then 0xFF
  else
    let elapsed := elapsed - SBUS2_DEADTIME
    let slot := ((elapsed % SBUS2_SLOT_TIME + UINT_WRAP - 1) % UINT_WRAP) % 256
    if (elapsed + UINT_WRAP - (slot * SBUS2_SLOT_TIME) % UINT_WRAP) % UINT_WRAP
        > SBUS2_SLOT_DELAY_MAX then 0xFF
    else slot

/-! ## The transmit task -/

/-- Enumerators of rx/rx.h compared by the transmit task. The header is not
part of this slice, so their numeric values are parameters. -/
structure RxEnums where
  RX_TYPE_SERIAL : Nat
  SERIALRX_SBUS2 : Nat

/-- What the transmit task reads from its collaborators: whether
telemetrySharedPort is non-null, the two rxConfig fields, the time of the last
inbound frame and the current telemetry page (a uint8_t). -/
structure RxEnv where
  telemetrySharedPort : Bool
  receiverType : Nat
  serialrx_provider : Nat
  sbusGetLastFrameTime : Nat
  sbusGetCurrentTelemetryPage : Nat

/-- The transmit task taskSendSbus2Telemetry: the new store and the bytes
handed to serialWriteBuf (empty when nothing is sent). -/
def taskSendSbus2Telemetry (k : RxEnums) (env : RxEnv) (st : Store) (currentTimeUs : Nat) :
    Store × List Nat :=
  if env.telemetrySharedPort = false ∨ env.receiverType ≠ k.RX_TYPE_SERIAL ∨
      env.serialrx_provider ≠ k.SERIALRX_SBUS2 then (st, [])
  else
    let elapsedTime :=
      (currentTimeUs + (TIMEUS_WRAP - env.sbusGetLastFrameTime % TIMEUS_WRAP)) % TIMEUS_WRAP
    if elapsedTime > MS2US 8 then (st, [])
    else
      let telemetryPage := env.sbusGetCurrentTelemetryPage
      let slot := sbus2GetTelemetrySlot elapsedTime
      if slot < SBUS2_TELEMETRY_SLOTS then
        let slotIndex := telemetryPage * SBUS2_TELEMETRY_SLOTS + slot
        if h : slotIndex < SBUS2_SLOT_COUNT then
          let i : Fin 32 := ⟨slotIndex, h⟩
          if st.sbusTelemetryDataUsed i ≠ 0 ∧ st.sbusTelemetryMinDelay i < currentTimeUs then
            let fr : sbus2_telemetry_frame_t :=
              { slotId := sbus2SlotIds i
                data0 := (st.sbusTelemetryData i).data0
                data1 := (st.sbusTelemetryData i).data1 }
            ({ sbusTelemetryData := setAt st.sbusTelemetryData i fr
               sbusTelemetryDataUsed := st.sbusTelemetryDataUsed
               sbusTelemetryMinDelay :=
                 setAt st.sbusTelemetryMinDelay i ((currentTimeUs + MS2US 1) % TIMEUS_WRAP) },
             [fr.slotId, fr.data0, fr.data1])
          else (st, [])
        else (st, [])
      else (st, [])

/-! ## Integer conversions used by the encoders

Signed C values are integers; a conversion to an unsigned type of width w is
the residue modulo 2^w, and a conversion to a signed type wraps into its range.
Bitwise operators on a signed 16-bit operand act on its two-complement bit
pattern, which is the residue modulo 2^16. -/

/-- Conversion to uint8_t. -/
def toU8 (x : Int) : Nat := (x % 256).toNat

/-- Conversion to uint16_t (also the bit pattern of an int16_t). -/
def toU16 (x : Int) : Nat := (x % 65536).toNat

/-- Conversion to uint32_t. -/
def toU32 (x : Int) : Nat := (x % 4294967296).toNat

/-- Conversion to int8_t. -/
def toI8 (x : Int) : Int := (x + 128) % 256 - 128

/-- Conversion to int32_t. -/
def toI32 (x : Int) : Int := (x + 2147483648) % 4294967296 - 2147483648

/-- The argument conversion of `port + k` to the uint8_t parameter slotId. -/
def portOfs (port k : Nat) : Nat := (port + k) % 256

/-! ## Payload encoders -/

/-- Encoder send_RPM (port is uint8_t, RPM is uint32_t). -/
def send_RPM (st : Store) (port RPM : Nat) : Store :=
  let value := RPM / 6
  let value := if value > 0xffff then 0xffff else value
  let b1 := (value >>> 8) % 256
  let b0 := value % 256
  SBUS2_transmit_telemetry_data st port b0 b1

/-- Encoder send_temp125 (temp is int16_t). -/
def send_temp125 (st : Store) (port : Nat) (temp : Int) : Store :=
  let value := (toU16 temp ||| 0x4000) % 65536
  let b0 := (value >>> 8) % 256
  let b1 := value % 256
  SBUS2_transmit_telemetry_data st port b0 b1

/-- Encoder send_SBS01T (temp is int16_t): low byte first. -/
def send_SBS01T (st : Store) (port : Nat) (temp : Int) : Store :=
  let value := (toU16 temp ||| 0x8000) % 65536
  let value := (value + 100) % 65536
  let b0 := value % 256
  let b1 := (value >>> 8) % 256
  SBUS2_transmit_telemetry_data st port b0 b1

/-- Encoder send_voltage (voltage1, voltage2 are uint16_t). -/
def send_voltage (st : Store) (port voltage1 voltage2 : Nat) : Store :=
  let value := (voltage1 ||| 0x8000) % 65536
  let value := if value > 0x9FFF then 0x9FFF else if value < 0x8000 then 0x8000 else value
  let st := SBUS2_transmit_telemetry_data st port ((value >>> 8) % 256) (value % 256)
  let value := voltage2 % 65536
  let value := if value > 0x1FFF then 0x1FFF else value
  SBUS2_transmit_telemetry_data st (portOfs port 1) ((value >>> 8) % 256) (value % 256)

/-- Encoder send_s1678_current (current, capacity, voltage are uint16_t). -/
def send_s1678_current (st : Store) (port current capacity voltage : Nat) : Store :=
  let local_ := (current * 1) % 4294967296
  let value := local_ % 65536
  let value := if value > 0x3FFF then 0x3FFF else value
  let b0 := (value >>> 8) % 256
  let b0 := (b0 ||| 0x40) % 256
  let b0 := (b0 &&& 0x7F) % 256
  let st := SBUS2_transmit_telemetry_data st port b0 (value % 256)
  let local_ := (voltage * 1) % 4294967296
  let value := local_ % 65536
  let st := SBUS2_transmit_telemetry_data st (portOfs port 1) ((value >>> 8) % 256) (value % 256)
  let local_ := capacity % 4294967296
  let value := local_ % 65536
  SBUS2_transmit_telemetry_data st (portOfs port 2) ((value >>> 8) % 256) (value % 256)

/-- One coordinate of send_f1675_gps: the two payloads (whole degrees and top
fraction bits with the hemisphere flag, then the low 16 fraction bits) computed
from a signed micro-degree value (int32_t). -/
def f1675_coord (coord : Int) : (Nat × Nat) × (Nat × Nat) :=
  let pos := decide (coord ≥ 0)
  let coord := if coord ≥ 0 then coord else toI32 (coord * -1)
  let b0 := toU8 (Int.tdiv coord 1000000)
  let value3 := toU32 (Int.tmod coord 1000000)
  let b1 := if pos then ((value3 >>> 16) &&& 0x0f) % 256 else ((value3 >>> 16) ||| 0x1f) % 256
  ((b0, b1), (((value3 >>> 8) &&& 0xff) % 256, (value3 &&& 0xff) % 256))

/-- Encoder send_f1675_gps (speed uint16_t; altitude, vario int16_t; latitude,
longitude int32_t in micro-degrees). -/
def send_f1675_gps (st : Store) (port speed : Nat) (altitude vario latitude longitude : Int) :
    Store :=
  let value1 := (speed ||| 0x4000) % 65536
  let value1 := if value1 > 0x43E7 then 0x43E7 else if value1 < 0x4000 then 0x4000 else value1
  let st := SBUS2_transmit_telemetry_data st port ((value1 >>> 8) % 256) (value1 % 256)
  let value2 := (toU16 altitude ||| 0x4000) % 65536
  let st := SBUS2_transmit_telemetry_data st (portOfs port 1) ((value2 >>> 8) % 256) (value2 % 256)
  let st := SBUS2_transmit_telemetry_data st (portOfs port 2) 0xB0 0xF0
  let value2 := toU16 (vario * 10)
  let st := SBUS2_transmit_telemetry_data st (portOfs port 3) ((value2 >>> 8) % 256) (value2 % 256)
  let lat := f1675_coord latitude
  let st := SBUS2_transmit_telemetry_data st (portOfs port 4) lat.1.1 lat.1.2
  let st := SBUS2_transmit_telemetry_data st (portOfs port 5) lat.2.1 lat.2.2
  let lon := f1675_coord longitude
  let st := SBUS2_transmit_telemetry_data st (portOfs port 6) lon.1.1 lon.1.2
  SBUS2_transmit_telemetry_data st (portOfs port 7) lon.2.1 lon.2.2

/-- Encoder send_f1672_vario (altitude, vario int16_t). -/
def send_f1672_vario (st : Store) (port : Nat) (altitude vario : Int) : Store :=
  let value := toU16 vario
  let st := SBUS2_transmit_telemetry_data st port ((value >>> 8) % 256) (value % 256)
  let value := (toU16 altitude ||| 0x4000) % 65536
  SBUS2_transmit_telemetry_data st (portOfs port 1) ((value >>> 8) % 256) (value % 256)

/-- Encoder send_f1712_vario (altitude, vario int16_t). -/
def send_f1712_vario (st : Store) (port : Nat) (altitude vario : Int) : Store :=
  let value := toU16 vario
  let st := SBUS2_transmit_telemetry_data st port ((value >>> 8) % 256) (value % 256)
  let value := (toU16 altitude ||| 0x4000) % 65536
  SBUS2_transmit_telemetry_data st (portOfs port 1) ((value >>> 8) % 256) (value % 256)

/-- Adapter send_F1675: splits its inputs into a whole part and a remainder of
one million, rescales the remainder by 60/100 and calls send_f1675_gps. -/
def send_F1675 (st : Store) (port speed : Nat) (hight vario latitude longitude : Int) : Store :=
  let _latitude_deg := Int.tdiv latitude 1000000
  let _longitude_deg := Int.tdiv longitude 1000000
  let _latitude_min := Int.tmod latitude 1000000
  let _longitude_min := Int.tmod longitude 1000000
  let _latitude := toI32 (_latitude_deg * 1000000)
  let _longitude := toI32 (_longitude_deg * 1000000)
  let _latitude := toI32 (_latitude + Int.tdiv (toI32 (_latitude_min * 60)) 100)
  let _longitude := toI32 (_longitude + Int.tdiv (toI32 (_longitude_min * 60)) 100)
  send_f1675_gps st port speed hight vario _latitude _longitude

/-- One coordinate of send_F1675min: degrees (int8_t) and minutes times 10000
(int32_t) combined into the signed value handed to send_f1675_gps. -/
def F1675min_coord (deg min_ : Int) : Int :=
  let neg := decide (deg < 0) || decide (min_ < 0)
  let deg := if deg < 0 then toI8 (deg * -1) else deg
  let min_ := if min_ < 0 then toI32 (min_ * -1) else min_
  let v := toI32 (deg * 1000000)
  let v := toI32 (v + min_)
  if neg then toI32 (v * -1) else v

/-- Adapter send_F1675min. -/
def send_F1675min (st : Store) (port speed : Nat) (hight vario lat_deg lat_min lon_deg lon_min : Int) :
    Store :=
  send_f1675_gps st port speed hight vario (F1675min_coord lat_deg lat_min)
    (F1675min_coord lon_deg lon_min)

/-- Adapter send_F1675f. Its float arguments enter through the results of the
conversions to int32_t of `latitude * 1000000` and `longitude * 1000000`
(floating point itself is not modelled); the integer arithmetic after that
conversion is the source code. -/
def send_F1675f (st : Store) (port speed : Nat) (hight vario latitude_e6 longitude_e6 : Int) :
    Store :=
  let _latitude_deg := Int.tdiv latitude_e6 1000000
  let _longitude_deg := Int.tdiv longitude_e6 1000000
  let _latitude_min := Int.tmod latitude_e6 1000000
  let _longitude_min := Int.tmod longitude_e6 1000000
  let _latitude := toI32 (_latitude_deg * 1000000)
  let _longitude := toI32 (_longitude_deg * 1000000)
  let _latitude := toI32 (_latitude + Int.tdiv (toI32 (_latitude_min * 60)) 100)
  let _longitude := toI32 (_longitude + Int.tdiv (toI32 (_longitude_min * 60)) 100)
  send_f1675_gps st port speed hight vario _latitude _longitude

/-- Encoder send_SBS10G. The float arguments latitude, longitude,
altitudeMeters and gpsVario are represented by rational numbers and the
floating-point expressions by exact arithmetic followed by truncation, which
agrees with the C code wherever the intermediate results are representable
(in particular for integer-valued altitude and vario). hours, minutes,
seconds and speed are uint16_t. -/
def send_SBS10G (st : Store) (port hours minutes seconds : Nat)
    (latitude longitude altitudeMeters : ℚ) (speed : Nat) (gpsVario : ℚ) : Store :=
  let utc := (hours * 3600 + minutes * 60 + seconds) % 4294967296
  let lat :=
    if latitude > 0 then toU32 (Rat.floor (600000 * latitude + 1 / 2))
    else (toU32 (Rat.floor (-600000 * latitude + 1 / 2))) ||| 0x4000000
  let lon :=
    if longitude > 0 then toU32 (Rat.floor (600000 * longitude + 1 / 2))
    else (toU32 (Rat.floor (-600000 * longitude + 1 / 2))) ||| 0x8000000
  let alt :=
    if altitudeMeters ≥ -820 ∧ altitudeMeters ≤ 4830 then
      toU16 (Rat.floor (5 / 4 * (altitudeMeters + 820) + 1 / 2))
    else 0
  let speed := if speed < 512 then (speed ||| 0x200) % 65536 else 0
  let st := SBUS2_transmit_telemetry_data st port ((utc &&& 0x00ff) % 256)
    (((utc &&& 0xff00) >>> 8) % 256)
  let st := SBUS2_transmit_telemetry_data st (portOfs port 1)
    ((((lat &&& 0x007f) <<< 1) ||| ((utc &&& 0x10000) >>> 16)) % 256)
    (((lat &&& 0x7f80) >>> 7) % 256)
  let st := SBUS2_transmit_telemetry_data st (portOfs port 2)
    (((lat &&& 0x07f8000) >>> 15) % 256)
    ((((lat &&& 0x7800000) >>> 23) ||| ((lon &&& 0x0f) <<< 4)) % 256)
  let st := SBUS2_transmit_telemetry_data st (portOfs port 3)
    (((lon &&& 0x00ff0) >>> 4) % 256) (((lon &&& 0xff000) >>> 12) % 256)
  let st := SBUS2_transmit_telemetry_data st (portOfs port 4)
    (((lon &&& 0xff00000) >>> 20) % 256) ((speed &&& 0xff) % 256)
  let st := SBUS2_transmit_telemetry_data st (portOfs port 5)
    (((speed &&& 0x300) >>> 8) % 256) 0x00
  let st := SBUS2_transmit_telemetry_data st (portOfs port 6)
    (((alt &&& 0x003) <<< 6) % 256) (((alt &&& 0x3fc) >>> 2) % 256)
  let vario :=
    if gpsVario ≥ -150 ∧ gpsVario ≤ 260 then
      ((toU16 (Rat.floor (10 * (gpsVario + 150) + 1 / 2))) ||| 0x1000) % 65536
    else 0
  SBUS2_transmit_telemetry_data st (portOfs port 7)
    ((((vario &&& 0x001f) <<< 3) ||| ((alt &&& 0x1c00) >>> 10)) % 256)
    (((vario &&& 0x1fe0) >>> 5) % 256)

/-- Encoder send_scorpion_kontronik (rpm uint32_t, the rest uint16_t); the
working variable is a uint32_t and each byte is its truncation. -/
def send_scorpion_kontronik (st : Store) (port voltage capacity rpm current temp becTemp
    becCurrent pwm : Nat) : Store :=
  let put (st : Store) (k value : Nat) : Store :=
    SBUS2_transmit_telemetry_data st (portOfs port k) ((value >>> 8) % 256) (value % 256)
  let st := SBUS2_transmit_telemetry_data st port (((voltage ||| 0x8000) >>> 8) % 256)
    ((voltage ||| 0x8000) % 256)
  let st := put st 1 capacity
  let st := put st 2 (rpm / 6)
  let st := put st 3 current
  let st := put st 4 temp
  let st := put st 5 becTemp
  let st := put st 6 becCurrent
  put st 7 pwm

/-- Encoder send_jetcat (rpm, setrpm, secondrpm uint32_t, the rest uint16_t). -/
def send_jetcat (st : Store) (port rpm egt pump_volt setrpm thrust fuel fuelflow altitude
    quality volt current speed status secondrpm : Nat) : Store :=
  let put (st : Store) (k value : Nat) : Store :=
    SBUS2_transmit_telemetry_data st (portOfs port k) ((value >>> 8) % 256) (value % 256)
  let sat (value : Nat) : Nat := if value > 0xffff then 0xffff else value
  let st := SBUS2_transmit_telemetry_data st port
    ((sat ((rpm / 100) ||| 0x4000) >>> 8) % 256) (sat ((rpm / 100) ||| 0x4000) % 256)
  let st := put st 1 egt
  let st := put st 2 pump_volt
  let st := put st 3 (sat (setrpm / 100))
  let st := put st 4 thrust
  let st := put st 5 fuel
  let st := put st 6 fuelflow
  let st := put st 7 altitude
  let st := put st 8 quality
  let st := put st 9 volt
  let st := put st 10 current
  let st := put st 11 speed
  let st := put st 12 status
  put st 13 (sat (secondrpm / 100))

/-! ## The sensor collector -/

/-- The record escSensorData_t as far as the collector reads it. -/
structure escSensorData_t where
  dataAge : Nat
  rpm : Nat
  temperature : Int

/-- Everything handleSbus2Telemetry reads. Build flags and the two constants
ESC_DATA_MAX_AGE and GPS_FIX_2D come from headers outside this slice and are
parameters. Quantities that the source computes in floating point enter as the
integers the float adapters obtain from them: `(uint16_t)(voltage * 10)`,
`(uint16_t)(cellVoltage * 10)`, `(uint16_t)(current * 100)`, the uint16_t
capacity, `(uint16_t)(voltage * 100)`, the rounded ground speed in km/h, the
int16_t altitude and vario, and the int32_t values of `latitude * 1000000`
and `longitude * 1000000`. The temperature getters give the value they store
when they report success. -/
structure Sensors where
  USE_ESC_SENSOR : Bool
  USE_GPS : Bool
  USE_TEMPERATURE_SENSOR : Bool
  ESC_DATA_MAX_AGE : Nat
  GPS_FIX_2D : Nat
  voltage_x10 : Nat
  cellVoltage_x10 : Nat
  current_x100 : Nat
  capacity : Nat
  voltage_x100 : Nat
  altitude : Int
  vario : Int
  escSensorGetData : Option escSensorData_t
  fixType : Nat
  groundSpeedKph : Nat
  latitude_e6 : Int
  longitude_e6 : Int
  getIMUTemperature : Option Int
  getBaroTemperature : Option Int
  getSensorTemperature : Nat → Option Int

/-- The argument `valid ? temp16 / 10 : 0` of the temperature slots. -/
def tempArg (r : Option Int) : Int :=
  match r with
  | some temp16 => Int.tdiv temp16 10
  | none => 0

/-- The loop over the eight auxiliary temperature slots, i counting up from
the given start; every iteration asks for sensor 0, as the source does. -/
def auxTempLoop (s : Sensors) (st : Store) (i n : Nat) : Store :=
  match n with
  | 0 => st
  | n + 1 =>
    let st :=
      if s.USE_TEMPERATURE_SENSOR then
        send_SBS01T st ((18 + i) % 256) (tempArg (s.getSensorTemperature 0))
      else send_SBS01T st ((18 + i) % 256) 0
    auxTempLoop s st (i + 1) n

/-- The collector handleSbus2Telemetry. -/
def handleSbus2Telemetry (s : Sensors) (st : Store) : Store :=
  let esc : Nat × Int :=
    if s.USE_ESC_SENSOR then
      match s.escSensorGetData with
      | some e => if e.dataAge ≤ s.ESC_DATA_MAX_AGE then (e.rpm, e.temperature) else (0, 0)
      | none => (0, 0)
    else (0, 0)
  let st := send_voltage st 1 s.voltage_x10 s.cellVoltage_x10
  let st := send_s1678_current st 3 s.current_x100 s.capacity s.voltage_x100
  let st := send_RPM st 6 esc.1
  let st := send_SBS01T st 7 esc.2
  let gps : Nat × Int × Int :=
    if s.USE_GPS ∧ s.fixType ≥ s.GPS_FIX_2D then
      (s.groundSpeedKph, s.latitude_e6, s.longitude_e6)
    else (0, 0, 0)
  let st := send_F1675f st 8 gps.1 s.altitude s.vario gps.2.1 gps.2.2
  let st := send_SBS01T st 16 (tempArg s.getIMUTemperature)
  let st := send_SBS01T st 17 (tempArg s.getBaroTemperature)
  auxTempLoop s st 0 8

/-! ## Runs of the telemetry subsystem -/

/-- One call into the subsystem: a raw store write, one of the encoders, a
collector cycle or a transmit tick. The alias encoders of the source
(send_SBS01R, send_F1678, send_voltagef, ...) only forward to the encoders
listed here with converted arguments, so they add no further behaviour. -/
inductive Action where
  | transmit (slotId b0 b1 : Nat)
  | RPM (port RPM : Nat)
  | temp125 (port : Nat) (temp : Int)
  | SBS01T (port : Nat) (temp : Int)
  | voltage (port voltage1 voltage2 : Nat)
  | s1678_current (port current capacity voltage : Nat)
  | f1675_gps (port speed : Nat) (altitude vario latitude longitude : Int)
  | f1672_vario (port : Nat) (altitude vario : Int)
  | f1712_vario (port : Nat) (altitude vario : Int)
  | F1675 (port speed : Nat) (hight vario latitude longitude : Int)
  | F1675f (port speed : Nat) (hight vario latitude_e6 longitude_e6 : Int)
  | F1675min (port speed : Nat) (hight vario lat_deg lat_min lon_deg lon_min : Int)
  | SBS10G (port hours minutes seconds : Nat) (latitude longitude altitudeMeters : ℚ)
      (speed : Nat) (gpsVario : ℚ)
  | scorpion_kontronik (port voltage capacity rpm current temp becTemp becCurrent pwm : Nat)
  | jetcat (port rpm egt pump_volt setrpm thrust fuel fuelflow altitude quality volt current
      speed status secondrpm : Nat)
  | collect (s : Sensors)
  | tick (env : RxEnv) (currentTimeUs : Nat)

/-- The effect of one action on the store and the bytes it puts on the wire.
Port and slot arguments are uint8_t parameters, hence reduced modulo 256. -/
def Action.step (k : RxEnums) (st : Store) : Action → Store × List Nat
  | .transmit slotId b0 b1 => (SBUS2_transmit_telemetry_data st (slotId % 256) b0 b1, [])
  | .RPM port r => (send_RPM st (port % 256) r, [])
  | .temp125 port t => (send_temp125 st (port % 256) t, [])
  | .SBS01T port t => (send_SBS01T st (port % 256) t, [])
  | .voltage port v1 v2 => (send_voltage st (port % 256) v1 v2, [])
  | .s1678_current port c cap v => (send_s1678_current st (port % 256) c cap v, [])
  | .f1675_gps port sp a v la lo => (send_f1675_gps st (port % 256) sp a v la lo, [])
  | .f1672_vario port a v => (send_f1672_vario st (port % 256) a v, [])
  | .f1712_vario port a v => (send_f1712_vario st (port % 256) a v, [])
  | .F1675 port sp a v la lo => (send_F1675 st (port % 256) sp a v la lo, [])
  | .F1675f port sp a v la lo => (send_F1675f st (port % 256) sp a v la lo, [])
  | .F1675min port sp a v d1 m1 d2 m2 => (send_F1675min st (port % 256) sp a v d1 m1 d2 m2, [])
  | .SBS10G port h m s la lo al sp va => (send_SBS10G st (port % 256) h m s la lo al sp va, [])
  | .scorpion_kontronik port a b c d e f g h =>
      (send_scorpion_kontronik st (port % 256) a b c d e f g h, [])
  | .jetcat port a b c d e f g h i j l m n o =>
      (send_jetcat st (port % 256) a b c d e f g h i j l m n o, [])
  | .collect s => (handleSbus2Telemetry s st, [])
  | .tick env now => taskSendSbus2Telemetry k env st (now % TIMEUS_WRAP)

/-- The store reached from the zero-initialised arrays by a history of calls,
most recent call first. -/
def after (k : RxEnums) : List Action → Store
  | [] => Store.zero
  | a :: earlier => (Action.step k (after k earlier) a).1

/-- The time since the last inbound frame as the transmit task computes it:
`currentTimeUs - sbusGetLastFrameTime()` in the wrapping arithmetic of timeUs_t. -/
def elapsedTime (env : RxEnv) (currentTimeUs : Nat) : Nat :=
  (currentTimeUs + (TIMEUS_WRAP - env.sbusGetLastFrameTime % TIMEUS_WRAP)) % TIMEUS_WRAP

/-- The tick at time currentTimeUs resolves the global index i: the port and
protocol preconditions hold, the last inbound frame is at most 8 ms old, the
scheduler returns a local slot below 8 and `page * 8 + slot` is i. -/
def Resolves (k : RxEnums) (env : RxEnv) (currentTimeUs : Nat) (i : Fin 32) : Prop :=
  env.telemetrySharedPort = true ∧ env.receiverType = k.RX_TYPE_SERIAL ∧
  env.serialrx_provider = k.SERIALRX_SBUS2 ∧
  elapsedTime env currentTimeUs ≤ MS2US 8 ∧
  sbus2GetTelemetrySlot (elapsedTime env currentTimeUs) < SBUS2_TELEMETRY_SLOTS ∧
  env.sbusGetCurrentTelemetryPage * SBUS2_TELEMETRY_SLOTS
    + sbus2GetTelemetrySlot (elapsedTime env currentTimeUs) = i.val

instance (k : RxEnums) (env : RxEnv) (t : Nat) (i : Fin 32) : Decidable (Resolves k env t i) := by
  unfold Resolves
  infer_instance

/-- The action is a direct call of SBUS2_transmit_telemetry_data or a tick. -/
def Action.isPrimitive : Action → Bool
  | .transmit _ _ _ => true
  | .tick _ _ => true
  | _ => false

/-- The payload of the most recent direct call of SBUS2_transmit_telemetry_data
for slot i in a history (most recent call first), if there is one. -/
def lastWritten (i : Fin 32) : List Action → Option (Nat × Nat)
  | [] => none
  | .transmit slotId b0 b1 :: earlier =>
      if slotId % 256 = i.val then some (b0, b1) else lastWritten i earlier
  | _ :: earlier => lastWritten i earlier

/-- The store a sending tick leaves behind: the slot id of slot i rewritten from
the table and the minimum-resend time of slot i rearmed. -/
def armed (st : Store) (i : Fin 32) (currentTimeUs : Nat) : Store :=
  { sbusTelemetryData := setAt st.sbusTelemetryData i
      { slotId := sbus2SlotIds i
        data0 := (st.sbusTelemetryData i).data0
        data1 := (st.sbusTelemetryData i).data1 }
    sbusTelemetryDataUsed := st.sbusTelemetryDataUsed
    sbusTelemetryMinDelay :=
      setAt st.sbusTelemetryMinDelay i ((currentTimeUs + MS2US 1) % TIMEUS_WRAP) }

/-! ## Concrete configurations used in the examples -/

/-- Values for the two enumerators (any two numbers do). -/
def exEnums : RxEnums := { RX_TYPE_SERIAL := 1, SERIALRX_SBUS2 := 14 }

/-- A configured SBUS2 receiver on page 0 whose last frame arrived at the given time. -/
def exEnv (lastFrame : Nat) : RxEnv :=
  { telemetrySharedPort := true, receiverType := 1, serialrx_provider := 14,
    sbusGetLastFrameTime := lastFrame, sbusGetCurrentTelemetryPage := 0 }

/-- Slot 1 written with (0x12, 0x34) and then sent by a tick at time 3000,
2652 us after the frame that arrived at time 348. -/
def exHistory : List Action := [.tick (exEnv 348) 3000, .transmit 1 0x12 0x34]

/-- The ESC reading the collector uses: rpm and temperature of the ESC sensor
when ESC support is built in, data is present and not older than the maximum
age; otherwise 0 and 0. -/
def escReading (s : Sensors) : Nat × Int :=
  if s.USE_ESC_SENSOR then
    match s.escSensorGetData with
    | some e => if e.dataAge ≤ s.ESC_DATA_MAX_AGE then (e.rpm, e.temperature) else (0, 0)
    | none => (0, 0)
  else (0, 0)

/-- The GPS reading the collector uses: speed, latitude and longitude when GPS
support is built in and the fix is at least 2D; otherwise 0, 0 and 0. -/
def gpsReading (s : Sensors) : Nat × Int × Int :=
  if s.USE_GPS ∧ s.fixType ≥ s.GPS_FIX_2D then
    (s.groundSpeedKph, s.latitude_e6, s.longitude_e6)
  else (0, 0, 0)

/-- The temperature argument of each of the eight auxiliary slots: the reading
of sensor 0 divided by 10 when temperature sensors are built in and the reading
is valid, otherwise 0. -/
def auxTempArg (s : Sensors) : Int :=
  if s.USE_TEMPERATURE_SENSOR then tempArg (s.getSensorTemperature 0) else 0

/-- A sensor snapshot with everything available: 16.5 V, 4.1 V per cell,
12.34 A, 1500 mAh, an ESC at 13200 rpm and 41 degrees, a 3D fix at 52.520833,
13.409430 degrees and 36 km/h, and temperature readings in tenths of a degree. -/
def exSensors : Sensors :=
  { USE_ESC_SENSOR := true, USE_GPS := true, USE_TEMPERATURE_SENSOR := true,
    ESC_DATA_MAX_AGE := 10, GPS_FIX_2D := 1,
    voltage_x10 := 165, cellVoltage_x10 := 41, current_x100 := 1234, capacity := 1500,
    voltage_x100 := 1650, altitude := 120, vario := 2,
    escSensorGetData := some { dataAge := 0, rpm := 13200, temperature := 41 },
    fixType := 2, groundSpeedKph := 36, latitude_e6 := 52520833, longitude_e6 := 13409430,
    getIMUTemperature := some 305, getBaroTemperature := some 287,
    getSensorTemperature := fun i => if i = 0 then some 215 else none }

/-- The example snapshot with the ESC absent, no GPS fix and the IMU and baro
temperatures invalid. -/
def exSensorsNone : Sensors :=
  { exSensors with
    escSensorGetData := none, fixType := 0,
    getIMUTemperature := none, getBaroTemperature := none }

/-- The example snapshot with two valid auxiliary temperature sensors: sensor 0
at 21.5 degrees and sensor 1 at 30.0 degrees. -/
def exSensorsAux : Sensors :=
  { exSensors with
    getSensorTemperature := fun i => if i = 0 then some 215 else if i = 1 then some 300 else none }

/-- The local variable alt of send_SBS10G: the scaled altitude inside the
valid range, otherwise 0. -/
def SBS10G_alt (altitudeMeters : ℚ) : Nat :=
  if altitudeMeters ≥ -820 ∧ altitudeMeters ≤ 4830 then
    toU16 (Rat.floor (5 / 4 * (altitudeMeters + 820) + 1 / 2))
  else 0

/-- The variable speed of send_SBS10G after its error check: the speed with the
enable bit 0x200 below 512, otherwise 0. -/
def SBS10G_speed (speed : Nat) : Nat :=
  if speed < 512 then (speed ||| 0x200) % 65536 else 0

/-- The local variable lon of send_SBS10G. -/
def SBS10G_lon (longitude : ℚ) : Nat :=
  if longitude > 0 then toU32 (Rat.floor (600000 * longitude + 1 / 2))
  else (toU32 (Rat.floor (-600000 * longitude + 1 / 2))) ||| 0x8000000

/-- The local variable vario of send_SBS10G. -/
def SBS10G_vario (gpsVario : ℚ) : Nat :=
  if gpsVario ≥ -150 ∧ gpsVario ≤ 260 then
    ((toU16 (Rat.floor (10 * (gpsVario + 150) + 1 / 2))) ||| 0x1000) % 65536
  else 0

/-! ## Basic facts about the store write -/

theorem setAt_same {α : Type} (f : Fin 32 → α) (i : Fin 32) (v : α) : setAt f i v i = v := by
  simp [setAt]

theorem setAt_other {α : Type} (f : Fin 32 → α) (i j : Fin 32) (v : α) (h : j ≠ i) :
    setAt f i v j = f j := by
  simp [setAt, h]

/-- An accepted write, unfolded. -/
theorem transmit_accepted (st : Store) (i : Fin 32) (hi : 0 < i.val) (b0 b1 : Nat) :
    SBUS2_transmit_telemetry_data st i.val b0 b1 =
      { sbusTelemetryData :=
          setAt st.sbusTelemetryData i { slotId := sbus2SlotIds i, data0 := b0, data1 := b1 }
        sbusTelemetryDataUsed := setAt st.sbusTelemetryDataUsed i 1
        sbusTelemetryMinDelay := st.sbusTelemetryMinDelay } := by
  have h : 0 < i.val ∧ i.val < SBUS2_SLOT_COUNT := ⟨hi, i.isLt⟩
  simp [SBUS2_transmit_telemetry_data, h]

/-- A rejected write, unfolded. -/
theorem transmit_rejected (st : Store) (slotId b0 b1 : Nat) (h : slotId = 0 ∨ 32 ≤ slotId) :
    SBUS2_transmit_telemetry_data st slotId b0 b1 = st := by
  have hn : ¬ (0 < slotId ∧ slotId < SBUS2_SLOT_COUNT) := by
    simp only [SBUS2_SLOT_COUNT, SBUS2_TELEMETRY_PAGES, SBUS2_TELEMETRY_SLOTS]
    omega
  simp [SBUS2_transmit_telemetry_data, hn]

/-! ## C1, C2: the store write -/

/-- C1: for every index i with 1 <= i <= 31 and every payload (b0, b1),
SBUS2_transmit_telemetry_data leaves slot i with payload bytes b0, b1, slot id
sbus2SlotIds[i] and used flag set, and leaves the payload, slot id and used
flag of every other slot and every minimum-resend timestamp unchanged. -/
theorem C1_transmit_stores_slot (st : Store) (i : Nat) (h1 : 1 ≤ i) (h31 : i ≤ 31)
    (b0 b1 : Nat) :
    ((SBUS2_transmit_telemetry_data st i b0 b1).sbusTelemetryData ⟨i, by omega⟩).data0 = b0 ∧
    ((SBUS2_transmit_telemetry_data st i b0 b1).sbusTelemetryData ⟨i, by omega⟩).data1 = b1 ∧
    ((SBUS2_transmit_telemetry_data st i b0 b1).sbusTelemetryData ⟨i, by omega⟩).slotId
      = sbus2SlotIds ⟨i, by omega⟩ ∧
    (SBUS2_transmit_telemetry_data st i b0 b1).sbusTelemetryDataUsed ⟨i, by omega⟩ = 1 ∧
    (∀ j : Fin 32, j.val ≠ i →
      (SBUS2_transmit_telemetry_data st i b0 b1).sbusTelemetryData j = st.sbusTelemetryData j ∧
      (SBUS2_transmit_telemetry_data st i b0 b1).sbusTelemetryDataUsed j
        = st.sbusTelemetryDataUsed j) ∧
    (∀ j : Fin 32,
      (SBUS2_transmit_telemetry_data st i b0 b1).sbusTelemetryMinDelay j
        = st.sbusTelemetryMinDelay j) := by
  have hw := transmit_accepted st ⟨i, by omega⟩ (by simpa using h1) b0 b1
  simp only at hw
  rw [hw]
  refine ⟨by simp [setAt], by simp [setAt], by simp [setAt], by simp [setAt], ?_, fun _ => rfl⟩
  intro j hj
  have hne : j ≠ (⟨i, by omega⟩ : Fin 32) := fun e => hj (by rw [e])
  exact ⟨setAt_other _ _ _ _ hne, setAt_other _ _ _ _ hne⟩

/-- Witness for C1: writing (0x12, 0x34) to slot 5 of the zero store. -/
theorem C1_transmit_stores_slot_witness :
    ((SBUS2_transmit_telemetry_data Store.zero 5 0x12 0x34).sbusTelemetryData 5).data0 = 0x12 ∧
    ((SBUS2_transmit_telemetry_data Store.zero 5 0x12 0x34).sbusTelemetryData 5).data1 = 0x34 ∧
    ((SBUS2_transmit_telemetry_data Store.zero 5 0x12 0x34).sbusTelemetryData 5).slotId = 0xA3 ∧
    (SBUS2_transmit_telemetry_data Store.zero 5 0x12 0x34).sbusTelemetryDataUsed 5 = 1 ∧
    (SBUS2_transmit_telemetry_data Store.zero 5 0x12 0x34).sbusTelemetryDataUsed 6 = 0 ∧
    (SBUS2_transmit_telemetry_data Store.zero 5 0x12 0x34).sbusTelemetryMinDelay 5 = 0 :=
  have h := C1_transmit_stores_slot Store.zero 5 (by decide) (by decide) 0x12 0x34
  ⟨h.1, h.2.1, h.2.2.1, h.2.2.2.1, (h.2.2.2.2.1 6 (by decide)).2, h.2.2.2.2.2 5⟩

/-- C2: a call of SBUS2_transmit_telemetry_data with index 0 or with any index
of 32 or more returns the store it was given: all payloads, slot ids, used
flags and minimum-resend timestamps are as before. The function has no error
channel. -/
theorem C2_transmit_out_of_range_noop (st : Store) (slotId b0 b1 : Nat)
    (h : slotId = 0 ∨ 32 ≤ slotId) :
    SBUS2_transmit_telemetry_data st slotId b0 b1 = st :=
  transmit_rejected st slotId b0 b1 h

/-- Witness for C2: index 0 and index 32 on the store holding one written slot. -/
theorem C2_transmit_out_of_range_noop_witness :
    SBUS2_transmit_telemetry_data (SBUS2_transmit_telemetry_data Store.zero 5 1 2) 0 7 9
      = SBUS2_transmit_telemetry_data Store.zero 5 1 2 ∧
    SBUS2_transmit_telemetry_data (SBUS2_transmit_telemetry_data Store.zero 5 1 2) 32 7 9
      = SBUS2_transmit_telemetry_data Store.zero 5 1 2 :=
  ⟨C2_transmit_out_of_range_noop _ 0 7 9 (Or.inl rfl),
   C2_transmit_out_of_range_noop _ 32 7 9 (Or.inr (by decide))⟩

/-! ## The slot scheduler: C7, C8 -/

/-- The scheduler with its constants written out. -/
theorem slot_unfold (elapsed : Nat) :
    sbus2GetTelemetrySlot elapsed =
      if elapsed < 2000 then 255
      else if ((elapsed - 2000) + 4294967296
            - ((((elapsed - 2000) % 650 + 4294967296 - 1) % 4294967296) % 256 * 650) % 4294967296)
            % 4294967296 > 325 then 255
      else (((elapsed - 2000) % 650 + 4294967296 - 1) % 4294967296) % 256 := by
  simp only [sbus2GetTelemetrySlot, SBUS2_DEADTIME, MS2US, SBUS2_SLOT_TIME, SBUS2_SLOT_DELAY_MAX,
    UINT_WRAP]
  rfl

/-- The truncated remainder at the first microsecond of the s-th candidate window. -/
theorem slot_raw_at (s : Nat) (hs : s ≤ 254) :
    (((2001 + 651 * s - 2000) % 650 + 4294967296 - 1) % 4294967296) % 256 = s := by
  have h1 : 2001 + 651 * s - 2000 = (s + 1) + 650 * s := by omega
  have h2 : (2001 + 651 * s - 2000) % 650 = s + 1 := by
    rw [h1, Nat.add_mul_mod_self_left]
    exact Nat.mod_eq_of_lt (by omega)
  rw [h2]
  omega

/-- The scheduler returns s at elapsed time 2001 + 651 s, for every s up to 254. -/
theorem slot_at (s : Nat) (hs : s ≤ 254) : sbus2GetTelemetrySlot (2001 + 651 * s) = s := by
  have h650 : s * 650 % 4294967296 = s * 650 := Nat.mod_eq_of_lt (by omega)
  rw [slot_unfold, slot_raw_at s hs, h650]
  split_ifs with h1 h2
  · omega
  · omega
  · rfl

/-- The result of the scheduler is an 8-bit value. -/
theorem slot_le_255 (elapsed : Nat) : sbus2GetTelemetrySlot elapsed ≤ 255 := by
  rw [slot_unfold]
  split_ifs <;> omega

/-- C7: for every elapsed time (a 32-bit microsecond count), if
sbus2GetTelemetrySlot returns a slot s other than 0xFF, then elapsed is at
least 2000 us and the offset (elapsed - 2000) - 650 s lies between 0 and
325 us; and the result is 0xFF for every elapsed time below 2000 us. Hence
the result is also 0xFF whenever the in-window offset exceeds 325 us. -/
theorem C7_slot_only_inside_window (elapsed : Nat) (hE : elapsed < TIMEUS_WRAP) :
    (sbus2GetTelemetrySlot elapsed ≠ 0xFF →
      2000 ≤ elapsed ∧
      0 ≤ ((elapsed : Int) - 2000) - 650 * (sbus2GetTelemetrySlot elapsed : Int) ∧
      ((elapsed : Int) - 2000) - 650 * (sbus2GetTelemetrySlot elapsed : Int) ≤ 325) ∧
    (elapsed < 2000 → sbus2GetTelemetrySlot elapsed = 0xFF) := by
  simp only [TIMEUS_WRAP] at hE
  constructor
  · intro hne
    rw [slot_unfold] at hne ⊢
    have hs : (((elapsed - 2000) % 650 + 4294967296 - 1) % 4294967296) % 256 ≤ 255 := by omega
    generalize (((elapsed - 2000) % 650 + 4294967296 - 1) % 4294967296) % 256 = s at hne hs ⊢
    split_ifs at hne ⊢ with h1 h2
    · exact absurd rfl hne
    · exact absurd rfl hne
    · omega
  · intro hlt
    rw [slot_unfold, if_pos hlt]

/-- Witness for C7: at 2652 us the scheduler returns slot 1, with offset 2 us;
at 1999 us it returns 0xFF. -/
theorem C7_slot_only_inside_window_witness :
    sbus2GetTelemetrySlot 2652 = 1 ∧
    (2000 ≤ 2652 ∧
      0 ≤ ((2652 : Nat) : Int) - 2000 - 650 * (sbus2GetTelemetrySlot 2652 : Int) ∧
      ((2652 : Nat) : Int) - 2000 - 650 * (sbus2GetTelemetrySlot 2652 : Int) ≤ 325) ∧
    sbus2GetTelemetrySlot 1999 = 0xFF :=
  ⟨by decide,
   (C7_slot_only_inside_window 2652 (by decide)).1 (by decide),
   (C7_slot_only_inside_window 1999 (by decide)).2 (by decide)⟩

/-- C8, as stated, fails: 7209 us after the frame the scheduler returns 8,
which is neither 0xFF nor a local slot number in 0..7. -/
theorem C8_counterexample :
    sbus2GetTelemetrySlot 7209 = 8 ∧
    ¬ (sbus2GetTelemetrySlot 7209 = 0xFF ∨ sbus2GetTelemetrySlot 7209 ≤ 7) := by
  decide

/-- C8, amended: sbus2GetTelemetrySlot returns either 0xFF or a number in
0..254, and every number s of that range is returned (at elapsed time
2001 + 651 s); the restriction to the local slots 0..7 is made by the caller:
taskSendSbus2Telemetry sends nothing and changes nothing when the result is
8 or more. -/
theorem C8_slot_range_amended :
    (∀ elapsed : Nat,
      sbus2GetTelemetrySlot elapsed = 0xFF ∨ sbus2GetTelemetrySlot elapsed ≤ 254) ∧
    (∀ s : Nat, s ≤ 254 → sbus2GetTelemetrySlot (2001 + 651 * s) = s) ∧
    (∀ (k : RxEnums) (env : RxEnv) (st : Store) (currentTimeUs : Nat),
      8 ≤ sbus2GetTelemetrySlot (elapsedTime env currentTimeUs) →
      taskSendSbus2Telemetry k env st currentTimeUs = (st, [])) := by
  refine ⟨fun elapsed => ?_, slot_at, ?_⟩
  · have := slot_le_255 elapsed
    omega
  · intro k env st now h8
    have hn : ¬ sbus2GetTelemetrySlot (elapsedTime env now) < SBUS2_TELEMETRY_SLOTS := by
      simp only [SBUS2_TELEMETRY_SLOTS]
      omega
    simp only [elapsedTime] at hn
    unfold taskSendSbus2Telemetry
    simp only [hn, if_false]
    split_ifs <;> rfl

/-- Witness for the amended C8: the value 8 at 7209 us, and a tick at that
elapsed time leaves the example store alone. -/
theorem C8_slot_range_amended_witness :
    sbus2GetTelemetrySlot (2001 + 651 * 8) = 8 ∧
    taskSendSbus2Telemetry exEnums (exEnv 0) (after exEnums exHistory) 7209
      = (after exEnums exHistory, []) :=
  ⟨C8_slot_range_amended.2.1 8 (by decide),
   C8_slot_range_amended.2.2 exEnums (exEnv 0) (after exEnums exHistory) 7209 (by decide)⟩

/-! ## The transmit task: C3, C5, C6, C9 -/

/-- A tick that resolves index i sends exactly when slot i is used and its
minimum-resend time is strictly before the current time. -/
theorem task_of_resolves (k : RxEnums) (env : RxEnv) (st : Store) (now : Nat) (i : Fin 32)
    (h : Resolves k env now i) :
    taskSendSbus2Telemetry k env st now =
      if st.sbusTelemetryDataUsed i ≠ 0 ∧ st.sbusTelemetryMinDelay i < now then
        (armed st i now,
          [sbus2SlotIds i, (st.sbusTelemetryData i).data0, (st.sbusTelemetryData i).data1])
      else (st, []) := by
  obtain ⟨hp, hr, hs, he, hl, hi⟩ := h
  obtain ⟨iv, hiv⟩ := i
  simp only [elapsedTime] at he hl hi
  subst hi
  have hpre : ¬ (env.telemetrySharedPort = false ∨ env.receiverType ≠ k.RX_TYPE_SERIAL ∨
      env.serialrx_provider ≠ k.SERIALRX_SBUS2) := by
    simp [hp, hr, hs]
  have he2 : ¬ ((now + (TIMEUS_WRAP - env.sbusGetLastFrameTime % TIMEUS_WRAP)) % TIMEUS_WRAP
      > MS2US 8) := by omega
  have hcount : env.sbusGetCurrentTelemetryPage * SBUS2_TELEMETRY_SLOTS +
      sbus2GetTelemetrySlot
        ((now + (TIMEUS_WRAP - env.sbusGetLastFrameTime % TIMEUS_WRAP)) % TIMEUS_WRAP)
      < SBUS2_SLOT_COUNT := hiv
  unfold taskSendSbus2Telemetry
  simp only [hpre, he2, hl, hcount, if_true, if_false, dite_true, armed]

/-- A tick whose output is not empty resolves some index. -/
theorem resolves_of_output (k : RxEnums) (env : RxEnv) (st : Store) (now : Nat)
    (h : (taskSendSbus2Telemetry k env st now).2 ≠ []) : ∃ i, Resolves k env now i := by
  unfold taskSendSbus2Telemetry at h
  dsimp only at h
  split_ifs at h with h1 h2 h3 h4 h5
  all_goals first
    | exact absurd rfl h
    | skip
  refine ⟨⟨_, h4⟩, ?_⟩
  simp only [not_or, not_not, Bool.not_eq_false] at h1
  exact ⟨h1.1, h1.2.1, h1.2.2, by simp only [elapsedTime]; omega, h3, rfl⟩

/-- A tick that resolves no index sends nothing and changes nothing. -/
theorem task_of_not_resolves (k : RxEnums) (env : RxEnv) (st : Store) (now : Nat)
    (h : ∀ i, ¬ Resolves k env now i) : taskSendSbus2Telemetry k env st now = (st, []) := by
  unfold taskSendSbus2Telemetry
  dsimp only
  split_ifs with h1 h2 h3 h4 h5
  all_goals first
    | rfl
    | skip
  exfalso
  refine h ⟨_, h4⟩ ?_
  simp only [not_or, not_not, Bool.not_eq_false] at h1
  exact ⟨h1.1, h1.2.1, h1.2.2, by simp only [elapsedTime]; omega, h3, rfl⟩

/-- At most one index is resolved by a tick. -/
theorem resolves_unique (k : RxEnums) (env : RxEnv) (now : Nat) (i j : Fin 32)
    (hi : Resolves k env now i) (hj : Resolves k env now j) : i = j := by
  apply Fin.ext
  rw [← hi.2.2.2.2.2, ← hj.2.2.2.2.2]

/-- C3, as stated, fails: slot 1 is used and, after having been sent at time
3000, has minimum-resend time 4000; a tick at time 4000 that resolves index 1
finds the minimum-resend time equal to the current time and sends nothing. -/
theorem C3_counterexample :
    Resolves exEnums (exEnv 1348) 4000 1 ∧
    (after exEnums exHistory).sbusTelemetryDataUsed 1 ≠ 0 ∧
    (after exEnums exHistory).sbusTelemetryMinDelay 1 = 4000 ∧
    (after exEnums exHistory).sbusTelemetryMinDelay 1 ≤ 4000 ∧
    (taskSendSbus2Telemetry exEnums (exEnv 1348) (after exEnums exHistory) 4000).2 = [] := by
  decide

/-- C3, amended: for every store, time now and global index i resolved for the
current tick (preconditions met, elapsed at most 8 ms, local slot below 8,
i = page * 8 + slot below 32), taskSendSbus2Telemetry emits the frame of slot i
if and only if the used flag of slot i is set and its minimum-resend time is
strictly below now; otherwise it emits nothing. A slot whose minimum-resend
time equals now is not sent. -/
theorem C3_task_sends_iff_amended (k : RxEnums) (env : RxEnv) (st : Store) (now : Nat)
    (i : Fin 32) (h : Resolves k env now i) :
    ((taskSendSbus2Telemetry k env st now).2 =
        [sbus2SlotIds i, (st.sbusTelemetryData i).data0, (st.sbusTelemetryData i).data1]
      ↔ st.sbusTelemetryDataUsed i ≠ 0 ∧ st.sbusTelemetryMinDelay i < now) ∧
    ((taskSendSbus2Telemetry k env st now).2 = []
      ↔ ¬ (st.sbusTelemetryDataUsed i ≠ 0 ∧ st.sbusTelemetryMinDelay i < now)) ∧
    (st.sbusTelemetryMinDelay i = now → (taskSendSbus2Telemetry k env st now).2 = []) := by
  rw [task_of_resolves k env st now i h]
  by_cases hc : st.sbusTelemetryDataUsed i ≠ 0 ∧ st.sbusTelemetryMinDelay i < now
  · rw [if_pos hc]
    refine ⟨⟨fun _ => hc, fun _ => rfl⟩, ⟨fun e => ?_, fun e => absurd hc e⟩, fun e => ?_⟩
    · simp at e
    · omega
  · rw [if_neg hc]
    refine ⟨⟨fun e => ?_, fun e => absurd e hc⟩, ⟨fun _ => hc, fun _ => rfl⟩, fun _ => rfl⟩
    simp at e

/-- Witness for the amended C3: slot 1, written and never sent, is sent by the
tick at time 3000; one millisecond later, at time 4000, it is not. -/
theorem C3_task_sends_iff_amended_witness :
    Resolves exEnums (exEnv 348) 3000 1 ∧
    (taskSendSbus2Telemetry exEnums (exEnv 348) (after exEnums [.transmit 1 0x12 0x34]) 3000).2
      = [0x83, 0x12, 0x34] ∧
    (taskSendSbus2Telemetry exEnums (exEnv 1348) (after exEnums exHistory) 4000).2 = [] :=
  ⟨by decide,
   (C3_task_sends_iff_amended exEnums (exEnv 348) (after exEnums [.transmit 1 0x12 0x34]) 3000 1
      (by decide)).1.2 (by decide),
   (C3_task_sends_iff_amended exEnums (exEnv 1348) (after exEnums exHistory) 4000 1
      (by decide)).2.2 (by decide)⟩

/-- C5: a tick that emits the frame of slot i at time now sets the
minimum-resend time of slot i to now + 1000 us (in the 32-bit arithmetic of the
time counter, so exactly now + 1000 whenever that fits) and changes nothing
else a reader can observe: the used flag of slot i was set and stays as it
was, the payload of slot i is unchanged, and the frame, used flag and
minimum-resend time of every other slot are unchanged; the slot id of slot i
is rewritten with its table value, which is the value any accepted write had
put there. A tick that emits nothing returns the store unchanged. -/
theorem C5_tick_frame_effect (k : RxEnums) (env : RxEnv) (st : Store) (now : Nat) :
    (∀ i : Fin 32, Resolves k env now i → (taskSendSbus2Telemetry k env st now).2 ≠ [] →
      (taskSendSbus2Telemetry k env st now).1.sbusTelemetryMinDelay i
        = (now + 1000) % TIMEUS_WRAP ∧
      (now + 1000 < TIMEUS_WRAP →
        (taskSendSbus2Telemetry k env st now).1.sbusTelemetryMinDelay i = now + 1000) ∧
      st.sbusTelemetryDataUsed i ≠ 0 ∧
      (taskSendSbus2Telemetry k env st now).1.sbusTelemetryDataUsed i
        = st.sbusTelemetryDataUsed i ∧
      ((taskSendSbus2Telemetry k env st now).1.sbusTelemetryData i).data0
        = (st.sbusTelemetryData i).data0 ∧
      ((taskSendSbus2Telemetry k env st now).1.sbusTelemetryData i).data1
        = (st.sbusTelemetryData i).data1 ∧
      ((taskSendSbus2Telemetry k env st now).1.sbusTelemetryData i).slotId = sbus2SlotIds i ∧
      (∀ j : Fin 32, j ≠ i →
        (taskSendSbus2Telemetry k env st now).1.sbusTelemetryData j = st.sbusTelemetryData j ∧
        (taskSendSbus2Telemetry k env st now).1.sbusTelemetryDataUsed j
          = st.sbusTelemetryDataUsed j ∧
        (taskSendSbus2Telemetry k env st now).1.sbusTelemetryMinDelay j
          = st.sbusTelemetryMinDelay j)) ∧
    ((taskSendSbus2Telemetry k env st now).2 = [] →
      (taskSendSbus2Telemetry k env st now).1 = st) := by
  constructor
  · intro i hres hout
    rw [task_of_resolves k env st now i hres] at hout ⊢
    by_cases hc : st.sbusTelemetryDataUsed i ≠ 0 ∧ st.sbusTelemetryMinDelay i < now
    · rw [if_pos hc]
      have hmd : (armed st i now).sbusTelemetryMinDelay i = (now + 1000) % TIMEUS_WRAP := by
        simp [armed, setAt, MS2US]
      refine ⟨hmd, fun hfit => ?_, hc.1, rfl, by simp [armed, setAt], by simp [armed, setAt],
        by simp [armed, setAt], fun j hj => ?_⟩
      · show (armed st i now).sbusTelemetryMinDelay i = now + 1000
        rw [hmd]
        exact Nat.mod_eq_of_lt hfit
      · exact ⟨setAt_other _ _ _ _ hj, rfl, setAt_other _ _ _ _ hj⟩
    · rw [if_neg hc] at hout
      exact absurd rfl hout
  · intro hempty
    by_cases hres : ∃ i, Resolves k env now i
    · obtain ⟨i, hi⟩ := hres
      rw [task_of_resolves k env st now i hi] at hempty ⊢
      by_cases hc : st.sbusTelemetryDataUsed i ≠ 0 ∧ st.sbusTelemetryMinDelay i < now
      · rw [if_pos hc] at hempty
        simp at hempty
      · rw [if_neg hc]
    · rw [task_of_not_resolves k env st now (fun i hi => hres ⟨i, hi⟩)]

/-- Witness for C5: the tick at time 3000 sends slot 1 and rearms it to 4000;
the tick at time 4000 sends nothing and leaves the store as it was. -/
theorem C5_tick_frame_effect_witness :
    (taskSendSbus2Telemetry exEnums (exEnv 348) (after exEnums [.transmit 1 0x12 0x34])
      3000).1.sbusTelemetryMinDelay 1 = 4000 ∧
    (taskSendSbus2Telemetry exEnums (exEnv 1348) (after exEnums exHistory) 4000).1
      = after exEnums exHistory :=
  ⟨((C5_tick_frame_effect exEnums (exEnv 348) (after exEnums [.transmit 1 0x12 0x34]) 3000).1 1
      (by decide) (by decide)).2.1 (by decide),
   (C5_tick_frame_effect exEnums (exEnv 1348) (after exEnums exHistory) 4000).2 (by decide)⟩

/-- C6: with 32-bit microsecond times t and t2 such that t + 1000 does not
wrap, if a tick at time t emits the frame of slot i, then a tick at any time
t2 below t + 1000 that resolves the same index i, run on the store the first
tick left, emits nothing and changes nothing. This holds for every index, in
particular for the valid indices 1..31. -/
theorem C6_one_frame_per_millisecond (k : RxEnums) (env env2 : RxEnv) (st : Store)
    (t t2 : Nat) (i : Fin 32) (hwrap : t + 1000 < TIMEUS_WRAP)
    (hres : Resolves k env t i) (hemit : (taskSendSbus2Telemetry k env st t).2 ≠ [])
    (hres2 : Resolves k env2 t2 i) (hlt : t2 < t + 1000) :
    taskSendSbus2Telemetry k env2 (taskSendSbus2Telemetry k env st t).1 t2
      = ((taskSendSbus2Telemetry k env st t).1, []) := by
  rw [task_of_resolves k env2 _ t2 i hres2]
  rw [task_of_resolves k env st t i hres] at hemit ⊢
  by_cases hc : st.sbusTelemetryDataUsed i ≠ 0 ∧ st.sbusTelemetryMinDelay i < t
  · rw [if_pos hc]
    have hmd : (armed st i t).sbusTelemetryMinDelay i = t + 1000 := by
      simp only [armed, setAt, MS2US, if_true]
      exact Nat.mod_eq_of_lt hwrap
    rw [if_neg]
    rw [hmd]
    omega
  · rw [if_neg hc] at hemit
    exact absurd rfl hemit

/-- Witness for C6: slot 1 is sent at time 3000; a tick at time 3652 that again
resolves index 1 sends nothing. -/
theorem C6_one_frame_per_millisecond_witness :
    (taskSendSbus2Telemetry exEnums (exEnv 348) (after exEnums [.transmit 1 0x12 0x34]) 3000).2
      = [0x83, 0x12, 0x34] ∧
    Resolves exEnums (exEnv 1000) 3652 1 ∧
    (taskSendSbus2Telemetry exEnums (exEnv 1000)
      (taskSendSbus2Telemetry exEnums (exEnv 348) (after exEnums [.transmit 1 0x12 0x34])
        3000).1 3652).2 = [] :=
  ⟨by decide, by decide,
   congrArg Prod.snd
    (C6_one_frame_per_millisecond exEnums (exEnv 348) (exEnv 1000)
      (after exEnums [.transmit 1 0x12 0x34]) 3000 3652 1 (by decide) (by decide) (by decide)
      (by decide) (by decide))⟩

/-- C9: if the time elapsed since the last inbound frame exceeds 8000 us, or
there is no shared telemetry port, or the receiver type is not serial, or the
serial provider is not SBUS2, then taskSendSbus2Telemetry writes no byte to the
serial port and returns the store unchanged. -/
theorem C9_task_preconditions (k : RxEnums) (env : RxEnv) (st : Store) (currentTimeUs : Nat)
    (h : elapsedTime env currentTimeUs > 8000 ∨ env.telemetrySharedPort = false ∨
      env.receiverType ≠ k.RX_TYPE_SERIAL ∨ env.serialrx_provider ≠ k.SERIALRX_SBUS2) :
    taskSendSbus2Telemetry k env st currentTimeUs = (st, []) := by
  apply task_of_not_resolves
  rintro i ⟨hp, hr, hs, he, -, -⟩
  simp only [MS2US] at he
  rcases h with h | h | h | h
  · omega
  · rw [hp] at h
    exact absurd h (by decide)
  · exact h hr
  · exact h hs

/-- Witness for C9: a frame 8001 us old, a missing port, a receiver that is
not serial and a provider that is not SBUS2, each on the store with a used,
sendable slot. -/
theorem C9_task_preconditions_witness :
    taskSendSbus2Telemetry exEnums (exEnv 0) (after exEnums exHistory) 8001
      = (after exEnums exHistory, []) ∧
    taskSendSbus2Telemetry exEnums { exEnv 7348 with telemetrySharedPort := false }
      (after exEnums exHistory) 10000 = (after exEnums exHistory, []) ∧
    taskSendSbus2Telemetry exEnums { exEnv 7348 with receiverType := 2 }
      (after exEnums exHistory) 10000 = (after exEnums exHistory, []) ∧
    taskSendSbus2Telemetry exEnums { exEnv 7348 with serialrx_provider := 2 }
      (after exEnums exHistory) 10000 = (after exEnums exHistory, []) :=
  ⟨C9_task_preconditions _ _ _ _ (Or.inl (by decide)),
   C9_task_preconditions _ _ _ _ (Or.inr (Or.inl rfl)),
   C9_task_preconditions _ _ _ _ (Or.inr (Or.inr (Or.inl (by decide)))),
   C9_task_preconditions _ _ _ _ (Or.inr (Or.inr (Or.inr (by decide))))⟩

/-! ## Index 0 is never used: C10 -/

/-- A store write never sets the used flag of index 0. -/
theorem transmit_used_zero (st : Store) (slotId b0 b1 : Nat)
    (h : st.sbusTelemetryDataUsed 0 = 0) :
    (SBUS2_transmit_telemetry_data st slotId b0 b1).sbusTelemetryDataUsed 0 = 0 := by
  unfold SBUS2_transmit_telemetry_data
  split_ifs with hc
  · have hne : (0 : Fin 32) ≠ ⟨slotId, hc.2⟩ := by
      intro e
      have := congrArg Fin.val e
      simp at this
      omega
    simp only [setAt, if_neg hne]
    exact h
  · exact h

/-- A tick never changes a used flag. -/
theorem task_used (k : RxEnums) (env : RxEnv) (st : Store) (now : Nat) :
    (taskSendSbus2Telemetry k env st now).1.sbusTelemetryDataUsed = st.sbusTelemetryDataUsed := by
  unfold taskSendSbus2Telemetry
  dsimp only
  split_ifs <;> rfl

theorem send_RPM_used_zero (st : Store) (port r : Nat) (h : st.sbusTelemetryDataUsed 0 = 0) :
    (send_RPM st port r).sbusTelemetryDataUsed 0 = 0 := by
  unfold send_RPM
  exact transmit_used_zero _ _ _ _ h

theorem send_temp125_used_zero (st : Store) (port : Nat) (t : Int)
    (h : st.sbusTelemetryDataUsed 0 = 0) :
    (send_temp125 st port t).sbusTelemetryDataUsed 0 = 0 := by
  unfold send_temp125
  exact transmit_used_zero _ _ _ _ h

theorem send_SBS01T_used_zero (st : Store) (port : Nat) (t : Int)
    (h : st.sbusTelemetryDataUsed 0 = 0) :
    (send_SBS01T st port t).sbusTelemetryDataUsed 0 = 0 := by
  unfold send_SBS01T
  exact transmit_used_zero _ _ _ _ h

theorem send_voltage_used_zero (st : Store) (port v1 v2 : Nat)
    (h : st.sbusTelemetryDataUsed 0 = 0) :
    (send_voltage st port v1 v2).sbusTelemetryDataUsed 0 = 0 := by
  unfold send_voltage
  dsimp only
  repeat first
    | exact h
    | apply transmit_used_zero

theorem send_s1678_current_used_zero (st : Store) (port c cap v : Nat)
    (h : st.sbusTelemetryDataUsed 0 = 0) :
    (send_s1678_current st port c cap v).sbusTelemetryDataUsed 0 = 0 := by
  unfold send_s1678_current
  dsimp only
  repeat first
    | exact h
    | apply transmit_used_zero

theorem send_f1675_gps_used_zero (st : Store) (port sp : Nat) (a v la lo : Int)
    (h : st.sbusTelemetryDataUsed 0 = 0) :
    (send_f1675_gps st port sp a v la lo).sbusTelemetryDataUsed 0 = 0 := by
  unfold send_f1675_gps
  dsimp only
  repeat first
    | exact h
    | apply transmit_used_zero

theorem send_f1672_vario_used_zero (st : Store) (port : Nat) (a v : Int)
    (h : st.sbusTelemetryDataUsed 0 = 0) :
    (send_f1672_vario st port a v).sbusTelemetryDataUsed 0 = 0 := by
  unfold send_f1672_vario
  dsimp only
  repeat first
    | exact h
    | apply transmit_used_zero

theorem send_f1712_vario_used_zero (st : Store) (port : Nat) (a v : Int)
    (h : st.sbusTelemetryDataUsed 0 = 0) :
    (send_f1712_vario st port a v).sbusTelemetryDataUsed 0 = 0 := by
  unfold send_f1712_vario
  dsimp only
  repeat first
    | exact h
    | apply transmit_used_zero

theorem send_SBS10G_used_zero (st : Store) (port hh mm ss : Nat) (la lo al : ℚ) (sp : Nat)
    (va : ℚ) (h : st.sbusTelemetryDataUsed 0 = 0) :
    (send_SBS10G st port hh mm ss la lo al sp va).sbusTelemetryDataUsed 0 = 0 := by
  unfold send_SBS10G
  dsimp only
  repeat first
    | exact h
    | apply transmit_used_zero

theorem send_scorpion_kontronik_used_zero (st : Store) (port a b c d e f g i : Nat)
    (h : st.sbusTelemetryDataUsed 0 = 0) :
    (send_scorpion_kontronik st port a b c d e f g i).sbusTelemetryDataUsed 0 = 0 := by
  unfold send_scorpion_kontronik
  dsimp only
  repeat first
    | exact h
    | apply transmit_used_zero

theorem send_jetcat_used_zero (st : Store) (port a b c d e f g i j l m n o p : Nat)
    (h : st.sbusTelemetryDataUsed 0 = 0) :
    (send_jetcat st port a b c d e f g i j l m n o p).sbusTelemetryDataUsed 0 = 0 := by
  unfold send_jetcat
  dsimp only
  repeat first
    | exact h
    | apply transmit_used_zero

theorem auxTempLoop_used_zero (s : Sensors) (n : Nat) :
    ∀ (st : Store) (i : Nat), st.sbusTelemetryDataUsed 0 = 0 →
      (auxTempLoop s st i n).sbusTelemetryDataUsed 0 = 0 := by
  induction n with
  | zero => intro st i h; exact h
  | succ n ih =>
    intro st i h
    unfold auxTempLoop
    apply ih
    dsimp only
    split_ifs <;> exact send_SBS01T_used_zero _ _ _ h

theorem handleSbus2Telemetry_used_zero (s : Sensors) (st : Store)
    (h : st.sbusTelemetryDataUsed 0 = 0) :
    (handleSbus2Telemetry s st).sbusTelemetryDataUsed 0 = 0 := by
  unfold handleSbus2Telemetry
  dsimp only
  apply auxTempLoop_used_zero
  apply send_SBS01T_used_zero
  apply send_SBS01T_used_zero
  unfold send_F1675f
  apply send_f1675_gps_used_zero
  apply send_SBS01T_used_zero
  apply send_RPM_used_zero
  apply send_s1678_current_used_zero
  apply send_voltage_used_zero
  exact h

/-- No action sets the used flag of index 0. -/
theorem step_used_zero (k : RxEnums) (st : Store) (a : Action)
    (h : st.sbusTelemetryDataUsed 0 = 0) :
    (Action.step k st a).1.sbusTelemetryDataUsed 0 = 0 := by
  cases a with
  | transmit s b0 b1 => exact transmit_used_zero _ _ _ _ h
  | RPM p r => exact send_RPM_used_zero _ _ _ h
  | temp125 p t => exact send_temp125_used_zero _ _ _ h
  | SBS01T p t => exact send_SBS01T_used_zero _ _ _ h
  | voltage p v1 v2 => exact send_voltage_used_zero _ _ _ _ h
  | s1678_current p c cap v => exact send_s1678_current_used_zero _ _ _ _ _ h
  | f1675_gps p sp a v la lo => exact send_f1675_gps_used_zero _ _ _ _ _ _ _ h
  | f1672_vario p a v => exact send_f1672_vario_used_zero _ _ _ _ h
  | f1712_vario p a v => exact send_f1712_vario_used_zero _ _ _ _ h
  | F1675 p sp a v la lo =>
    show (send_F1675 st (p % 256) sp a v la lo).sbusTelemetryDataUsed 0 = 0
    unfold send_F1675
    exact send_f1675_gps_used_zero _ _ _ _ _ _ _ h
  | F1675f p sp a v la lo =>
    show (send_F1675f st (p % 256) sp a v la lo).sbusTelemetryDataUsed 0 = 0
    unfold send_F1675f
    exact send_f1675_gps_used_zero _ _ _ _ _ _ _ h
  | F1675min p sp a v d1 m1 d2 m2 =>
    show (send_F1675min st (p % 256) sp a v d1 m1 d2 m2).sbusTelemetryDataUsed 0 = 0
    unfold send_F1675min
    exact send_f1675_gps_used_zero _ _ _ _ _ _ _ h
  | SBS10G p hh mm ss la lo al sp va => exact send_SBS10G_used_zero _ _ _ _ _ _ _ _ _ _ h
  | scorpion_kontronik p a b c d e f g i =>
    exact send_scorpion_kontronik_used_zero _ _ _ _ _ _ _ _ _ _ h
  | jetcat p a b c d e f g i j l m n o q =>
    exact send_jetcat_used_zero _ _ _ _ _ _ _ _ _ _ _ _ _ _ _ _ h
  | collect s => exact handleSbus2Telemetry_used_zero s st h
  | tick env now =>
    show (taskSendSbus2Telemetry k env st (now % TIMEUS_WRAP)).1.sbusTelemetryDataUsed 0 = 0
    rw [task_used]
    exact h

/-- The used flag of index 0 is clear after every history. -/
theorem after_used_zero (k : RxEnums) (hist : List Action) :
    (after k hist).sbusTelemetryDataUsed 0 = 0 := by
  induction hist with
  | nil => rfl
  | cons a earlier ih => exact step_used_zero k _ a ih

/-- C10: in every state reached from the zero-initialised store by any sequence
of encoder calls (with any port argument, converted to 8 bits as the C call
does, so including ports whose offsets wrap or exceed 31), direct store writes,
collector cycles and transmit ticks, the used flag of index 0 is clear; hence a
tick that resolves index 0 emits nothing, and no tick emits a frame that
starts with the slot id 0x03 of index 0. -/
theorem C10_index_zero_never_used (k : RxEnums) (hist : List Action) :
    (after k hist).sbusTelemetryDataUsed 0 = 0 ∧
    (∀ (env : RxEnv) (now : Nat), Resolves k env now 0 →
      taskSendSbus2Telemetry k env (after k hist) now = (after k hist, [])) ∧
    (∀ (env : RxEnv) (now : Nat),
      (taskSendSbus2Telemetry k env (after k hist) now).2.head? ≠ some (sbus2SlotIds 0)) := by
  have h0 := after_used_zero k hist
  have hzero : ∀ (env : RxEnv) (now : Nat), Resolves k env now 0 →
      taskSendSbus2Telemetry k env (after k hist) now = (after k hist, []) := by
    intro env now hres
    rw [task_of_resolves k env _ now 0 hres, if_neg]
    intro hc
    exact hc.1 h0
  refine ⟨h0, hzero, ?_⟩
  intro env now
  by_cases hres : ∃ i, Resolves k env now i
  · obtain ⟨i, hi⟩ := hres
    by_cases hi0 : i = 0
    · subst hi0
      rw [hzero env now hi]
      simp
    · rw [task_of_resolves k env _ now i hi]
      split_ifs
      · have hinj : ∀ j : Fin 32, j ≠ 0 → sbus2SlotIds j ≠ sbus2SlotIds 0 := by decide
        simpa using hinj i hi0
      · simp
  · rw [task_of_not_resolves k env _ now (fun i hi => hres ⟨i, hi⟩)]
    simp

/-- Witness for C10: after a direct write to index 0, a two-slot encoder on
port 255 (whose second slot wraps to 0), a three-slot encoder on port 254 and
a tick, the used flag of index 0 is clear while slot 1, reached by the
wrapped offset 254 + 3 - 256, is used. -/
theorem C10_index_zero_never_used_witness :
    (after exEnums [.tick (exEnv 348) 3000, .s1678_current 254 1 2 3, .voltage 255 5 6,
      .transmit 0 1 2]).sbusTelemetryDataUsed 0 = 0 ∧
    (after exEnums [.tick (exEnv 348) 3000, .s1678_current 255 1 2 3, .voltage 255 5 6,
      .transmit 0 1 2]).sbusTelemetryDataUsed 0 = 0 ∧
    (after exEnums [.tick (exEnv 348) 3000, .s1678_current 255 1 2 3, .voltage 255 5 6,
      .transmit 0 1 2]).sbusTelemetryDataUsed 1 = 1 :=
  ⟨(C10_index_zero_never_used exEnums _).1, (C10_index_zero_never_used exEnums _).1, by decide⟩

/-! ## The bytes on the wire: C4 -/

/-- A tick never changes a payload byte. -/
theorem task_payload (k : RxEnums) (env : RxEnv) (st : Store) (now : Nat) (i : Fin 32) :
    ((taskSendSbus2Telemetry k env st now).1.sbusTelemetryData i).data0
      = (st.sbusTelemetryData i).data0 ∧
    ((taskSendSbus2Telemetry k env st now).1.sbusTelemetryData i).data1
      = (st.sbusTelemetryData i).data1 := by
  unfold taskSendSbus2Telemetry
  dsimp only
  split_ifs
  all_goals first
    | exact ⟨rfl, rfl⟩
    | skip
  simp only [setAt]
  split_ifs with hj
  · subst hj
    exact ⟨rfl, rfl⟩
  · exact ⟨rfl, rfl⟩

/-- In a history of direct writes and ticks, a used slot holds the payload of
the most recent write to it. -/
theorem after_payload (k : RxEnums) (hist : List Action)
    (hprim : ∀ a ∈ hist, Action.isPrimitive a = true) (i : Fin 32)
    (hu : (after k hist).sbusTelemetryDataUsed i ≠ 0) :
    ∃ b0 b1, lastWritten i hist = some (b0, b1) ∧
      ((after k hist).sbusTelemetryData i).data0 = b0 ∧
      ((after k hist).sbusTelemetryData i).data1 = b1 := by
  induction hist with
  | nil => exact absurd rfl hu
  | cons a earlier ih =>
    have hprim2 : ∀ a ∈ earlier, Action.isPrimitive a = true :=
      fun b hb => hprim b (List.mem_cons_of_mem _ hb)
    have ha : Action.isPrimitive a = true := hprim a (List.mem_cons_self _ _)
    cases a with
    | transmit s b0 b1 =>
      have hstep : after k (Action.transmit s b0 b1 :: earlier)
          = SBUS2_transmit_telemetry_data (after k earlier) (s % 256) b0 b1 := rfl
      rw [hstep] at hu ⊢
      by_cases hacc : 0 < s % 256 ∧ s % 256 < 32
      · have hw := transmit_accepted (after k earlier) ⟨s % 256, hacc.2⟩ hacc.1 b0 b1
        simp only at hw
        rw [hw] at hu ⊢
        by_cases hi : i = ⟨s % 256, hacc.2⟩
        · refine ⟨b0, b1, ?_, ?_, ?_⟩
          · have hv : s % 256 = i.val := by rw [hi]
            simp only [lastWritten, hv, if_true]
          · simp [setAt, hi]
          · simp [setAt, hi]
        · have hv : ¬ s % 256 = i.val := fun e => hi (Fin.ext e.symm)
          simp only [setAt, if_neg hi] at hu ⊢
          simp only [lastWritten, if_neg hv]
          exact ih hprim2 hu
      · have hrej : s % 256 = 0 ∨ 32 ≤ s % 256 := by omega
        rw [transmit_rejected _ _ _ _ hrej] at hu ⊢
        have hi0 : i ≠ 0 := by
          intro e
          rw [e] at hu
          exact hu (after_used_zero k earlier)
        have hv : ¬ s % 256 = i.val := by
          intro e
          have h1 : i.val ≠ 0 := fun e0 => hi0 (Fin.ext e0)
          have h2 := i.isLt
          omega
        simp only [lastWritten, if_neg hv]
        exact ih hprim2 hu
    | tick env now =>
      have hstep : after k (Action.tick env now :: earlier)
          = (taskSendSbus2Telemetry k env (after k earlier) (now % TIMEUS_WRAP)).1 := rfl
      rw [hstep] at hu ⊢
      rw [task_used] at hu
      obtain ⟨b0, b1, hl, h0, h1⟩ := ih hprim2 hu
      have hp := task_payload k env (after k earlier) (now % TIMEUS_WRAP) i
      exact ⟨b0, b1, by simpa only [lastWritten] using hl, hp.1.trans h0, hp.2.trans h1⟩
    | _ => simp [Action.isPrimitive] at ha

/-- C4: in a run from the zero-initialised store made of direct calls of
SBUS2_transmit_telemetry_data and ticks (most recent first), whenever
taskSendSbus2Telemetry emits a frame for the resolved global index i, slot i
has been written and the bytes handed to the serial port are exactly
[sbus2SlotIds[i], b0, b1] where (b0, b1) is the payload of the most recent
write to slot i. -/
theorem C4_frame_bytes (k : RxEnums) (hist : List Action)
    (hprim : ∀ a ∈ hist, Action.isPrimitive a = true) (env : RxEnv) (now : Nat) (i : Fin 32)
    (hres : Resolves k env now i)
    (hemit : (taskSendSbus2Telemetry k env (after k hist) now).2 ≠ []) :
    ∃ b0 b1, lastWritten i hist = some (b0, b1) ∧
      (taskSendSbus2Telemetry k env (after k hist) now).2 = [sbus2SlotIds i, b0, b1] := by
  rw [task_of_resolves k env _ now i hres] at hemit ⊢
  by_cases hc : (after k hist).sbusTelemetryDataUsed i ≠ 0 ∧
      (after k hist).sbusTelemetryMinDelay i < now
  · obtain ⟨b0, b1, hl, h0, h1⟩ := after_payload k hist hprim i hc.1
    refine ⟨b0, b1, hl, ?_⟩
    rw [if_pos hc, h0, h1]
  · rw [if_neg hc] at hemit
    exact absurd rfl hemit

/-- Witness for C4: slot 9 is written twice, a tick on page 0 intervenes, and
a tick on page 1 that resolves index 9 sends the slot id 0x93 followed by the
second payload. -/
theorem C4_frame_bytes_witness :
    lastWritten 9 [.tick (exEnv 348) 3000, .transmit 9 0xAB 0xCD, .transmit 9 1 2]
      = some (0xAB, 0xCD) ∧
    (taskSendSbus2Telemetry exEnums { exEnv 20000 with sbusGetCurrentTelemetryPage := 1 }
      (after exEnums [.tick (exEnv 348) 3000, .transmit 9 0xAB 0xCD, .transmit 9 1 2]) 22652).2
      = [0x93, 0xAB, 0xCD] :=
  by
    obtain ⟨b0, b1, hl, ho⟩ := C4_frame_bytes exEnums
      [.tick (exEnv 348) 3000, .transmit 9 0xAB 0xCD, .transmit 9 1 2] (by decide)
      { exEnv 20000 with sbusGetCurrentTelemetryPage := 1 } 22652 9 (by decide) (by decide)
    have hl2 : lastWritten 9 [.tick (exEnv 348) 3000, .transmit 9 0xAB 0xCD, .transmit 9 1 2]
        = some (0xAB, 0xCD) := by decide
    rw [hl2] at hl
    simp only [Option.some.injEq, Prod.mk.injEq] at hl
    obtain ⟨rfl, rfl⟩ := hl
    exact ⟨hl2, ho⟩

/-! ## Reading a slot after a store write -/

/-- The frame of slot j after a store write. -/
theorem transmit_data (st : Store) (s b0 b1 : Nat) (j : Fin 32) :
    (SBUS2_transmit_telemetry_data st s b0 b1).sbusTelemetryData j =
      if 0 < s ∧ s = j.val then { slotId := sbus2SlotIds j, data0 := b0, data1 := b1 }
      else st.sbusTelemetryData j := by
  unfold SBUS2_transmit_telemetry_data
  by_cases hc : 0 < s ∧ s < SBUS2_SLOT_COUNT
  · rw [dif_pos hc]
    by_cases hj : s = j.val
    · have hji : j = (⟨s, hc.2⟩ : Fin 32) := Fin.ext hj.symm
      rw [if_pos ⟨hc.1, hj⟩]
      subst hji
      simp [setAt]
    · have hji : j ≠ (⟨s, hc.2⟩ : Fin 32) := fun e => hj (by rw [e])
      rw [if_neg (fun h => hj h.2)]
      simp [setAt, hji]
  · rw [dif_neg hc, if_neg]
    rintro ⟨h0, hj⟩
    exact hc ⟨h0, by rw [hj]; exact j.isLt⟩

/-- The used flag of slot j after a store write. -/
theorem transmit_used (st : Store) (s b0 b1 : Nat) (j : Fin 32) :
    (SBUS2_transmit_telemetry_data st s b0 b1).sbusTelemetryDataUsed j =
      if 0 < s ∧ s = j.val then 1 else st.sbusTelemetryDataUsed j := by
  unfold SBUS2_transmit_telemetry_data
  by_cases hc : 0 < s ∧ s < SBUS2_SLOT_COUNT
  · rw [dif_pos hc]
    by_cases hj : s = j.val
    · have hji : j = (⟨s, hc.2⟩ : Fin 32) := Fin.ext hj.symm
      rw [if_pos ⟨hc.1, hj⟩]
      subst hji
      simp [setAt]
    · have hji : j ≠ (⟨s, hc.2⟩ : Fin 32) := fun e => hj (by rw [e])
      rw [if_neg (fun h => hj h.2)]
      simp [setAt, hji]
  · rw [dif_neg hc, if_neg]
    rintro ⟨h0, hj⟩
    exact hc ⟨h0, by rw [hj]; exact j.isLt⟩

/-- A store write never changes a minimum-resend time. -/
theorem transmit_minDelay (st : Store) (s b0 b1 : Nat) :
    (SBUS2_transmit_telemetry_data st s b0 b1).sbusTelemetryMinDelay
      = st.sbusTelemetryMinDelay := by
  unfold SBUS2_transmit_telemetry_data
  split_ifs <;> rfl

/-! ## Port 0: C11 -/

/-- C11, as stated, fails: on the zero-initialised store send_voltage(0, 165, 42)
leaves index 0 alone but writes slot 1 (the second slot of the pair) with the
payload of voltage2 and marks it used, so the store is not the one before the
call. -/
theorem C11_counterexample :
    (send_voltage Store.zero 0 165 42).sbusTelemetryDataUsed 1 = 1 ∧
    Store.zero.sbusTelemetryDataUsed 1 = 0 ∧
    (send_voltage Store.zero 0 165 42).sbusTelemetryData 1
      = { slotId := 0x83, data0 := 0x00, data1 := 42 } ∧
    send_voltage Store.zero 0 165 42 ≠ Store.zero := by
  refine ⟨by decide, by decide, by decide, ?_⟩
  intro e
  have h : (send_voltage Store.zero 0 165 42).sbusTelemetryDataUsed 1 = 1 := by decide
  rw [e] at h
  exact absurd h (by decide)

/-- C11, amended: an encoder call with port 0 drops only the write aimed at
index 0. For every store and all arguments, send_voltage(0, v1, v2) is the
single store write of the voltage2 payload (voltage2 saturated at 0x1FFF, high
byte first) to slot 1: index 0 and every slot from 2 on keep their frame and
used flag, every minimum-resend time is unchanged, and slot 1 is marked used.
A one-slot encoder called with port 0 (send_RPM, send_SBS01T, send_temp125)
returns the store unchanged. -/
theorem C11_port_zero_amended (st : Store) (voltage1 voltage2 RPM : Nat) (temp : Int) :
    send_voltage st 0 voltage1 voltage2 =
      SBUS2_transmit_telemetry_data st 1
        (((if voltage2 % 65536 > 0x1FFF then 0x1FFF else voltage2 % 65536) >>> 8) % 256)
        ((if voltage2 % 65536 > 0x1FFF then 0x1FFF else voltage2 % 65536) % 256) ∧
    (send_voltage st 0 voltage1 voltage2).sbusTelemetryDataUsed 1 = 1 ∧
    (∀ j : Fin 32, j ≠ 1 →
      (send_voltage st 0 voltage1 voltage2).sbusTelemetryData j = st.sbusTelemetryData j ∧
      (send_voltage st 0 voltage1 voltage2).sbusTelemetryDataUsed j
        = st.sbusTelemetryDataUsed j) ∧
    (send_voltage st 0 voltage1 voltage2).sbusTelemetryMinDelay = st.sbusTelemetryMinDelay ∧
    send_RPM st 0 RPM = st ∧ send_SBS01T st 0 temp = st ∧ send_temp125 st 0 temp = st := by
  have hv : send_voltage st 0 voltage1 voltage2 =
      SBUS2_transmit_telemetry_data st 1
        (((if voltage2 % 65536 > 0x1FFF then 0x1FFF else voltage2 % 65536) >>> 8) % 256)
        ((if voltage2 % 65536 > 0x1FFF then 0x1FFF else voltage2 % 65536) % 256) := by
    unfold send_voltage
    dsimp only
    rw [transmit_rejected st 0 _ _ (Or.inl rfl)]
    rfl
  refine ⟨hv, ?_, ?_, ?_, ?_, ?_, ?_⟩
  · rw [hv, transmit_used]
    simp
  · intro j hj
    have hne : ¬ (0 < 1 ∧ 1 = j.val) := by
      rintro ⟨-, h1⟩
      exact hj (Fin.ext h1.symm)
    rw [hv, transmit_data, transmit_used, if_neg hne, if_neg hne]
    exact ⟨rfl, rfl⟩
  · rw [hv, transmit_minDelay]
  · unfold send_RPM
    exact transmit_rejected st 0 _ _ (Or.inl rfl)
  · unfold send_SBS01T
    exact transmit_rejected st 0 _ _ (Or.inl rfl)
  · unfold send_temp125
    exact transmit_rejected st 0 _ _ (Or.inl rfl)

/-- Witness for the amended C11: on the store of the running example,
send_voltage(0, 165, 42) marks slot 1 with the bytes 0x00, 42 and leaves
index 0 unused; send_RPM(0, 13200) changes nothing. -/
theorem C11_port_zero_amended_witness :
    (send_voltage (after exEnums exHistory) 0 165 42).sbusTelemetryData 1
      = { slotId := 0x83, data0 := 0x00, data1 := 42 } ∧
    (send_voltage (after exEnums exHistory) 0 165 42).sbusTelemetryDataUsed 0 = 0 ∧
    send_RPM (after exEnums exHistory) 0 13200 = after exEnums exHistory :=
  ⟨by decide,
   ((C11_port_zero_amended (after exEnums exHistory) 165 42 13200 0).2.2.1 0 (by decide)).2.trans
     (by decide),
   (C11_port_zero_amended (after exEnums exHistory) 165 42 13200 0).2.2.2.2.1⟩

/-! ## Bit operations as arithmetic -/

theorem and_0xff (x : Nat) : x &&& 0xff = x % 256 := Nat.and_pow_two_sub_one_eq_mod x 8

theorem and_0x0f (x : Nat) : x &&& 0x0f = x % 16 := Nat.and_pow_two_sub_one_eq_mod x 4

theorem and_0x7f (x : Nat) : x &&& 0x7F = x % 128 := Nat.and_pow_two_sub_one_eq_mod x 7

theorem and_0x1fff (x : Nat) : x &&& 0x1FFF = x % 8192 := Nat.and_pow_two_sub_one_eq_mod x 13

theorem shr_8 (x : Nat) : x >>> 8 = x / 256 := Nat.shiftRight_eq_div_pow x 8

theorem shr_16 (x : Nat) : x >>> 16 = x / 65536 := Nat.shiftRight_eq_div_pow x 16

/-- Setting a bit above all bits of x adds its weight. -/
theorem or_pow_of_lt (k x : Nat) (h : x < 2 ^ k) : x ||| 2 ^ k = x + 2 ^ k := by
  have h1 := Nat.mul_add_lt_is_or h 1
  rw [Nat.mul_one] at h1
  rw [Nat.or_comm, ← h1, Nat.add_comm]

theorem or_0x8000 (x : Nat) (h : x < 0x8000) : x ||| 0x8000 = x + 0x8000 := or_pow_of_lt 15 x h

theorem or_0x4000 (x : Nat) (h : x < 0x4000) : x ||| 0x4000 = x + 0x4000 := or_pow_of_lt 14 x h

theorem or_0x40 (x : Nat) (h : x < 0x40) : x ||| 0x40 = x + 0x40 := or_pow_of_lt 6 x h

/-- Setting bit 15 of a 16-bit value that already has it changes nothing. -/
theorem or_0x8000_of_ge (x : Nat) (h1 : 0x8000 ≤ x) (h2 : x < 0x10000) : x ||| 0x8000 = x := by
  have h3 : x = 2 ^ 15 * 1 + (x - 0x8000) := by omega
  have h4 := Nat.mul_add_lt_is_or (show x - 0x8000 < 2 ^ 15 by omega) 1
  rw [h3, h4, Nat.or_assoc, Nat.or_comm (x - 32768)]
  rw [← Nat.or_assoc, Nat.or_self]

/-- Three fields, 8 bits apart, joined by shifts and ors. -/
theorem join3 (a b c : Nat) (hb : b < 256) (hc : c < 256) :
    (a <<< 16 ||| b <<< 8 ||| c) = a * 65536 + b * 256 + c := by
  rw [Nat.shiftLeft_eq, Nat.shiftLeft_eq]
  have h1 := Nat.mul_add_lt_is_or (show b * 2 ^ 8 < 2 ^ 16 by omega) a
  have h2 := Nat.mul_add_lt_is_or (show c < 2 ^ 8 by omega) (a * 256 + b)
  have e1 : a * 2 ^ 16 = 2 ^ 16 * a := Nat.mul_comm _ _
  rw [e1, ← h1]
  have e2 : 2 ^ 16 * a + b * 2 ^ 8 = 2 ^ 8 * (a * 256 + b) := by omega
  rw [e2, ← h2]
  omega

/-- Reading the slot a write was aimed at. -/
theorem transmit_data_same (st : Store) (b0 b1 : Nat) (j : Fin 32) (h : 0 < j.val) :
    (SBUS2_transmit_telemetry_data st j.val b0 b1).sbusTelemetryData j
      = { slotId := sbus2SlotIds j, data0 := b0, data1 := b1 } := by
  rw [transmit_data, if_pos ⟨h, rfl⟩]

/-- Reading a slot a write was not aimed at. -/
theorem transmit_data_other (st : Store) (s b0 b1 : Nat) (j : Fin 32) (h : s ≠ j.val) :
    (SBUS2_transmit_telemetry_data st s b0 b1).sbusTelemetryData j = st.sbusTelemetryData j := by
  rw [transmit_data, if_neg (fun hc => h hc.2)]

theorem transmit_used_same (st : Store) (b0 b1 : Nat) (j : Fin 32) (h : 0 < j.val) :
    (SBUS2_transmit_telemetry_data st j.val b0 b1).sbusTelemetryDataUsed j = 1 := by
  rw [transmit_used, if_pos ⟨h, rfl⟩]

theorem transmit_used_other (st : Store) (s b0 b1 : Nat) (j : Fin 32) (h : s ≠ j.val) :
    (SBUS2_transmit_telemetry_data st s b0 b1).sbusTelemetryDataUsed j
      = st.sbusTelemetryDataUsed j := by
  rw [transmit_used, if_neg (fun hc => h hc.2)]

/-! ## One-slot and two-slot encoders: C12, C13, C14 -/

/-- C12: for every RPM (in particular every 32-bit one) and every port in
1..31, send_RPM stores in slot port the bytes [v & 0xFF, v >> 8], low byte
first, where v = min(RPM / 6, 0xFFFF) with integer division, sets the slot id
from the table and marks the slot used; the two bytes are v mod 256 and
v div 256, so byte0 + 256 * byte1 = v. -/
theorem C12_send_RPM_bytes (st : Store) (port RPM : Nat) (h1 : 1 ≤ port) (h31 : port ≤ 31) :
    (send_RPM st port RPM).sbusTelemetryData ⟨port, by omega⟩ =
      { slotId := sbus2SlotIds ⟨port, by omega⟩
        data0 := min (RPM / 6) 0xFFFF &&& 0xFF
        data1 := min (RPM / 6) 0xFFFF >>> 8 } ∧
    (send_RPM st port RPM).sbusTelemetryDataUsed ⟨port, by omega⟩ = 1 ∧
    ((send_RPM st port RPM).sbusTelemetryData ⟨port, by omega⟩).data0
      + 256 * ((send_RPM st port RPM).sbusTelemetryData ⟨port, by omega⟩).data1
      = min (RPM / 6) 0xFFFF := by
  have hv : (if RPM / 6 > 0xffff then 0xffff else RPM / 6) = min (RPM / 6) 0xFFFF := by
    split_ifs <;> omega
  have hd := transmit_data_same st ((min (RPM / 6) 0xFFFF) % 256)
    (((min (RPM / 6) 0xFFFF) >>> 8) % 256) ⟨port, by omega⟩ h1
  have hu := transmit_used_same st ((min (RPM / 6) 0xFFFF) % 256)
    (((min (RPM / 6) 0xFFFF) >>> 8) % 256) ⟨port, by omega⟩ h1
  have hhi : ((min (RPM / 6) 0xFFFF) >>> 8) % 256 = (min (RPM / 6) 0xFFFF) >>> 8 := by
    rw [shr_8]
    omega
  unfold send_RPM
  simp only [hv]
  simp only at hd hu
  rw [hd, hu, hhi, and_0xff]
  refine ⟨rfl, rfl, ?_⟩
  simp only [shr_8]
  omega

/-- Witness for C12: RPM 13200 on port 6 gives v = 2200 = 0x0898 and the bytes
0x98, 0x08. -/
theorem C12_send_RPM_bytes_witness :
    (send_RPM Store.zero 6 13200).sbusTelemetryData 6
      = { slotId := 0x63, data0 := 0x98, data1 := 0x08 } ∧
    (send_RPM Store.zero 6 13200).sbusTelemetryDataUsed 6 = 1 ∧
    min (13200 / 6) 0xFFFF = 0x0898 :=
  ⟨(C12_send_RPM_bytes Store.zero 6 13200 (by decide) (by decide)).1.trans (by decide),
   (C12_send_RPM_bytes Store.zero 6 13200 (by decide) (by decide)).2.1, by decide⟩

/-- C13: for every port with 1 <= port <= 30 and all voltage1, voltage2 up to
0x1FFF, send_voltage stores in slot port, high byte first, the value
0x8000 | voltage1 (which is 0x8000 + voltage1) and in slot port + 1, high byte
first, the value voltage2 (which equals voltage2 masked to 13 bits); both
slots get their table slot id and are marked used. -/
theorem C13_send_voltage_in_range (st : Store) (port voltage1 voltage2 : Nat)
    (h1 : 1 ≤ port) (h30 : port ≤ 30) (hv1 : voltage1 ≤ 0x1FFF) (hv2 : voltage2 ≤ 0x1FFF) :
    (send_voltage st port voltage1 voltage2).sbusTelemetryData ⟨port, by omega⟩ =
      { slotId := sbus2SlotIds ⟨port, by omega⟩
        data0 := (0x8000 ||| voltage1) >>> 8
        data1 := (0x8000 ||| voltage1) &&& 0xFF } ∧
    (send_voltage st port voltage1 voltage2).sbusTelemetryData ⟨port + 1, by omega⟩ =
      { slotId := sbus2SlotIds ⟨port + 1, by omega⟩
        data0 := voltage2 >>> 8
        data1 := voltage2 &&& 0xFF } ∧
    0x8000 ||| voltage1 = 0x8000 + voltage1 ∧
    256 * ((0x8000 ||| voltage1) >>> 8) + ((0x8000 ||| voltage1) &&& 0xFF)
      = 0x8000 + voltage1 ∧
    256 * (voltage2 >>> 8) + (voltage2 &&& 0xFF) = voltage2 ∧
    voltage2 &&& 0x1FFF = voltage2 ∧
    (send_voltage st port voltage1 voltage2).sbusTelemetryDataUsed ⟨port, by omega⟩ = 1 ∧
    (send_voltage st port voltage1 voltage2).sbusTelemetryDataUsed ⟨port + 1, by omega⟩ = 1 := by
  have hor : voltage1 ||| 0x8000 = voltage1 + 0x8000 := or_0x8000 voltage1 (by omega)
  have hor2 : 0x8000 ||| voltage1 = 0x8000 + voltage1 := by
    rw [Nat.or_comm, hor, Nat.add_comm]
  have hp1 : portOfs port 1 = port + 1 := by
    simp only [portOfs]
    omega
  have hval1 : (if (voltage1 ||| 0x8000) % 65536 > 0x9FFF then 0x9FFF
      else if (voltage1 ||| 0x8000) % 65536 < 0x8000 then 0x8000
      else (voltage1 ||| 0x8000) % 65536) = 0x8000 + voltage1 := by
    rw [hor]
    split_ifs <;> omega
  have hval2 : (if voltage2 % 65536 > 0x1FFF then 0x1FFF else voltage2 % 65536) = voltage2 := by
    split_ifs <;> omega
  have hst : send_voltage st port voltage1 voltage2 =
      SBUS2_transmit_telemetry_data
        (SBUS2_transmit_telemetry_data st port (((0x8000 + voltage1) >>> 8) % 256)
          ((0x8000 + voltage1) % 256))
        (port + 1) ((voltage2 >>> 8) % 256) (voltage2 % 256) := by
    unfold send_voltage
    simp only [hval1, hval2, hp1]
  have hb1 : ((0x8000 + voltage1) >>> 8) % 256 = (0x8000 + voltage1) >>> 8 := by
    rw [shr_8]
    omega
  have hb2 : (voltage2 >>> 8) % 256 = voltage2 >>> 8 := by
    rw [shr_8]
    omega
  rw [hst, hb1, hb2, hor2, and_0xff, and_0xff, and_0x1fff]
  refine ⟨?_, ?_, rfl, ?_, ?_, ?_, ?_, ?_⟩
  · rw [transmit_data_other _ _ _ _ _ (by simp)]
    exact transmit_data_same st _ _ ⟨port, by omega⟩ h1
  · exact transmit_data_same _ _ _ ⟨port + 1, by omega⟩ (by simp)
  · rw [shr_8]
    omega
  · rw [shr_8]
    omega
  · omega
  · rw [transmit_used_other _ _ _ _ _ (by simp)]
    exact transmit_used_same st _ _ ⟨port, by omega⟩ h1
  · exact transmit_used_same _ _ _ ⟨port + 1, by omega⟩ (by simp)

/-- Witness for C13: 16.5 V and 4.2 V on port 1 give 0x80A5 in slot 1 and
0x002A in slot 2. -/
theorem C13_send_voltage_in_range_witness :
    (send_voltage Store.zero 1 165 42).sbusTelemetryData 1
      = { slotId := 0x83, data0 := 0x80, data1 := 0xA5 } ∧
    (send_voltage Store.zero 1 165 42).sbusTelemetryData 2
      = { slotId := 0x43, data0 := 0x00, data1 := 0x2A } ∧
    0x8000 ||| 165 = 0x80A5 :=
  ⟨(C13_send_voltage_in_range Store.zero 1 165 42 (by decide) (by decide) (by decide)
      (by decide)).1.trans (by decide),
   (C13_send_voltage_in_range Store.zero 1 165 42 (by decide) (by decide) (by decide)
      (by decide)).2.1.trans (by decide),
   by decide⟩

/-- C14 at its failing input: voltage1 = 0x8005 is greater than 0x1FFF, yet
send_voltage stores 0x8005 (bytes 0x80, 0x05) in slot port, not the saturated
0x9FFF, because bit 15 of the input coincides with the flag bit that is ored
in before the comparison; voltage1 = 9000 and voltage1 = 0x2000 do saturate to
0x9FFF (bytes 0x9F, 0xFF). -/
theorem C14_failing_input :
    0x8005 > 0x1FFF ∧
    (send_voltage Store.zero 1 0x8005 0).sbusTelemetryData 1
      = { slotId := 0x83, data0 := 0x80, data1 := 0x05 } ∧
    (send_voltage Store.zero 1 9000 0).sbusTelemetryData 1
      = { slotId := 0x83, data0 := 0x9F, data1 := 0xFF } ∧
    (send_voltage Store.zero 1 0x2000 0).sbusTelemetryData 1
      = { slotId := 0x83, data0 := 0x9F, data1 := 0xFF } := by
  decide

/-- The value send_voltage stores for voltage1, for every 16-bit input and
every port in 1..31: 0x8000 + voltage1 below 0x2000, voltage1 itself from
0x8000 to 0x9FFF, and the saturated 0x9FFF everywhere else; it always lies in
[0x8000, 0x9FFF]. -/
theorem send_voltage_first_value (st : Store) (port voltage1 voltage2 : Nat)
    (h1 : 1 ≤ port) (h31 : port ≤ 31) (hv : voltage1 < 65536) :
    256 * ((send_voltage st port voltage1 voltage2).sbusTelemetryData ⟨port, by omega⟩).data0
      + ((send_voltage st port voltage1 voltage2).sbusTelemetryData ⟨port, by omega⟩).data1
      = (if voltage1 < 0x2000 then 0x8000 + voltage1
         else if 0x8000 ≤ voltage1 ∧ voltage1 ≤ 0x9FFF then voltage1 else 0x9FFF) ∧
    0x8000 ≤ 256 *
        ((send_voltage st port voltage1 voltage2).sbusTelemetryData ⟨port, by omega⟩).data0
      + ((send_voltage st port voltage1 voltage2).sbusTelemetryData ⟨port, by omega⟩).data1 ∧
    256 * ((send_voltage st port voltage1 voltage2).sbusTelemetryData ⟨port, by omega⟩).data0
      + ((send_voltage st port voltage1 voltage2).sbusTelemetryData ⟨port, by omega⟩).data1
      ≤ 0x9FFF := by
  have hp1 : portOfs port 1 ≠ port := by
    simp only [portOfs]
    omega
  have hor : voltage1 ||| 0x8000 = if voltage1 < 0x8000 then voltage1 + 0x8000 else voltage1 := by
    split_ifs with hlt
    · exact or_0x8000 voltage1 hlt
    · exact or_0x8000_of_ge voltage1 (by omega) hv
  unfold send_voltage
  dsimp only
  rw [transmit_data_other _ _ _ _ ⟨port, by omega⟩ hp1]
  rw [transmit_data_same st _ _ ⟨port, by omega⟩ h1]
  simp only [hor, shr_8]
  split_ifs <;> omega

/-! ## The three-slot current encoder: C15 -/

/-- C15: for every port with 1 <= port <= 29 and all 16-bit current, capacity
and voltage, send_s1678_current stores in slot port the bytes
[0x40 | (m >> 8), m & 0xFF] with m = min(current, 0x3FFF), so that bit 6 of the
first byte is set and bit 7 is clear (the byte lies in 64..127); in slot
port + 1 the voltage as raw 16 bits, high byte first; and in slot port + 2 the
capacity as raw 16 bits, high byte first. All three slots are marked used. -/
theorem C15_send_s1678_current_bytes (st : Store) (port current capacity voltage : Nat)
    (h1 : 1 ≤ port) (h29 : port ≤ 29) (hc : current < 65536) (hcap : capacity < 65536)
    (hv : voltage < 65536) :
    (send_s1678_current st port current capacity voltage).sbusTelemetryData ⟨port, by omega⟩ =
      { slotId := sbus2SlotIds ⟨port, by omega⟩
        data0 := 0x40 ||| (min current 0x3FFF >>> 8)
        data1 := min current 0x3FFF &&& 0xFF } ∧
    (send_s1678_current st port current capacity voltage).sbusTelemetryData
        ⟨port + 1, by omega⟩ =
      { slotId := sbus2SlotIds ⟨port + 1, by omega⟩
        data0 := voltage >>> 8
        data1 := voltage &&& 0xFF } ∧
    (send_s1678_current st port current capacity voltage).sbusTelemetryData
        ⟨port + 2, by omega⟩ =
      { slotId := sbus2SlotIds ⟨port + 2, by omega⟩
        data0 := capacity >>> 8
        data1 := capacity &&& 0xFF } ∧
    (64 ≤ 0x40 ||| (min current 0x3FFF >>> 8) ∧ 0x40 ||| (min current 0x3FFF >>> 8) < 128) ∧
    256 * (voltage >>> 8) + (voltage &&& 0xFF) = voltage ∧
    256 * (capacity >>> 8) + (capacity &&& 0xFF) = capacity ∧
    (send_s1678_current st port current capacity voltage).sbusTelemetryDataUsed
        ⟨port, by omega⟩ = 1 ∧
    (send_s1678_current st port current capacity voltage).sbusTelemetryDataUsed
        ⟨port + 1, by omega⟩ = 1 ∧
    (send_s1678_current st port current capacity voltage).sbusTelemetryDataUsed
        ⟨port + 2, by omega⟩ = 1 := by
  have hp1 : portOfs port 1 = port + 1 := by
    simp only [portOfs]
    omega
  have hp2 : portOfs port 2 = port + 2 := by
    simp only [portOfs]
    omega
  have hm : (if current * 1 % 4294967296 % 65536 > 0x3FFF then 0x3FFF
      else current * 1 % 4294967296 % 65536) = min current 0x3FFF := by
    split_ifs <;> omega
  have hq : min current 0x3FFF >>> 8 < 0x40 := by
    rw [shr_8]
    omega
  have hor : 0x40 ||| (min current 0x3FFF >>> 8) = (min current 0x3FFF >>> 8) + 0x40 := by
    rw [Nat.or_comm]
    exact or_0x40 _ hq
  have hb0 : ((((min current 0x3FFF >>> 8) % 256 ||| 0x40) % 256) &&& 0x7F) % 256
      = 0x40 ||| (min current 0x3FFF >>> 8) := by
    rw [Nat.mod_eq_of_lt (show min current 0x3FFF >>> 8 < 256 by omega), hor,
      or_0x40 _ hq, and_0x7f]
    omega
  have hvv : voltage * 1 % 4294967296 % 65536 = voltage := by omega
  have hcc : capacity % 4294967296 % 65536 = capacity := by omega
  have hbv : (voltage >>> 8) % 256 = voltage >>> 8 := by
    rw [shr_8]
    omega
  have hbc : (capacity >>> 8) % 256 = capacity >>> 8 := by
    rw [shr_8]
    omega
  have hst : send_s1678_current st port current capacity voltage =
      SBUS2_transmit_telemetry_data
        (SBUS2_transmit_telemetry_data
          (SBUS2_transmit_telemetry_data st port (0x40 ||| (min current 0x3FFF >>> 8))
            (min current 0x3FFF % 256))
          (port + 1) (voltage >>> 8) (voltage % 256))
        (port + 2) (capacity >>> 8) (capacity % 256) := by
    unfold send_s1678_current
    simp only [hm, hb0, hvv, hcc, hbv, hbc, hp1, hp2]
  rw [hst, and_0xff, and_0xff, and_0xff]
  refine ⟨?_, ?_, ?_, ?_, ?_, ?_, ?_, ?_, ?_⟩
  · rw [transmit_data_other _ _ _ _ _ (by simp), transmit_data_other _ _ _ _ _ (by simp)]
    exact transmit_data_same st _ _ ⟨port, by omega⟩ h1
  · rw [transmit_data_other _ _ _ _ _ (by simp)]
    exact transmit_data_same _ _ _ ⟨port + 1, by omega⟩ (by simp)
  · exact transmit_data_same _ _ _ ⟨port + 2, by omega⟩ (by simp)
  · rw [hor]
    omega
  · rw [shr_8]
    omega
  · rw [shr_8]
    omega
  · rw [transmit_used_other _ _ _ _ _ (by simp), transmit_used_other _ _ _ _ _ (by simp)]
    exact transmit_used_same st _ _ ⟨port, by omega⟩ h1
  · rw [transmit_used_other _ _ _ _ _ (by simp)]
    exact transmit_used_same _ _ _ ⟨port + 1, by omega⟩ (by simp)
  · exact transmit_used_same _ _ _ ⟨port + 2, by omega⟩ (by simp)

/-- Witness for C15: 12.34 A, 1500 mAh and 16.50 V on port 3; and a current of
200.00 A, which saturates at 0x3FFF. -/
theorem C15_send_s1678_current_bytes_witness :
    (send_s1678_current Store.zero 3 1234 1500 1650).sbusTelemetryData 3
      = { slotId := 0xC3, data0 := 0x44, data1 := 0xD2 } ∧
    (send_s1678_current Store.zero 3 1234 1500 1650).sbusTelemetryData 4
      = { slotId := 0x23, data0 := 0x06, data1 := 0x72 } ∧
    (send_s1678_current Store.zero 3 1234 1500 1650).sbusTelemetryData 5
      = { slotId := 0xA3, data0 := 0x05, data1 := 0xDC } ∧
    (send_s1678_current Store.zero 3 20000 1500 1650).sbusTelemetryData 3
      = { slotId := 0xC3, data0 := 0x7F, data1 := 0xFF } :=
  ⟨(C15_send_s1678_current_bytes Store.zero 3 1234 1500 1650 (by decide) (by decide)
      (by decide) (by decide) (by decide)).1.trans (by decide),
   (C15_send_s1678_current_bytes Store.zero 3 1234 1500 1650 (by decide) (by decide)
      (by decide) (by decide) (by decide)).2.1.trans (by decide),
   (C15_send_s1678_current_bytes Store.zero 3 1234 1500 1650 (by decide) (by decide)
      (by decide) (by decide) (by decide)).2.2.1.trans (by decide),
   (C15_send_s1678_current_bytes Store.zero 3 20000 1500 1650 (by decide) (by decide)
      (by decide) (by decide) (by decide)).1.trans (by decide)⟩

/-! ## The SBS01T temperature encoder: C16 -/

/-- C16: for every temp (in particular every signed 16-bit one) and every port
in 1..31, send_SBS01T stores in slot port the bytes [v & 0xFF, v >> 8], low
byte first, where v = (((temp mod 2^16) | 0x8000) + 100) mod 2^16, and marks
the slot used; for 0 <= temp <= 32667 this v is 0x8000 + temp + 100. -/
theorem C16_send_SBS01T_bytes (st : Store) (port : Nat) (temp : Int)
    (h1 : 1 ≤ port) (h31 : port ≤ 31) :
    (send_SBS01T st port temp).sbusTelemetryData ⟨port, by omega⟩ =
      { slotId := sbus2SlotIds ⟨port, by omega⟩
        data0 := ((((temp % 65536).toNat ||| 0x8000) + 100) % 65536) &&& 0xFF
        data1 := ((((temp % 65536).toNat ||| 0x8000) + 100) % 65536) >>> 8 } ∧
    (send_SBS01T st port temp).sbusTelemetryDataUsed ⟨port, by omega⟩ = 1 ∧
    ((send_SBS01T st port temp).sbusTelemetryData ⟨port, by omega⟩).data0
      + 256 * ((send_SBS01T st port temp).sbusTelemetryData ⟨port, by omega⟩).data1
      = (((temp % 65536).toNat ||| 0x8000) + 100) % 65536 ∧
    (0 ≤ temp → temp ≤ 32667 →
      (((temp % 65536).toNat ||| 0x8000) + 100) % 65536 = 0x8000 + temp.toNat + 100) := by
  have hu16 : (temp % 65536).toNat < 2 ^ 16 := by omega
  have hor : ((temp % 65536).toNat ||| 0x8000) < 65536 :=
    Nat.or_lt_two_pow hu16 (by decide)
  have hmod : ((temp % 65536).toNat ||| 0x8000) % 65536 = ((temp % 65536).toNat ||| 0x8000) :=
    Nat.mod_eq_of_lt hor
  have hst : send_SBS01T st port temp =
      SBUS2_transmit_telemetry_data st port
        (((((temp % 65536).toNat ||| 0x8000) + 100) % 65536) % 256)
        ((((((temp % 65536).toNat ||| 0x8000) + 100) % 65536) >>> 8) % 256) := by
    unfold send_SBS01T toU16
    simp only [hmod]
  have hhi : ((((((temp % 65536).toNat ||| 0x8000) + 100) % 65536) >>> 8) % 256)
      = ((((temp % 65536).toNat ||| 0x8000) + 100) % 65536) >>> 8 := by
    rw [shr_8]
    omega
  rw [hst, hhi, and_0xff]
  refine ⟨transmit_data_same st _ _ ⟨port, by omega⟩ h1,
    transmit_used_same st _ _ ⟨port, by omega⟩ h1, ?_, ?_⟩
  · rw [transmit_data_same st _ _ ⟨port, by omega⟩ h1]
    simp only [shr_8]
    omega
  · intro h0 hmax
    have ht : (temp % 65536).toNat = temp.toNat := by omega
    rw [ht, or_0x8000 _ (by omega)]
    omega

/-- Witness for C16: temp = 0 on port 7 gives v = 0x8064 and the bytes
0x64, 0x80; temp = -1 wraps to v = 0x0063. -/
theorem C16_send_SBS01T_bytes_witness :
    (send_SBS01T Store.zero 7 0).sbusTelemetryData 7
      = { slotId := 0xE3, data0 := 0x64, data1 := 0x80 } ∧
    (send_SBS01T Store.zero 7 (-1)).sbusTelemetryData 7
      = { slotId := 0xE3, data0 := 0x63, data1 := 0x00 } ∧
    ((((0 : Int) % 65536).toNat ||| 0x8000) + 100) % 65536 = 0x8064 :=
  ⟨(C16_send_SBS01T_bytes Store.zero 7 0 (by decide) (by decide)).1.trans (by decide),
   (C16_send_SBS01T_bytes Store.zero 7 (-1) (by decide) (by decide)).1.trans (by decide),
   by decide⟩

/-! ## The F1675 GPS block: C17, C18, C19 -/

/-- The slot at port after the whole GPS block is the one its first write left:
the seven later writes go to other indices, for every port in 1..31. -/
theorem f1675_gps_first_slot (st : Store) (port speed : Nat)
    (altitude vario latitude longitude : Int) (h1 : 1 ≤ port) (h31 : port ≤ 31) :
    (send_f1675_gps st port speed altitude vario latitude longitude).sbusTelemetryData
        ⟨port, by omega⟩ =
      { slotId := sbus2SlotIds ⟨port, by omega⟩
        data0 := ((if (speed ||| 0x4000) % 65536 > 0x43E7 then 0x43E7
                   else if (speed ||| 0x4000) % 65536 < 0x4000 then 0x4000
                   else (speed ||| 0x4000) % 65536) >>> 8) % 256
        data1 := (if (speed ||| 0x4000) % 65536 > 0x43E7 then 0x43E7
                  else if (speed ||| 0x4000) % 65536 < 0x4000 then 0x4000
                  else (speed ||| 0x4000) % 65536) % 256 } ∧
    (send_f1675_gps st port speed altitude vario latitude longitude).sbusTelemetryDataUsed
        ⟨port, by omega⟩ = 1 := by
  have hp : ∀ k, 1 ≤ k → k ≤ 7 → portOfs port k ≠ port := by
    intro k hk1 hk7
    simp only [portOfs]
    omega
  unfold send_f1675_gps
  dsimp only
  constructor
  · rw [transmit_data_other _ _ _ _ ⟨port, by omega⟩ (hp 7 (by omega) (by omega)),
      transmit_data_other _ _ _ _ ⟨port, by omega⟩ (hp 6 (by omega) (by omega)),
      transmit_data_other _ _ _ _ ⟨port, by omega⟩ (hp 5 (by omega) (by omega)),
      transmit_data_other _ _ _ _ ⟨port, by omega⟩ (hp 4 (by omega) (by omega)),
      transmit_data_other _ _ _ _ ⟨port, by omega⟩ (hp 3 (by omega) (by omega)),
      transmit_data_other _ _ _ _ ⟨port, by omega⟩ (hp 2 (by omega) (by omega)),
      transmit_data_other _ _ _ _ ⟨port, by omega⟩ (hp 1 (by omega) (by omega))]
    exact transmit_data_same st _ _ ⟨port, by omega⟩ h1
  · rw [transmit_used_other _ _ _ _ ⟨port, by omega⟩ (hp 7 (by omega) (by omega)),
      transmit_used_other _ _ _ _ ⟨port, by omega⟩ (hp 6 (by omega) (by omega)),
      transmit_used_other _ _ _ _ ⟨port, by omega⟩ (hp 5 (by omega) (by omega)),
      transmit_used_other _ _ _ _ ⟨port, by omega⟩ (hp 4 (by omega) (by omega)),
      transmit_used_other _ _ _ _ ⟨port, by omega⟩ (hp 3 (by omega) (by omega)),
      transmit_used_other _ _ _ _ ⟨port, by omega⟩ (hp 2 (by omega) (by omega)),
      transmit_used_other _ _ _ _ ⟨port, by omega⟩ (hp 1 (by omega) (by omega))]
    exact transmit_used_same st _ _ ⟨port, by omega⟩ h1

/-- C17: for every speed (in particular every 16-bit one) given to
send_f1675_gps on a port in 1..31, the value stored in slot port, high byte
first, lies in [0x4000, 0x43E7], and it equals 0x4000 + speed whenever
speed <= 999. -/
theorem C17_f1675_speed_clamped (st : Store) (port speed : Nat)
    (altitude vario latitude longitude : Int) (h1 : 1 ≤ port) (h31 : port ≤ 31) :
    0x4000 ≤ 256 * ((send_f1675_gps st port speed altitude vario latitude
        longitude).sbusTelemetryData ⟨port, by omega⟩).data0
      + ((send_f1675_gps st port speed altitude vario latitude
        longitude).sbusTelemetryData ⟨port, by omega⟩).data1 ∧
    256 * ((send_f1675_gps st port speed altitude vario latitude
        longitude).sbusTelemetryData ⟨port, by omega⟩).data0
      + ((send_f1675_gps st port speed altitude vario latitude
        longitude).sbusTelemetryData ⟨port, by omega⟩).data1 ≤ 0x43E7 ∧
    (speed ≤ 999 →
      256 * ((send_f1675_gps st port speed altitude vario latitude
          longitude).sbusTelemetryData ⟨port, by omega⟩).data0
        + ((send_f1675_gps st port speed altitude vario latitude
          longitude).sbusTelemetryData ⟨port, by omega⟩).data1 = 0x4000 + speed) := by
  rw [(f1675_gps_first_slot st port speed altitude vario latitude longitude h1 h31).1]
  simp only [shr_8]
  refine ⟨?_, ?_, ?_⟩
  · generalize (speed ||| 0x4000) % 65536 = w
    split_ifs <;> omega
  · generalize (speed ||| 0x4000) % 65536 = w
    split_ifs <;> omega
  · intro hs
    rw [or_0x4000 speed (by omega)]
    split_ifs <;> omega

/-- Witness for C17: 120 km/h on port 8 is stored as 0x4078, and 2000 km/h as
the saturated 0x43E7. -/
theorem C17_f1675_speed_clamped_witness :
    256 * ((send_f1675_gps Store.zero 8 120 0 0 0 0).sbusTelemetryData 8).data0
      + ((send_f1675_gps Store.zero 8 120 0 0 0 0).sbusTelemetryData 8).data1 = 0x4078 ∧
    256 * ((send_f1675_gps Store.zero 8 2000 0 0 0 0).sbusTelemetryData 8).data0
      + ((send_f1675_gps Store.zero 8 2000 0 0 0 0).sbusTelemetryData 8).data1 ≤ 0x43E7 :=
  ⟨(C17_f1675_speed_clamped Store.zero 8 120 0 0 0 0 (by decide) (by decide)).2.2 (by decide),
   (C17_f1675_speed_clamped Store.zero 8 2000 0 0 0 0 (by decide) (by decide)).2.1⟩

/-- The GPS block with the slot indices written out, for a block that fits
(port + 7 <= 31). -/
theorem f1675_gps_chain (st : Store) (port speed : Nat)
    (altitude vario latitude longitude : Int) (h24 : port ≤ 24) :
    send_f1675_gps st port speed altitude vario latitude longitude =
      SBUS2_transmit_telemetry_data
       (SBUS2_transmit_telemetry_data
        (SBUS2_transmit_telemetry_data
         (SBUS2_transmit_telemetry_data
          (SBUS2_transmit_telemetry_data
           (SBUS2_transmit_telemetry_data
            (SBUS2_transmit_telemetry_data
             (SBUS2_transmit_telemetry_data st port
               (((if (speed ||| 0x4000) % 65536 > 0x43E7 then 0x43E7
                  else if (speed ||| 0x4000) % 65536 < 0x4000 then 0x4000
                  else (speed ||| 0x4000) % 65536) >>> 8) % 256)
               ((if (speed ||| 0x4000) % 65536 > 0x43E7 then 0x43E7
                 else if (speed ||| 0x4000) % 65536 < 0x4000 then 0x4000
                 else (speed ||| 0x4000) % 65536) % 256))
             (port + 1) ((((toU16 altitude ||| 0x4000) % 65536) >>> 8) % 256)
               (((toU16 altitude ||| 0x4000) % 65536) % 256))
            (port + 2) 0xB0 0xF0)
           (port + 3) ((toU16 (vario * 10) >>> 8) % 256) (toU16 (vario * 10) % 256))
          (port + 4) (f1675_coord latitude).1.1 (f1675_coord latitude).1.2)
         (port + 5) (f1675_coord latitude).2.1 (f1675_coord latitude).2.2)
        (port + 6) (f1675_coord longitude).1.1 (f1675_coord longitude).1.2)
       (port + 7) (f1675_coord longitude).2.1 (f1675_coord longitude).2.2 := by
  have hp : ∀ k, k ≤ 7 → portOfs port k = port + k := by
    intro k hk
    simp only [portOfs]
    omega
  unfold send_f1675_gps
  simp only [hp 1 (by omega), hp 2 (by omega), hp 3 (by omega), hp 4 (by omega),
    hp 5 (by omega), hp 6 (by omega), hp 7 (by omega)]

/-- The frames of slots port + 1 .. port + 7 after the GPS block, for a block
that fits: each holds what its own write put there. -/
theorem f1675_gps_slots (st : Store) (port speed : Nat)
    (altitude vario latitude longitude : Int) (h1 : 1 ≤ port) (h24 : port ≤ 24)
    (S : Store) (hS : S = send_f1675_gps st port speed altitude vario latitude longitude) :
    S.sbusTelemetryData ⟨port + 1, by omega⟩ =
      { slotId := sbus2SlotIds ⟨port + 1, by omega⟩
        data0 := (((toU16 altitude ||| 0x4000) % 65536) >>> 8) % 256
        data1 := ((toU16 altitude ||| 0x4000) % 65536) % 256 } ∧
    S.sbusTelemetryData ⟨port + 2, by omega⟩ =
      { slotId := sbus2SlotIds ⟨port + 2, by omega⟩, data0 := 0xB0, data1 := 0xF0 } ∧
    S.sbusTelemetryData ⟨port + 3, by omega⟩ =
      { slotId := sbus2SlotIds ⟨port + 3, by omega⟩
        data0 := (toU16 (vario * 10) >>> 8) % 256
        data1 := toU16 (vario * 10) % 256 } ∧
    S.sbusTelemetryData ⟨port + 4, by omega⟩ =
      { slotId := sbus2SlotIds ⟨port + 4, by omega⟩
        data0 := (f1675_coord latitude).1.1
        data1 := (f1675_coord latitude).1.2 } ∧
    S.sbusTelemetryData ⟨port + 5, by omega⟩ =
      { slotId := sbus2SlotIds ⟨port + 5, by omega⟩
        data0 := (f1675_coord latitude).2.1
        data1 := (f1675_coord latitude).2.2 } ∧
    S.sbusTelemetryData ⟨port + 6, by omega⟩ =
      { slotId := sbus2SlotIds ⟨port + 6, by omega⟩
        data0 := (f1675_coord longitude).1.1
        data1 := (f1675_coord longitude).1.2 } ∧
    S.sbusTelemetryData ⟨port + 7, by omega⟩ =
      { slotId := sbus2SlotIds ⟨port + 7, by omega⟩
        data0 := (f1675_coord longitude).2.1
        data1 := (f1675_coord longitude).2.2 } := by
  rw [hS, f1675_gps_chain st port speed altitude vario latitude longitude h24]
  refine ⟨?_, ?_, ?_, ?_, ?_, ?_, ?_⟩
  ·
    rw [transmit_data_other _ _ _ _ _ (by simp), transmit_data_other _ _ _ _ _ (by simp), transmit_data_other _ _ _ _ _ (by simp), transmit_data_other _ _ _ _ _ (by simp), transmit_data_other _ _ _ _ _ (by simp), transmit_data_other _ _ _ _ _ (by simp)]
    exact transmit_data_same _ _ _ ⟨port + 1, by omega⟩ (by simp)
  ·
    rw [transmit_data_other _ _ _ _ _ (by simp), transmit_data_other _ _ _ _ _ (by simp), transmit_data_other _ _ _ _ _ (by simp), transmit_data_other _ _ _ _ _ (by simp), transmit_data_other _ _ _ _ _ (by simp)]
    exact transmit_data_same _ _ _ ⟨port + 2, by omega⟩ (by simp)
  ·
    rw [transmit_data_other _ _ _ _ _ (by simp), transmit_data_other _ _ _ _ _ (by simp), transmit_data_other _ _ _ _ _ (by simp), transmit_data_other _ _ _ _ _ (by simp)]
    exact transmit_data_same _ _ _ ⟨port + 3, by omega⟩ (by simp)
  ·
    rw [transmit_data_other _ _ _ _ _ (by simp), transmit_data_other _ _ _ _ _ (by simp), transmit_data_other _ _ _ _ _ (by simp)]
    exact transmit_data_same _ _ _ ⟨port + 4, by omega⟩ (by simp)
  ·
    rw [transmit_data_other _ _ _ _ _ (by simp), transmit_data_other _ _ _ _ _ (by simp)]
    exact transmit_data_same _ _ _ ⟨port + 5, by omega⟩ (by simp)
  ·
    rw [transmit_data_other _ _ _ _ _ (by simp)]
    exact transmit_data_same _ _ _ ⟨port + 6, by omega⟩ (by simp)
  ·
    exact transmit_data_same _ _ _ ⟨port + 7, by omega⟩ (by simp)

/-- The used flags of slots port + 1 .. port + 7 after the GPS block, for a
block that fits. -/
theorem f1675_gps_used (st : Store) (port speed : Nat)
    (altitude vario latitude longitude : Int) (h1 : 1 ≤ port) (h24 : port ≤ 24)
    (S : Store) (hS : S = send_f1675_gps st port speed altitude vario latitude longitude) :
    S.sbusTelemetryDataUsed ⟨port + 1, by omega⟩ = 1 ∧
    S.sbusTelemetryDataUsed ⟨port + 2, by omega⟩ = 1 ∧
    S.sbusTelemetryDataUsed ⟨port + 3, by omega⟩ = 1 ∧
    S.sbusTelemetryDataUsed ⟨port + 4, by omega⟩ = 1 ∧
    S.sbusTelemetryDataUsed ⟨port + 5, by omega⟩ = 1 ∧
    S.sbusTelemetryDataUsed ⟨port + 6, by omega⟩ = 1 ∧
    S.sbusTelemetryDataUsed ⟨port + 7, by omega⟩ = 1 := by
  rw [hS, f1675_gps_chain st port speed altitude vario latitude longitude h24]
  refine ⟨?_, ?_, ?_, ?_, ?_, ?_, ?_⟩
  ·
    rw [transmit_used_other _ _ _ _ _ (by simp), transmit_used_other _ _ _ _ _ (by simp), transmit_used_other _ _ _ _ _ (by simp), transmit_used_other _ _ _ _ _ (by simp), transmit_used_other _ _ _ _ _ (by simp), transmit_used_other _ _ _ _ _ (by simp)]
    exact transmit_used_same _ _ _ ⟨port + 1, by omega⟩ (by simp)
  ·
    rw [transmit_used_other _ _ _ _ _ (by simp), transmit_used_other _ _ _ _ _ (by simp), transmit_used_other _ _ _ _ _ (by simp), transmit_used_other _ _ _ _ _ (by simp), transmit_used_other _ _ _ _ _ (by simp)]
    exact transmit_used_same _ _ _ ⟨port + 2, by omega⟩ (by simp)
  ·
    rw [transmit_used_other _ _ _ _ _ (by simp), transmit_used_other _ _ _ _ _ (by simp), transmit_used_other _ _ _ _ _ (by simp), transmit_used_other _ _ _ _ _ (by simp)]
    exact transmit_used_same _ _ _ ⟨port + 3, by omega⟩ (by simp)
  ·
    rw [transmit_used_other _ _ _ _ _ (by simp), transmit_used_other _ _ _ _ _ (by simp), transmit_used_other _ _ _ _ _ (by simp)]
    exact transmit_used_same _ _ _ ⟨port + 4, by omega⟩ (by simp)
  ·
    rw [transmit_used_other _ _ _ _ _ (by simp), transmit_used_other _ _ _ _ _ (by simp)]
    exact transmit_used_same _ _ _ ⟨port + 5, by omega⟩ (by simp)
  ·
    rw [transmit_used_other _ _ _ _ _ (by simp)]
    exact transmit_used_same _ _ _ ⟨port + 6, by omega⟩ (by simp)
  ·
    exact transmit_used_same _ _ _ ⟨port + 7, by omega⟩ (by simp)

/-- One coordinate of the GPS block for a non-negative input: whole degrees,
then the 20-bit remainder of one million split 4 + 8 + 8 bits. -/
theorem f1675_coord_nonneg (n : Nat) (hmax : n ≤ 255999999) :
    f1675_coord (n : Int) =
      ((n / 1000000, (n % 1000000) / 65536),
       ((n % 1000000) / 256 % 256, (n % 1000000) % 256)) := by
  have h0 : (0 : Int) ≤ (n : Int) := Int.ofNat_nonneg n
  have hd : Int.tdiv (n : Int) 1000000 = ((n / 1000000 : Nat) : Int) := by
    rw [Int.tdiv_eq_ediv h0 (by decide)]
    norm_cast
  have hm : Int.tmod (n : Int) 1000000 = ((n % 1000000 : Nat) : Int) := by
    rw [Int.tmod_eq_emod h0 (by decide)]
    norm_cast
  have h8 : toU8 ((n / 1000000 : Nat) : Int) = n / 1000000 := by
    unfold toU8
    omega
  have h32 : toU32 ((n % 1000000 : Nat) : Int) = n % 1000000 := by
    unfold toU32
    omega
  unfold f1675_coord
  simp only [ge_iff_le, h0, if_true, decide_True, hd, hm, h8, h32, shr_8, shr_16, and_0xff,
    and_0x0f]
  have hc : n % 1000000 / 65536 < 16 := by omega
  have e1 : n % 1000000 / 65536 % 16 % 256 = n % 1000000 / 65536 := by
    rw [Nat.mod_eq_of_lt hc, Nat.mod_eq_of_lt (by omega)]
  have e2 : n % 1000000 / 256 % 256 % 256 = n % 1000000 / 256 % 256 := by omega
  have e3 : n % 1000000 % 256 % 256 = n % 1000000 % 256 := by omega
  rw [e1, e2, e3]

theorem and_0x10_of_lt (x : Nat) (h : x < 16) : x &&& 0x10 = 0 := by
  interval_cases x <;> rfl

/-- Decoding the two payloads of a non-negative coordinate gives it back, and
the hemisphere bit is clear. -/
theorem f1675_coord_roundtrip (n : Nat) (hmax : n ≤ 255999999) :
    (f1675_coord (n : Int)).1.2 &&& 0x10 = 0 ∧
    (f1675_coord (n : Int)).1.1 * 1000000 +
      ((((f1675_coord (n : Int)).1.2 &&& 0x0F) <<< 16) |||
        ((f1675_coord (n : Int)).2.1 <<< 8) ||| (f1675_coord (n : Int)).2.2) = n := by
  rw [f1675_coord_nonneg n hmax]
  dsimp only
  have hc : n % 1000000 / 65536 < 16 := by omega
  refine ⟨and_0x10_of_lt _ hc, ?_⟩
  rw [and_0x0f, Nat.mod_eq_of_lt hc, join3 _ _ _ (by omega) (by omega)]
  omega

/-- C18: for every latitude with 0 <= lat <= 90000000 and longitude with
0 <= lon <= 180000000 in micro-degrees, and a block that fits (1 <= port,
port + 7 <= 31), send_f1675_gps clears the hemisphere bit 0x10 in byte 1 of
slot port + 4 and of slot port + 6, and the coordinates round-trip exactly:
byte 0 of slot port + 4 times 1000000 plus the 20-bit fraction
((byte1 & 0x0F) << 16 | slot(port+5).byte0 << 8 | slot(port+5).byte1) equals
lat, and slots port + 6, port + 7 give back lon in the same way. -/
theorem C18_f1675_latlon_roundtrip (st : Store) (port speed : Nat)
    (altitude vario latitude longitude : Int) (h1 : 1 ≤ port) (h24 : port ≤ 24)
    (hlat0 : 0 ≤ latitude) (hlat : latitude ≤ 90000000)
    (hlon0 : 0 ≤ longitude) (hlon : longitude ≤ 180000000)
    (S : Store) (hS : S = send_f1675_gps st port speed altitude vario latitude longitude) :
    (S.sbusTelemetryData ⟨port + 4, by omega⟩).data1 &&& 0x10 = 0 ∧
    (S.sbusTelemetryData ⟨port + 6, by omega⟩).data1 &&& 0x10 = 0 ∧
    (((S.sbusTelemetryData ⟨port + 4, by omega⟩).data0 * 1000000 +
      ((((S.sbusTelemetryData ⟨port + 4, by omega⟩).data1 &&& 0x0F) <<< 16) |||
        ((S.sbusTelemetryData ⟨port + 5, by omega⟩).data0 <<< 8) |||
        (S.sbusTelemetryData ⟨port + 5, by omega⟩).data1) : Nat) : Int) = latitude ∧
    (((S.sbusTelemetryData ⟨port + 6, by omega⟩).data0 * 1000000 +
      ((((S.sbusTelemetryData ⟨port + 6, by omega⟩).data1 &&& 0x0F) <<< 16) |||
        ((S.sbusTelemetryData ⟨port + 7, by omega⟩).data0 <<< 8) |||
        (S.sbusTelemetryData ⟨port + 7, by omega⟩).data1) : Nat) : Int) = longitude := by
  obtain ⟨-, -, -, h4, h5, h6, h7⟩ :=
    f1675_gps_slots st port speed altitude vario latitude longitude h1 h24 S hS
  rw [h4, h5, h6, h7]
  dsimp only
  lift latitude to ℕ using hlat0 with la
  lift longitude to ℕ using hlon0 with lo
  have hla := f1675_coord_roundtrip la (by omega)
  have hlo := f1675_coord_roundtrip lo (by omega)
  refine ⟨hla.1, hlo.1, ?_, ?_⟩
  · rw [hla.2]
  · rw [hlo.2]

/-- Witness for C18: latitude 52.520833 and longitude 13.409430 degrees on
port 8. Slot 12 holds 52 and 0x07, slot 13 holds 0xF2, 0x81 (520833 = 0x7F281);
slot 14 holds 13 and 0x06, slot 15 holds 0x3F, 0x56 (409430 = 0x63F56). -/
theorem C18_f1675_latlon_roundtrip_witness :
    (send_f1675_gps Store.zero 8 0 0 0 52520833 13409430).sbusTelemetryData 12
      = { slotId := 0x33, data0 := 52, data1 := 0x07 } ∧
    (send_f1675_gps Store.zero 8 0 0 0 52520833 13409430).sbusTelemetryData 13
      = { slotId := 0xB3, data0 := 0xF2, data1 := 0x81 } ∧
    ((send_f1675_gps Store.zero 8 0 0 0 52520833 13409430).sbusTelemetryData 12).data1
      &&& 0x10 = 0 ∧
    ((((send_f1675_gps Store.zero 8 0 0 0 52520833 13409430).sbusTelemetryData 12).data0
        * 1000000 +
      (((((send_f1675_gps Store.zero 8 0 0 0 52520833 13409430).sbusTelemetryData 12).data1
          &&& 0x0F) <<< 16) |||
        (((send_f1675_gps Store.zero 8 0 0 0 52520833 13409430).sbusTelemetryData 13).data0
          <<< 8) |||
        ((send_f1675_gps Store.zero 8 0 0 0 52520833 13409430).sbusTelemetryData 13).data1)
      : Nat) : Int) = 52520833 ∧
    ((((send_f1675_gps Store.zero 8 0 0 0 52520833 13409430).sbusTelemetryData 14).data0
        * 1000000 +
      (((((send_f1675_gps Store.zero 8 0 0 0 52520833 13409430).sbusTelemetryData 14).data1
          &&& 0x0F) <<< 16) |||
        (((send_f1675_gps Store.zero 8 0 0 0 52520833 13409430).sbusTelemetryData 15).data0
          <<< 8) |||
        ((send_f1675_gps Store.zero 8 0 0 0 52520833 13409430).sbusTelemetryData 15).data1)
      : Nat) : Int) = 13409430 :=
  have h := C18_f1675_latlon_roundtrip Store.zero 8 0 0 0 52520833 13409430 (by decide)
    (by decide) (by decide) (by decide) (by decide) (by decide) _ rfl
  ⟨by decide, by decide, h.1, h.2.2.1, h.2.2.2⟩

/-- Values in the int32_t range are unchanged by the conversion to int32_t. -/
theorem toI32_of_range (x : Int) (h1 : -2147483648 ≤ x) (h2 : x ≤ 2147483647) :
    toI32 x = x := by
  unfold toI32
  omega

/-- Truncating division by a positive number, by the sign of the dividend. -/
theorem tdiv_by_sign (a b : Int) (hb : 0 < b) :
    (0 ≤ a → Int.tdiv a b = a / b) ∧ (a < 0 → Int.tdiv a b = -((-a) / b)) := by
  constructor
  · intro ha
    exact Int.tdiv_eq_ediv ha (le_of_lt hb)
  · intro ha
    have h1 := Int.neg_tdiv (-a) b
    rw [neg_neg] at h1
    rw [h1, Int.tdiv_eq_ediv (by omega) (le_of_lt hb)]

/-- The conversion send_F1675 applies to one coordinate, without the
intermediate conversions to int32_t, which are the identity on the int32_t
range. -/
theorem F1675_coord_conv (c : Int) (h1 : -2147483648 ≤ c) (h2 : c ≤ 2147483647) :
    toI32 (toI32 (Int.tdiv c 1000000 * 1000000)
      + Int.tdiv (toI32 (Int.tmod c 1000000 * 60)) 100)
    = Int.tdiv c 1000000 * 1000000 + Int.tdiv (Int.tmod c 1000000 * 60) 100 := by
  have hdm := Int.tdiv_add_tmod c 1000000
  have hds := tdiv_by_sign c 1000000 (by decide)
  have hts := tdiv_by_sign (Int.tmod c 1000000 * 60) 100 (by decide)
  generalize Int.tdiv c 1000000 = d at hdm hds ⊢
  generalize Int.tmod c 1000000 = m at hdm hts ⊢
  have hm60 : toI32 (m * 60) = m * 60 := by
    apply toI32_of_range
    · rcases le_or_lt 0 c with hc | hc
      · have := hds.1 hc
        omega
      · have := hds.2 hc
        omega
    · rcases le_or_lt 0 c with hc | hc
      · have := hds.1 hc
        omega
      · have := hds.2 hc
        omega
  rw [hm60]
  generalize Int.tdiv (m * 60) 100 = t at hts ⊢
  have hd6 : toI32 (d * 1000000) = d * 1000000 := by
    apply toI32_of_range
    · rcases le_or_lt 0 c with hc | hc
      · have := hds.1 hc
        omega
      · have := hds.2 hc
        omega
    · rcases le_or_lt 0 c with hc | hc
      · have := hds.1 hc
        omega
      · have := hds.2 hc
        omega
  rw [hd6]
  apply toI32_of_range
  · rcases le_or_lt 0 c with hc | hc
    · have := hds.1 hc
      have := hts.1 (by omega)
      omega
    · have := hds.2 hc
      rcases le_or_lt 0 (m * 60) with hm | hm
      · have := hts.1 hm
        omega
      · have := hts.2 hm
        omega
  · rcases le_or_lt 0 c with hc | hc
    · have := hds.1 hc
      have := hts.1 (by omega)
      omega
    · have := hds.2 hc
      rcases le_or_lt 0 (m * 60) with hm | hm
      · have := hts.1 hm
        omega
      · have := hts.2 hm
        omega

/-- C19, as stated, fails: with the raw 1e7-scaled position 52.5208330,
13.4094300 degrees, send_F1675 does not leave the store that send_f1675_gps
leaves for the same position in micro-degrees (slot 12 holds 13, 0x01 instead
of 52, 0x07); nor does it for an input that already is in micro-degrees,
because the remainder of one million is rescaled by 60/100 (slot 12 holds
52, 0x04 instead of 52, 0x07). -/
theorem C19_counterexample :
    (send_F1675 Store.zero 8 0 0 0 525208330 134094300).sbusTelemetryData 12
      = { slotId := 0x33, data0 := 13, data1 := 0x01 } ∧
    (send_f1675_gps Store.zero 8 0 0 0 52520833 13409430).sbusTelemetryData 12
      = { slotId := 0x33, data0 := 52, data1 := 0x07 } ∧
    (send_F1675 Store.zero 8 0 0 0 52520833 13409430).sbusTelemetryData 12
      = { slotId := 0x33, data0 := 52, data1 := 0x04 } ∧
    (send_F1675 Store.zero 8 0 0 0 525208330 134094300).sbusTelemetryData 12
      ≠ (send_f1675_gps Store.zero 8 0 0 0 52520833 13409430).sbusTelemetryData 12 ∧
    (send_F1675 Store.zero 8 0 0 0 52520833 13409430).sbusTelemetryData 12
      ≠ (send_f1675_gps Store.zero 8 0 0 0 52520833 13409430).sbusTelemetryData 12 := by
  decide

/-- C19, amended: send_F1675 takes its integer latitude and longitude as
micro-degrees, keeps the whole degrees and rescales the remainder of one
million by 60/100 (a fraction of a degree becomes minutes times 10000) before
the core block encoder runs: for every port, speed, height, vario and every
int32_t lat and lon, the store after send_F1675(port, speed, height, vario,
lat, lon) equals the store after send_f1675_gps(port, speed, height, vario,
lat2, lon2) with lat2 = (lat / 1000000) * 1000000 + ((lat % 1000000) * 60) / 100
in C integer arithmetic (division truncating toward zero), and lon2 likewise. -/
theorem C19_send_F1675_amended (st : Store) (port speed : Nat)
    (hight vario latitude longitude : Int)
    (hla1 : -2147483648 ≤ latitude) (hla2 : latitude ≤ 2147483647)
    (hlo1 : -2147483648 ≤ longitude) (hlo2 : longitude ≤ 2147483647) :
    send_F1675 st port speed hight vario latitude longitude =
      send_f1675_gps st port speed hight vario
        (Int.tdiv latitude 1000000 * 1000000 + Int.tdiv (Int.tmod latitude 1000000 * 60) 100)
        (Int.tdiv longitude 1000000 * 1000000
          + Int.tdiv (Int.tmod longitude 1000000 * 60) 100) := by
  unfold send_F1675
  dsimp only
  rw [F1675_coord_conv latitude hla1 hla2, F1675_coord_conv longitude hlo1 hlo2]

/-- Witness for the amended C19: 52.520833 and 13.409430 degrees in
micro-degrees are handed to the block encoder as 52312499 and 13245658
(52 degrees 31.2499 minutes, 13 degrees 24.5658 minutes). -/
theorem C19_send_F1675_amended_witness :
    send_F1675 Store.zero 8 0 0 0 52520833 13409430
      = send_f1675_gps Store.zero 8 0 0 0 52312499 13245658 :=
  C19_send_F1675_amended Store.zero 8 0 0 0 52520833 13409430 (by decide) (by decide)
    (by decide) (by decide)

/-! ## The collector: C20 -/

/-- The eight iterations of the auxiliary temperature loop, written out. -/
theorem auxTempLoop_eight (s : Sensors) (st : Store) :
    auxTempLoop s st 0 8 =
      send_SBS01T (send_SBS01T (send_SBS01T (send_SBS01T (send_SBS01T (send_SBS01T
        (send_SBS01T (send_SBS01T st 18 (auxTempArg s)) 19 (auxTempArg s)) 20 (auxTempArg s))
        21 (auxTempArg s)) 22 (auxTempArg s)) 23 (auxTempArg s)) 24 (auxTempArg s))
        25 (auxTempArg s) := by
  simp only [auxTempLoop, auxTempArg]
  split_ifs <;> rfl

/-- The collector as the sequence of its encoder calls. -/
theorem handleSbus2Telemetry_calls (s : Sensors) (st : Store) :
    handleSbus2Telemetry s st =
      auxTempLoop s
        (send_SBS01T
          (send_SBS01T
            (send_F1675f
              (send_SBS01T
                (send_RPM
                  (send_s1678_current
                    (send_voltage st 1 s.voltage_x10 s.cellVoltage_x10)
                    3 s.current_x100 s.capacity s.voltage_x100)
                  6 (escReading s).1)
                7 (escReading s).2)
              8 (gpsReading s).1 s.altitude s.vario (gpsReading s).2.1 (gpsReading s).2.2)
            16 (tempArg s.getIMUTemperature))
          17 (tempArg s.getBaroTemperature))
        0 8 := rfl

/-- Every slot from 1 to 25 is marked used by a collector cycle. -/
theorem handleSbus2Telemetry_used (s : Sensors) (st : Store) (j : Fin 32)
    (h1 : 1 ≤ j.val) (h2 : j.val ≤ 25) :
    (handleSbus2Telemetry s st).sbusTelemetryDataUsed j = 1 := by
  rw [handleSbus2Telemetry_calls, auxTempLoop_eight]
  simp only [send_voltage, send_s1678_current, send_RPM, send_SBS01T, send_F1675f,
    send_f1675_gps, transmit_used, portOfs]
  fin_cases j <;> simp at h1 h2 ⊢

/-- Index 0 and the slots from 26 on keep their frame and used flag over a
collector cycle. -/
theorem handleSbus2Telemetry_outside (s : Sensors) (st : Store) (j : Fin 32)
    (h : j.val = 0 ∨ 26 ≤ j.val) :
    (handleSbus2Telemetry s st).sbusTelemetryData j = st.sbusTelemetryData j ∧
    (handleSbus2Telemetry s st).sbusTelemetryDataUsed j = st.sbusTelemetryDataUsed j := by
  rw [handleSbus2Telemetry_calls, auxTempLoop_eight]
  simp only [send_voltage, send_s1678_current, send_RPM, send_SBS01T, send_F1675f,
    send_f1675_gps, transmit_used, transmit_data, portOfs]
  fin_cases j <;> simp at h ⊢

/-- A collector cycle changes no minimum-resend time. -/
theorem handleSbus2Telemetry_minDelay (s : Sensors) (st : Store) :
    (handleSbus2Telemetry s st).sbusTelemetryMinDelay = st.sbusTelemetryMinDelay := by
  rw [handleSbus2Telemetry_calls, auxTempLoop_eight]
  simp only [send_voltage, send_s1678_current, send_RPM, send_SBS01T, send_F1675f,
    send_f1675_gps, transmit_minDelay]

/-- The fixed assignment: after a collector cycle every slot from 1 to 25 holds
the frame that the encoder assigned to it writes there, unaffected by the
other encoder calls of the cycle. -/
theorem handleSbus2Telemetry_assignment (s : Sensors) (st : Store) :
    (∀ j : Fin 32, 1 ≤ j.val → j.val ≤ 2 →
      (handleSbus2Telemetry s st).sbusTelemetryData j
        = (send_voltage st 1 s.voltage_x10 s.cellVoltage_x10).sbusTelemetryData j) ∧
    (∀ j : Fin 32, 3 ≤ j.val → j.val ≤ 5 →
      (handleSbus2Telemetry s st).sbusTelemetryData j
        = (send_s1678_current st 3 s.current_x100 s.capacity
            s.voltage_x100).sbusTelemetryData j) ∧
    (handleSbus2Telemetry s st).sbusTelemetryData 6
      = (send_RPM st 6 (escReading s).1).sbusTelemetryData 6 ∧
    (handleSbus2Telemetry s st).sbusTelemetryData 7
      = (send_SBS01T st 7 (escReading s).2).sbusTelemetryData 7 ∧
    (∀ j : Fin 32, 8 ≤ j.val → j.val ≤ 15 →
      (handleSbus2Telemetry s st).sbusTelemetryData j
        = (send_F1675f st 8 (gpsReading s).1 s.altitude s.vario (gpsReading s).2.1
            (gpsReading s).2.2).sbusTelemetryData j) ∧
    (handleSbus2Telemetry s st).sbusTelemetryData 16
      = (send_SBS01T st 16 (tempArg s.getIMUTemperature)).sbusTelemetryData 16 ∧
    (handleSbus2Telemetry s st).sbusTelemetryData 17
      = (send_SBS01T st 17 (tempArg s.getBaroTemperature)).sbusTelemetryData 17 ∧
    (∀ j : Fin 32, 18 ≤ j.val → j.val ≤ 25 →
      (handleSbus2Telemetry s st).sbusTelemetryData j
        = (send_SBS01T st j.val (auxTempArg s)).sbusTelemetryData j) := by
  rw [handleSbus2Telemetry_calls, auxTempLoop_eight]
  refine ⟨?_, ?_, ?_, ?_, ?_, ?_, ?_, ?_⟩
  · intro j h1 h2
    simp only [send_voltage, send_s1678_current, send_RPM, send_SBS01T, send_F1675f,
    send_f1675_gps, transmit_data, portOfs]
    fin_cases j <;> simp at h1 h2 ⊢
  · intro j h1 h2
    simp only [send_voltage, send_s1678_current, send_RPM, send_SBS01T, send_F1675f,
    send_f1675_gps, transmit_data, portOfs]
    fin_cases j <;> simp at h1 h2 ⊢
  · simp only [send_voltage, send_s1678_current, send_RPM, send_SBS01T, send_F1675f,
    send_f1675_gps, transmit_data, portOfs]
    simp [show ((6 : Fin 32) : Nat) = 6 from rfl]
  · simp only [send_voltage, send_s1678_current, send_RPM, send_SBS01T, send_F1675f,
    send_f1675_gps, transmit_data, portOfs]
    simp [show ((7 : Fin 32) : Nat) = 7 from rfl]
  · intro j h1 h2
    simp only [send_voltage, send_s1678_current, send_RPM, send_SBS01T, send_F1675f,
    send_f1675_gps, transmit_data, portOfs]
    fin_cases j <;> simp at h1 h2 ⊢
  · simp only [send_voltage, send_s1678_current, send_RPM, send_SBS01T, send_F1675f,
    send_f1675_gps, transmit_data, portOfs]
    simp [show ((16 : Fin 32) : Nat) = 16 from rfl]
  · simp only [send_voltage, send_s1678_current, send_RPM, send_SBS01T, send_F1675f,
    send_f1675_gps, transmit_data, portOfs]
    simp [show ((17 : Fin 32) : Nat) = 17 from rfl]
  · intro j h1 h2
    simp only [send_voltage, send_s1678_current, send_RPM, send_SBS01T, send_F1675f,
    send_f1675_gps, transmit_data, portOfs]
    fin_cases j <;> simp at h1 h2 ⊢

/-- C20: for every store and all sensor readings, one run of
handleSbus2Telemetry marks exactly the slots 1..25 as used, following the fixed
assignment: slots 1-2 hold what send_voltage writes, 3-5 what
send_s1678_current writes, 6 the rpm, 7 the ESC temperature, 8-15 the GPS
block, 16 the IMU temperature, 17 the baro temperature and 18-25 the auxiliary
temperature slots, each slot holding the frame of its own encoder (no slot is
overwritten by another encoder); index 0 and the slots 26..31 keep their frame
and used flag, and every minimum-resend time is unchanged. -/
theorem C20_collector_assignment (s : Sensors) (st : Store)
    (S : Store) (hS : S = handleSbus2Telemetry s st) :
    (∀ j : Fin 32, 1 ≤ j.val → j.val ≤ 25 → S.sbusTelemetryDataUsed j = 1) ∧
    (∀ j : Fin 32, j.val = 0 ∨ 26 ≤ j.val →
      S.sbusTelemetryData j = st.sbusTelemetryData j ∧
      S.sbusTelemetryDataUsed j = st.sbusTelemetryDataUsed j) ∧
    S.sbusTelemetryMinDelay = st.sbusTelemetryMinDelay ∧
    (∀ j : Fin 32, 1 ≤ j.val → j.val ≤ 2 →
      S.sbusTelemetryData j
        = (send_voltage st 1 s.voltage_x10 s.cellVoltage_x10).sbusTelemetryData j) ∧
    (∀ j : Fin 32, 3 ≤ j.val → j.val ≤ 5 →
      S.sbusTelemetryData j
        = (send_s1678_current st 3 s.current_x100 s.capacity
            s.voltage_x100).sbusTelemetryData j) ∧
    S.sbusTelemetryData 6 = (send_RPM st 6 (escReading s).1).sbusTelemetryData 6 ∧
    S.sbusTelemetryData 7 = (send_SBS01T st 7 (escReading s).2).sbusTelemetryData 7 ∧
    (∀ j : Fin 32, 8 ≤ j.val → j.val ≤ 15 →
      S.sbusTelemetryData j
        = (send_F1675f st 8 (gpsReading s).1 s.altitude s.vario (gpsReading s).2.1
            (gpsReading s).2.2).sbusTelemetryData j) ∧
    S.sbusTelemetryData 16
      = (send_SBS01T st 16 (tempArg s.getIMUTemperature)).sbusTelemetryData 16 ∧
    S.sbusTelemetryData 17
      = (send_SBS01T st 17 (tempArg s.getBaroTemperature)).sbusTelemetryData 17 ∧
    (∀ j : Fin 32, 18 ≤ j.val → j.val ≤ 25 →
      S.sbusTelemetryData j = (send_SBS01T st j.val (auxTempArg s)).sbusTelemetryData j) := by
  subst hS
  obtain ⟨a1, a3, a6, a7, a8, a16, a17, a18⟩ := handleSbus2Telemetry_assignment s st
  exact ⟨handleSbus2Telemetry_used s st, handleSbus2Telemetry_outside s st,
    handleSbus2Telemetry_minDelay s st, a1, a3, a6, a7, a8, a16, a17, a18⟩

/-- Witness for C20: a collector cycle with the example snapshot on the store
of the running example (slot 1 sent once, rearmed to 4000). Slots 1 and 25 are
used, index 0 and slot 26 are not, the minimum-resend time of slot 1 is still
4000, slot 6 holds the rpm bytes 0x98, 0x08 and slot 2 the cell voltage. -/
theorem C20_collector_assignment_witness :
    (handleSbus2Telemetry exSensors (after exEnums exHistory)).sbusTelemetryDataUsed 1 = 1 ∧
    (handleSbus2Telemetry exSensors (after exEnums exHistory)).sbusTelemetryDataUsed 25 = 1 ∧
    (handleSbus2Telemetry exSensors (after exEnums exHistory)).sbusTelemetryDataUsed 0 = 0 ∧
    (handleSbus2Telemetry exSensors (after exEnums exHistory)).sbusTelemetryDataUsed 26 = 0 ∧
    (handleSbus2Telemetry exSensors (after exEnums exHistory)).sbusTelemetryMinDelay 1
      = 4000 ∧
    (handleSbus2Telemetry exSensors (after exEnums exHistory)).sbusTelemetryData 6
      = { slotId := 0x63, data0 := 0x98, data1 := 0x08 } ∧
    (handleSbus2Telemetry exSensors (after exEnums exHistory)).sbusTelemetryData 2
      = { slotId := 0x43, data0 := 0x00, data1 := 41 } :=
  have h := C20_collector_assignment exSensors (after exEnums exHistory) _ rfl
  ⟨h.1 1 (by decide) (by decide), h.1 25 (by decide) (by decide),
   ((h.2.1 0 (by decide)).2).trans (by decide), ((h.2.1 26 (by decide)).2).trans (by decide),
   (congrFun h.2.2.1 1).trans (by decide),
   h.2.2.2.2.2.1.trans (by decide),
   (h.2.2.2.1 2 (by decide) (by decide)).trans (by decide)⟩

/-! ## The sixteen sending instants: C26 -/

/-- The truncated remainder at the first microsecond of the second family of
candidate instants. -/
theorem slot_raw_at2 (s : Nat) (hs : s ≤ 68) :
    (((2257 + 651 * s - 2000) % 650 + 4294967296 - 1) % 4294967296) % 256 = s := by
  have h1 : 2257 + 651 * s - 2000 = (s + 257) + 650 * s := by omega
  have h2 : (2257 + 651 * s - 2000) % 650 = s + 257 := by
    rw [h1, Nat.add_mul_mod_self_left]
    exact Nat.mod_eq_of_lt (by omega)
  rw [h2]
  omega

/-- The scheduler returns s at elapsed time 2257 + 651 s, for every s up to 68. -/
theorem slot_at2 (s : Nat) (hs : s ≤ 68) : sbus2GetTelemetrySlot (2257 + 651 * s) = s := by
  have h650 : s * 650 % 4294967296 = s * 650 := Nat.mod_eq_of_lt (by omega)
  rw [slot_unfold, slot_raw_at2 s hs, h650]
  split_ifs with h1 h2
  · omega
  · omega
  · rfl

/-- A result s below 255 pins the elapsed time to 2001 + 651 s or
2257 + 651 s. -/
theorem slot_eq_instants (elapsed s : Nat) (hE : elapsed < 4294967296) (hs : s < 255)
    (h : sbus2GetTelemetrySlot elapsed = s) :
    elapsed = 2001 + 651 * s ∨ elapsed = 2257 + 651 * s := by
  rw [slot_unfold] at h
  have hr : (elapsed - 2000) % 650 < 650 := Nat.mod_lt _ (by decide)
  have hq : elapsed - 2000 = 650 * ((elapsed - 2000) / 650) + (elapsed - 2000) % 650 :=
    (Nat.div_add_mod _ _).symm
  generalize (elapsed - 2000) % 650 = r at h hr hq
  generalize (elapsed - 2000) / 650 = q at hq
  have hraw : ((r + 4294967296 - 1) % 4294967296) % 256
      = if r = 0 then 255 else (r - 1) % 256 := by
    split_ifs with h0
    · subst h0
      rfl
    · have : (r + 4294967296 - 1) % 4294967296 = r - 1 := by omega
      rw [this]
  rw [hraw] at h
  by_cases h0 : r = 0
  · rw [if_pos h0] at h
    split_ifs at h <;> omega
  · rw [if_neg h0] at h
    obtain ⟨w, hw⟩ : ∃ w, w = (r - 1) % 256 := ⟨_, rfl⟩
    have hwb : w ≤ 255 := by omega
    have hwrel : r - 1 = w ∨ r - 1 = w + 256 ∨ r - 1 = w + 512 := by omega
    rw [← hw] at h
    have h650 : w * 650 % 4294967296 = w * 650 := Nat.mod_eq_of_lt (by omega)
    rw [h650] at h
    split_ifs at h with h1 h2
    · omega
    · omega
    · subst h
      clear hraw hw h650
      rcases Nat.lt_or_ge (elapsed - 2000) (w * 650) with hlt | hge
      · have hm : (elapsed - 2000 + 4294967296 - w * 650) % 4294967296
            = elapsed - 2000 + 4294967296 - w * 650 := Nat.mod_eq_of_lt (by omega)
        rw [hm] at h2
        omega
      · have hm : (elapsed - 2000 + 4294967296 - w * 650) % 4294967296
            = elapsed - 2000 - w * 650 := by
          rw [show elapsed - 2000 + 4294967296 - w * 650
            = (elapsed - 2000 - w * 650) + 4294967296 by omega, Nat.add_mod_right]
          exact Nat.mod_eq_of_lt (by omega)
        rw [hm] at h2
        omega

/-- C26: for every 32-bit elapsed time and every local slot s in 0..7,
sbus2GetTelemetrySlot(elapsed) = s if and only if elapsed = 2001 + 651 s or
elapsed = 2257 + 651 s; consequently every tick of taskSendSbus2Telemetry
that emits a frame runs at one of these sixteen values of the elapsed time
(all of them below the 8 ms staleness bound). -/
theorem C26_sixteen_instants :
    (∀ elapsed s : Nat, elapsed < TIMEUS_WRAP → s ≤ 7 →
      (sbus2GetTelemetrySlot elapsed = s ↔
        elapsed = 2001 + 651 * s ∨ elapsed = 2257 + 651 * s)) ∧
    (∀ (k : RxEnums) (env : RxEnv) (st : Store) (now : Nat),
      (taskSendSbus2Telemetry k env st now).2 ≠ [] →
      ∃ s : Nat, s ≤ 7 ∧
        (elapsedTime env now = 2001 + 651 * s ∨ elapsedTime env now = 2257 + 651 * s)) := by
  constructor
  · intro elapsed s hE hs
    simp only [TIMEUS_WRAP] at hE
    constructor
    · exact slot_eq_instants elapsed s hE (by omega)
    · rintro (h | h)
      · rw [h]
        exact slot_at s (by omega)
      · rw [h]
        exact slot_at2 s (by omega)
  · intro k env st now hout
    obtain ⟨i, hres⟩ := resolves_of_output k env st now hout
    have hlt : sbus2GetTelemetrySlot (elapsedTime env now) < 8 := hres.2.2.2.2.1
    have hE : elapsedTime env now < 4294967296 := by
      simp only [elapsedTime, TIMEUS_WRAP]
      omega
    exact ⟨sbus2GetTelemetrySlot (elapsedTime env now), by omega,
      slot_eq_instants _ _ hE (by omega) rfl⟩

/-- Witness for C26: the scheduler returns slot 3 at 3954 = 2001 + 651 * 3 and
at 4210 = 2257 + 651 * 3 but not one microsecond later; the sending tick of
the running example runs at elapsed time 2652 = 2001 + 651. -/
theorem C26_sixteen_instants_witness :
    sbus2GetTelemetrySlot 3954 = 3 ∧ sbus2GetTelemetrySlot 4210 = 3 ∧
    sbus2GetTelemetrySlot 3955 ≠ 3 ∧ sbus2GetTelemetrySlot 4211 ≠ 3 ∧
    elapsedTime (exEnv 348) 3000 = 2001 + 651 * 1 :=
  ⟨(C26_sixteen_instants.1 3954 3 (by decide) (by decide)).2 (Or.inl (by decide)),
   (C26_sixteen_instants.1 4210 3 (by decide) (by decide)).2 (Or.inr (by decide)),
   fun h => absurd ((C26_sixteen_instants.1 3955 3 (by decide) (by decide)).1 h) (by decide),
   fun h => absurd ((C26_sixteen_instants.1 4211 3 (by decide) (by decide)).1 h) (by decide),
   by decide⟩

/-! ## Altitude, time and vario of the GPS block: C24 -/

/-- C24: for every altitude and vario (in particular all signed 16-bit ones)
given to send_f1675_gps with 1 <= port and port + 7 <= 31: slot port + 1 holds,
high byte first, (altitude mod 2^16) | 0x4000 with no clamping; slot port + 2
holds the fixed literal bytes [0xB0, 0xF0]; slot port + 3 holds, high byte
first, (vario * 10) mod 2^16, that is truncated without saturation. The three
slots are marked used. -/
theorem C24_f1675_altitude_time_vario (st : Store) (port speed : Nat)
    (altitude vario latitude longitude : Int) (h1 : 1 ≤ port) (h24 : port ≤ 24)
    (S : Store) (hS : S = send_f1675_gps st port speed altitude vario latitude longitude) :
    S.sbusTelemetryData ⟨port + 1, by omega⟩ =
      { slotId := sbus2SlotIds ⟨port + 1, by omega⟩
        data0 := ((altitude % 65536).toNat ||| 0x4000) >>> 8
        data1 := ((altitude % 65536).toNat ||| 0x4000) &&& 0xFF } ∧
    256 * (((altitude % 65536).toNat ||| 0x4000) >>> 8)
      + (((altitude % 65536).toNat ||| 0x4000) &&& 0xFF)
      = (altitude % 65536).toNat ||| 0x4000 ∧
    S.sbusTelemetryData ⟨port + 2, by omega⟩ =
      { slotId := sbus2SlotIds ⟨port + 2, by omega⟩, data0 := 0xB0, data1 := 0xF0 } ∧
    S.sbusTelemetryData ⟨port + 3, by omega⟩ =
      { slotId := sbus2SlotIds ⟨port + 3, by omega⟩
        data0 := ((vario * 10) % 65536).toNat >>> 8
        data1 := ((vario * 10) % 65536).toNat &&& 0xFF } ∧
    256 * (((vario * 10) % 65536).toNat >>> 8) + (((vario * 10) % 65536).toNat &&& 0xFF)
      = ((vario * 10) % 65536).toNat ∧
    S.sbusTelemetryDataUsed ⟨port + 1, by omega⟩ = 1 ∧
    S.sbusTelemetryDataUsed ⟨port + 2, by omega⟩ = 1 ∧
    S.sbusTelemetryDataUsed ⟨port + 3, by omega⟩ = 1 := by
  obtain ⟨d1, d2, d3, -⟩ :=
    f1675_gps_slots st port speed altitude vario latitude longitude h1 h24 S hS
  obtain ⟨u1, u2, u3, -⟩ :=
    f1675_gps_used st port speed altitude vario latitude longitude h1 h24 S hS
  have ha16 : (altitude % 65536).toNat < 2 ^ 16 := by omega
  have hor : ((altitude % 65536).toNat ||| 0x4000) < 65536 :=
    Nat.or_lt_two_pow ha16 (by decide)
  have hv16 : ((vario * 10) % 65536).toNat < 65536 := by omega
  rw [d1, d2, d3]
  simp only [toU16, Nat.mod_eq_of_lt hor, and_0xff, shr_8]
  refine ⟨?_, ?_, trivial, ?_, ?_, u1, u2, u3⟩
  · rw [Nat.mod_eq_of_lt (by omega)]
  · omega
  · rw [Nat.mod_eq_of_lt (by omega)]
  · omega

/-- Witness for C24 on port 8: altitude -1 is stored as 0xFFFF and altitude
20000 as 0x4E20 (no clamp), slot 10 holds 0xB0, 0xF0, and vario 4000 is stored
as 40000 mod 2^16 = 0x9C40 (no saturation). -/
theorem C24_f1675_altitude_time_vario_witness :
    (send_f1675_gps Store.zero 8 0 (-1) 4000 0 0).sbusTelemetryData 9
      = { slotId := 0x93, data0 := 0xFF, data1 := 0xFF } ∧
    (send_f1675_gps Store.zero 8 0 20000 4000 0 0).sbusTelemetryData 9
      = { slotId := 0x93, data0 := 0x4E, data1 := 0x20 } ∧
    (send_f1675_gps Store.zero 8 0 (-1) 4000 0 0).sbusTelemetryData 10
      = { slotId := 0x53, data0 := 0xB0, data1 := 0xF0 } ∧
    (send_f1675_gps Store.zero 8 0 (-1) 4000 0 0).sbusTelemetryData 11
      = { slotId := 0xD3, data0 := 0x9C, data1 := 0x40 } :=
  ⟨(C24_f1675_altitude_time_vario Store.zero 8 0 (-1) 4000 0 0 (by decide) (by decide)
      _ rfl).1.trans (by decide),
   (C24_f1675_altitude_time_vario Store.zero 8 0 20000 4000 0 0 (by decide) (by decide)
      _ rfl).1.trans (by decide),
   (C24_f1675_altitude_time_vario Store.zero 8 0 (-1) 4000 0 0 (by decide) (by decide)
      _ rfl).2.2.1.trans (by decide),
   (C24_f1675_altitude_time_vario Store.zero 8 0 (-1) 4000 0 0 (by decide) (by decide)
      _ rfl).2.2.2.1.trans (by decide)⟩

/-! ## Unavailable sensors: C21 -/

/-- The float adapter with a zero position hands a zero position to the block
encoder. -/
theorem send_F1675f_zero (st : Store) (port speed : Nat) (hight vario : Int) :
    send_F1675f st port speed hight vario 0 0 = send_f1675_gps st port speed hight vario 0 0 := by
  unfold send_F1675f
  rfl

/-- The payloads of a zero coordinate are all zero. -/
theorem f1675_coord_zero : f1675_coord 0 = ((0, 0), (0, 0)) := by decide

/-- The frame a one-slot temperature write of 0 leaves: bytes 0x64, 0x80. -/
theorem send_SBS01T_zero (st : Store) (j : Fin 32) (hj : 0 < j.val) :
    (send_SBS01T st j.val 0).sbusTelemetryData j
      = { slotId := sbus2SlotIds j, data0 := 0x64, data1 := 0x80 } := by
  unfold send_SBS01T
  exact transmit_data_same st _ _ j hj

/-- The frame an rpm write of 0 leaves: bytes 0x00, 0x00. -/
theorem send_RPM_zero (st : Store) (j : Fin 32) (hj : 0 < j.val) :
    (send_RPM st j.val 0).sbusTelemetryData j
      = { slotId := sbus2SlotIds j, data0 := 0x00, data1 := 0x00 } := by
  unfold send_RPM
  exact transmit_data_same st _ _ j hj

/-- C21: when a sensor is unavailable, handleSbus2Telemetry still writes its
slot, with the zero encoding of the format: with ESC data absent or older than
the maximum age (or ESC support not built in) slot 6 holds [0x00, 0x00] and
slot 7 holds [0x64, 0x80]; with the IMU or the baro temperature invalid slot 16
resp. 17 holds [0x64, 0x80]; with a GPS fix below 2D (or GPS support not built
in) slot 8 holds [0x40, 0x00] and the latitude/longitude slots 12..15 hold
[0x00, 0x00]; and each of these slots is marked used. -/
theorem C21_unavailable_sensors (s : Sensors) (st : Store)
    (S : Store) (hS : S = handleSbus2Telemetry s st) :
    ((s.USE_ESC_SENSOR = false ∨ s.escSensorGetData = none ∨
        (∃ e, s.escSensorGetData = some e ∧ s.ESC_DATA_MAX_AGE < e.dataAge)) →
      S.sbusTelemetryData 6 = { slotId := sbus2SlotIds 6, data0 := 0x00, data1 := 0x00 } ∧
      S.sbusTelemetryData 7 = { slotId := sbus2SlotIds 7, data0 := 0x64, data1 := 0x80 }) ∧
    (s.getIMUTemperature = none →
      S.sbusTelemetryData 16 = { slotId := sbus2SlotIds 16, data0 := 0x64, data1 := 0x80 }) ∧
    (s.getBaroTemperature = none →
      S.sbusTelemetryData 17 = { slotId := sbus2SlotIds 17, data0 := 0x64, data1 := 0x80 }) ∧
    ((s.USE_GPS = false ∨ s.fixType < s.GPS_FIX_2D) →
      S.sbusTelemetryData 8 = { slotId := sbus2SlotIds 8, data0 := 0x40, data1 := 0x00 } ∧
      S.sbusTelemetryData 12 = { slotId := sbus2SlotIds 12, data0 := 0x00, data1 := 0x00 } ∧
      S.sbusTelemetryData 13 = { slotId := sbus2SlotIds 13, data0 := 0x00, data1 := 0x00 } ∧
      S.sbusTelemetryData 14 = { slotId := sbus2SlotIds 14, data0 := 0x00, data1 := 0x00 } ∧
      S.sbusTelemetryData 15 = { slotId := sbus2SlotIds 15, data0 := 0x00, data1 := 0x00 }) ∧
    (S.sbusTelemetryDataUsed 6 = 1 ∧ S.sbusTelemetryDataUsed 7 = 1 ∧
      S.sbusTelemetryDataUsed 8 = 1 ∧ S.sbusTelemetryDataUsed 12 = 1 ∧
      S.sbusTelemetryDataUsed 13 = 1 ∧ S.sbusTelemetryDataUsed 14 = 1 ∧
      S.sbusTelemetryDataUsed 15 = 1 ∧ S.sbusTelemetryDataUsed 16 = 1 ∧
      S.sbusTelemetryDataUsed 17 = 1) := by
  subst hS
  obtain ⟨-, -, a6, a7, a8, a16, a17, -⟩ := handleSbus2Telemetry_assignment s st
  refine ⟨?_, ?_, ?_, ?_, ?_⟩
  · intro hesc
    have hz : escReading s = (0, 0) := by
      unfold escReading
      rcases hesc with h | h | ⟨e, he, hage⟩
      · simp [h]
      · simp [h]
      · rw [he]
        have hn : ¬ e.dataAge ≤ s.ESC_DATA_MAX_AGE := by omega
        simp [hn]
    rw [a6, a7, hz]
    exact ⟨send_RPM_zero st 6 (by decide), send_SBS01T_zero st 7 (by decide)⟩
  · intro h
    rw [a16, h]
    exact send_SBS01T_zero st 16 (by decide)
  · intro h
    rw [a17, h]
    exact send_SBS01T_zero st 17 (by decide)
  · intro hgps
    have hz : gpsReading s = (0, 0, 0) := by
      unfold gpsReading
      have hn : ¬ (s.USE_GPS = true ∧ s.fixType ≥ s.GPS_FIX_2D) := by
        rintro ⟨hu, hf⟩
        rcases hgps with h | h
        · rw [h] at hu
          exact absurd hu (by decide)
        · omega
      rw [if_neg hn]
    have hfirst := (f1675_gps_first_slot st 8 0 s.altitude s.vario 0 0 (by decide)
      (by decide)).1
    obtain ⟨-, -, -, h12, h13, h14, h15⟩ :=
      f1675_gps_slots st 8 0 s.altitude s.vario 0 0 (by decide) (by decide) _ rfl
    rw [f1675_coord_zero] at h12 h13 h14 h15
    rw [a8 8 (by decide) (by decide), a8 12 (by decide) (by decide),
      a8 13 (by decide) (by decide), a8 14 (by decide) (by decide),
      a8 15 (by decide) (by decide), hz, send_F1675f_zero]
    exact ⟨hfirst, h12, h13, h14, h15⟩
  · exact ⟨handleSbus2Telemetry_used s st 6 (by decide) (by decide),
      handleSbus2Telemetry_used s st 7 (by decide) (by decide),
      handleSbus2Telemetry_used s st 8 (by decide) (by decide),
      handleSbus2Telemetry_used s st 12 (by decide) (by decide),
      handleSbus2Telemetry_used s st 13 (by decide) (by decide),
      handleSbus2Telemetry_used s st 14 (by decide) (by decide),
      handleSbus2Telemetry_used s st 15 (by decide) (by decide),
      handleSbus2Telemetry_used s st 16 (by decide) (by decide),
      handleSbus2Telemetry_used s st 17 (by decide) (by decide)⟩

/-- Witness for C21: a collector cycle with the ESC absent, no GPS fix and
invalid IMU and baro temperatures, on the zero-initialised store. -/
theorem C21_unavailable_sensors_witness :
    (handleSbus2Telemetry exSensorsNone Store.zero).sbusTelemetryData 6
      = { slotId := 0x63, data0 := 0x00, data1 := 0x00 } ∧
    (handleSbus2Telemetry exSensorsNone Store.zero).sbusTelemetryData 7
      = { slotId := 0xE3, data0 := 0x64, data1 := 0x80 } ∧
    (handleSbus2Telemetry exSensorsNone Store.zero).sbusTelemetryData 16
      = { slotId := 0x0B, data0 := 0x64, data1 := 0x80 } ∧
    (handleSbus2Telemetry exSensorsNone Store.zero).sbusTelemetryData 17
      = { slotId := 0x8B, data0 := 0x64, data1 := 0x80 } ∧
    (handleSbus2Telemetry exSensorsNone Store.zero).sbusTelemetryData 8
      = { slotId := 0x13, data0 := 0x40, data1 := 0x00 } ∧
    (handleSbus2Telemetry exSensorsNone Store.zero).sbusTelemetryData 12
      = { slotId := 0x33, data0 := 0x00, data1 := 0x00 } ∧
    (handleSbus2Telemetry exSensorsNone Store.zero).sbusTelemetryDataUsed 12 = 1 :=
  have h := C21_unavailable_sensors exSensorsNone Store.zero _ rfl
  ⟨(h.1 (Or.inr (Or.inl rfl))).1, (h.1 (Or.inr (Or.inl rfl))).2, h.2.1 rfl, h.2.2.1 rfl,
   (h.2.2.2.1 (Or.inr (by decide))).1, (h.2.2.2.1 (Or.inr (by decide))).2.1,
   h.2.2.2.2.2.2.2.1⟩

/-! ## The auxiliary temperature slots: C25 -/

/-- C25 at its failing input: with temperature sensors built in, sensor 0
valid at 21.5 degrees and sensor 1 valid at 30.0 degrees, slot 19 does not
hold the encoding of sensor 1 (temp 30, bytes 0x82, 0x80) but that of sensor 0
(temp 21, bytes 0x79, 0x80), the same payload as slot 18: every iteration of
the loop asks for sensor 0. -/
theorem C25_failing_input :
    exSensorsAux.USE_TEMPERATURE_SENSOR = true ∧
    exSensorsAux.getSensorTemperature 0 = some 215 ∧
    exSensorsAux.getSensorTemperature 1 = some 300 ∧
    (handleSbus2Telemetry exSensorsAux Store.zero).sbusTelemetryData 18
      = { slotId := 0x4B, data0 := 0x79, data1 := 0x80 } ∧
    (handleSbus2Telemetry exSensorsAux Store.zero).sbusTelemetryData 19
      = { slotId := 0xCB, data0 := 0x79, data1 := 0x80 } ∧
    (send_SBS01T Store.zero 19 (tempArg (exSensorsAux.getSensorTemperature 1))).sbusTelemetryData 19
      = { slotId := 0xCB, data0 := 0x82, data1 := 0x80 } ∧
    (handleSbus2Telemetry exSensorsAux Store.zero).sbusTelemetryData 19
      ≠ (send_SBS01T Store.zero 19
          (tempArg (exSensorsAux.getSensorTemperature 1))).sbusTelemetryData 19 := by
  decide

/-! ## The SBS10G block: C22, C23 -/

theorem and_shiftRight (a b k : Nat) : (a &&& b) >>> k = (a >>> k) &&& (b >>> k) := by
  apply Nat.eq_of_testBit_eq
  intro i
  simp only [Nat.testBit_shiftRight, Nat.testBit_and]

theorem and_0x3fc_shr (x : Nat) : (x &&& 0x3fc) >>> 2 = (x / 4) % 256 := by
  rw [and_shiftRight, Nat.shiftRight_eq_div_pow]
  exact Nat.and_pow_two_sub_one_eq_mod (x / 2 ^ 2) 8

theorem and_0x1c00_shr (x : Nat) : (x &&& 0x1c00) >>> 10 = (x / 1024) % 8 := by
  rw [and_shiftRight, Nat.shiftRight_eq_div_pow]
  exact Nat.and_pow_two_sub_one_eq_mod (x / 2 ^ 10) 3

theorem and_0x300_shr (x : Nat) : (x &&& 0x300) >>> 8 = (x / 256) % 4 := by
  rw [and_shiftRight, Nat.shiftRight_eq_div_pow]
  exact Nat.and_pow_two_sub_one_eq_mod (x / 2 ^ 8) 2

theorem and_3_shl (x : Nat) : (x &&& 0x003) <<< 6 = (x % 4) * 64 := by
  rw [Nat.shiftLeft_eq]
  have := Nat.and_pow_two_sub_one_eq_mod x 2
  simp only [Nat.reducePow, Nat.add_one_sub_one] at this
  rw [show (3 : Nat) = 4 - 1 from rfl, this]

theorem shl3_or_mod8 (v y : Nat) (hy : y < 8) : ((v <<< 3) ||| y) % 8 = y := by
  rw [Nat.shiftLeft_eq, Nat.mul_comm]
  have := Nat.mul_add_lt_is_or (show y < 2 ^ 3 from hy) v
  rw [← this]
  omega

theorem two_or (q : Nat) (hq : q < 2) : 2 ||| q = 2 + q := by
  interval_cases q <;> rfl

/-- The rounding of the altitude of send_SBS10G, for an integer number of metres. -/
theorem SBS10G_floor_alt (a : Int) :
    Rat.floor (5 / 4 * ((a : ℚ) + 820) + 1 / 2) = (5 * (a + 820) + 2) / 4 := by
  have h : (5 / 4 * ((a : ℚ) + 820) + 1 / 2)
      = ((5 * (a + 820) + 2 : Int) : ℚ) / ((4 : Nat) : ℚ) := by
    push_cast
    ring
  rw [h]
  exact Rat.floor_intCast_div_natCast _ _

/-- The frames of slots port + 4 .. port + 7 after send_SBS10G, for a block
that fits, in terms of the local variables of the encoder. -/
theorem SBS10G_slots (st : Store) (port hours minutes seconds : Nat)
    (latitude longitude altitudeMeters : ℚ) (speed : Nat) (gpsVario : ℚ)
    (h1 : 1 ≤ port) (h24 : port ≤ 24) (S : Store)
    (hS : S = send_SBS10G st port hours minutes seconds latitude longitude altitudeMeters
      speed gpsVario) :
    S.sbusTelemetryData ⟨port + 4, by omega⟩ =
      { slotId := sbus2SlotIds ⟨port + 4, by omega⟩
        data0 := ((SBS10G_lon longitude &&& 0xff00000) >>> 20) % 256
        data1 := (SBS10G_speed speed &&& 0xff) % 256 } ∧
    S.sbusTelemetryData ⟨port + 5, by omega⟩ =
      { slotId := sbus2SlotIds ⟨port + 5, by omega⟩
        data0 := ((SBS10G_speed speed &&& 0x300) >>> 8) % 256
        data1 := 0x00 } ∧
    S.sbusTelemetryData ⟨port + 6, by omega⟩ =
      { slotId := sbus2SlotIds ⟨port + 6, by omega⟩
        data0 := ((SBS10G_alt altitudeMeters &&& 0x003) <<< 6) % 256
        data1 := ((SBS10G_alt altitudeMeters &&& 0x3fc) >>> 2) % 256 } ∧
    S.sbusTelemetryData ⟨port + 7, by omega⟩ =
      { slotId := sbus2SlotIds ⟨port + 7, by omega⟩
        data0 := (((SBS10G_vario gpsVario &&& 0x001f) <<< 3)
          ||| ((SBS10G_alt altitudeMeters &&& 0x1c00) >>> 10)) % 256
        data1 := ((SBS10G_vario gpsVario &&& 0x1fe0) >>> 5) % 256 } := by
  have hp : ∀ k, k ≤ 7 → portOfs port k = port + k := by
    intro k hk
    simp only [portOfs]
    omega
  rw [hS]
  unfold send_SBS10G SBS10G_alt SBS10G_speed SBS10G_lon SBS10G_vario
  simp only [hp 1 (by omega), hp 2 (by omega), hp 3 (by omega), hp 4 (by omega),
    hp 5 (by omega), hp 6 (by omega), hp 7 (by omega)]
  refine ⟨?_, ?_, ?_, ?_⟩
  ·
    rw [transmit_data_other _ _ _ _ _ (by simp), transmit_data_other _ _ _ _ _ (by simp), transmit_data_other _ _ _ _ _ (by simp)]
    exact transmit_data_same _ _ _ ⟨port + 4, by omega⟩ (by simp)
  ·
    rw [transmit_data_other _ _ _ _ _ (by simp), transmit_data_other _ _ _ _ _ (by simp)]
    exact transmit_data_same _ _ _ ⟨port + 5, by omega⟩ (by simp)
  ·
    rw [transmit_data_other _ _ _ _ _ (by simp)]
    exact transmit_data_same _ _ _ ⟨port + 6, by omega⟩ (by simp)
  ·
    exact transmit_data_same _ _ _ ⟨port + 7, by omega⟩ (by simp)

/-- The local variable alt for an integer number of metres inside the valid
range. -/
theorem SBS10G_alt_int (a : Int) (h1 : -820 ≤ a) (h2 : a ≤ 4830) :
    SBS10G_alt (a : ℚ) = ((5 * (a + 820) + 2) / 4).toNat := by
  have hc : (a : ℚ) ≥ -820 ∧ (a : ℚ) ≤ 4830 := by
    constructor
    · exact_mod_cast h1
    · exact_mod_cast h2
  unfold SBS10G_alt toU16
  rw [if_pos hc, SBS10G_floor_alt]
  congr 1
  omega

/-- The local variable alt outside the valid range. -/
theorem SBS10G_alt_outside (al : ℚ) (h : al < -820 ∨ 4830 < al) : SBS10G_alt al = 0 := by
  unfold SBS10G_alt
  rw [if_neg]
  rintro ⟨h1, h2⟩
  rcases h with h | h
  · exact absurd h1 (not_le.mpr h)
  · exact absurd h2 (not_le.mpr h)

/-- C22: for every integer-valued altitudeMeters a in [-820, 4830] and a block
that fits (1 <= port, port + 7 <= 31), send_SBS10G encodes the 13-bit altitude
field alt = floor(1.25 * (a + 820) + 0.5) = (5 * (a + 820) + 2) div 4, placed as
alt bits 0-1 in bits 6-7 of byte 0 of slot port + 6 (the other bits of that
byte are 0), alt bits 2-9 in byte 1 of slot port + 6 and alt bits 10-12 in
bits 0-2 of byte 0 of slot port + 7; for every altitude outside [-820, 4830]
the three places hold 0. -/
theorem C22_SBS10G_altitude_field (st : Store) (port hours minutes seconds : Nat)
    (latitude longitude : ℚ) (speed : Nat) (gpsVario : ℚ) (h1 : 1 ≤ port) (h24 : port ≤ 24) :
    (∀ a : Int, -820 ≤ a → a ≤ 4830 →
      Rat.floor (5 / 4 * ((a : ℚ) + 820) + 1 / 2) = (5 * (a + 820) + 2) / 4 ∧
      0 ≤ (5 * (a + 820) + 2) / 4 ∧ (5 * (a + 820) + 2) / 4 < 8192 ∧
      ((send_SBS10G st port hours minutes seconds latitude longitude (a : ℚ) speed
          gpsVario).sbusTelemetryData ⟨port + 6, by omega⟩).data0
        = (((5 * (a + 820) + 2) / 4).toNat % 4) * 64 ∧
      ((send_SBS10G st port hours minutes seconds latitude longitude (a : ℚ) speed
          gpsVario).sbusTelemetryData ⟨port + 6, by omega⟩).data1
        = (((5 * (a + 820) + 2) / 4).toNat / 4) % 256 ∧
      ((send_SBS10G st port hours minutes seconds latitude longitude (a : ℚ) speed
          gpsVario).sbusTelemetryData ⟨port + 7, by omega⟩).data0 % 8
        = ((5 * (a + 820) + 2) / 4).toNat / 1024) ∧
    (∀ al : ℚ, al < -820 ∨ 4830 < al →
      ((send_SBS10G st port hours minutes seconds latitude longitude al speed
          gpsVario).sbusTelemetryData ⟨port + 6, by omega⟩).data0 = 0 ∧
      ((send_SBS10G st port hours minutes seconds latitude longitude al speed
          gpsVario).sbusTelemetryData ⟨port + 6, by omega⟩).data1 = 0 ∧
      ((send_SBS10G st port hours minutes seconds latitude longitude al speed
          gpsVario).sbusTelemetryData ⟨port + 7, by omega⟩).data0 % 8 = 0) := by
  have hbits : ∀ (al : ℚ) (x : Nat), SBS10G_alt al = x → x < 8192 →
      ((send_SBS10G st port hours minutes seconds latitude longitude al speed
          gpsVario).sbusTelemetryData ⟨port + 6, by omega⟩).data0 = (x % 4) * 64 ∧
      ((send_SBS10G st port hours minutes seconds latitude longitude al speed
          gpsVario).sbusTelemetryData ⟨port + 6, by omega⟩).data1 = (x / 4) % 256 ∧
      ((send_SBS10G st port hours minutes seconds latitude longitude al speed
          gpsVario).sbusTelemetryData ⟨port + 7, by omega⟩).data0 % 8 = x / 1024 := by
    intro al x hx hlt
    obtain ⟨-, -, h6, h7⟩ := SBS10G_slots st port hours minutes seconds latitude longitude al
      speed gpsVario h1 h24 _ rfl
    rw [h6, h7, hx]
    dsimp only
    rw [and_3_shl, and_0x3fc_shr, and_0x1c00_shr]
    refine ⟨by omega, by omega, ?_⟩
    have h8 : x / 1024 % 8 < 8 := Nat.mod_lt _ (by decide)
    have hm := shl3_or_mod8 (SBS10G_vario gpsVario &&& 0x1f) (x / 1024 % 8) h8
    generalize ((SBS10G_vario gpsVario &&& 0x1f) <<< 3 ||| x / 1024 % 8) = w at hm ⊢
    omega
  constructor
  · intro a ha1 ha2
    have hx := SBS10G_alt_int a ha1 ha2
    have hlt : ((5 * (a + 820) + 2) / 4).toNat < 8192 := by omega
    exact ⟨SBS10G_floor_alt a, by omega, by omega, hbits (a : ℚ) _ hx hlt⟩
  · intro al hal
    have hx := SBS10G_alt_outside al hal
    exact hbits al 0 hx (by decide)

/-- Witness for C22: altitudeMeters = 0 gives alt = 1025 = 0b10000000001, so
byte 0 of slot port + 6 is 0x40, byte 1 is 0x00 and the low three bits of
byte 0 of slot port + 7 are 1; altitudeMeters = 5000 gives 0 everywhere. -/
theorem C22_SBS10G_altitude_field_witness :
    Rat.floor (5 / 4 * (((0 : Int) : ℚ) + 820) + 1 / 2) = 1025 ∧
    ((send_SBS10G Store.zero 8 12 34 56 0 0 ((0 : Int) : ℚ) 100 0).sbusTelemetryData 14).data0
      = 0x40 ∧
    ((send_SBS10G Store.zero 8 12 34 56 0 0 ((0 : Int) : ℚ) 100 0).sbusTelemetryData 14).data1
      = 0x00 ∧
    ((send_SBS10G Store.zero 8 12 34 56 0 0 ((0 : Int) : ℚ) 100 0).sbusTelemetryData 15).data0
      % 8 = 1 ∧
    ((send_SBS10G Store.zero 8 12 34 56 0 0 5000 100 0).sbusTelemetryData 14).data0 = 0 :=
  have h := C22_SBS10G_altitude_field Store.zero 8 12 34 56 0 0 100 0 (by decide) (by decide)
  ⟨(h.1 0 (by decide) (by decide)).1, (h.1 0 (by decide) (by decide)).2.2.2.1,
   (h.1 0 (by decide) (by decide)).2.2.2.2.1, (h.1 0 (by decide) (by decide)).2.2.2.2.2,
   (h.2 5000 (Or.inr (by norm_num))).1⟩

/-- C23: for every speed (in particular every 16-bit one) given to
send_SBS10G with a block that fits: if speed < 512 then byte 1 of slot
port + 4 is speed & 0xFF and byte 0 of slot port + 5 is 2 | (speed >> 8)
(enable bit 0x200 set), so that the speed is recoverable from the two bytes;
if speed >= 512 then both bytes are 0; byte 1 of slot port + 5 is always 0. -/
theorem C23_SBS10G_speed_field (st : Store) (port hours minutes seconds : Nat)
    (latitude longitude altitudeMeters : ℚ) (speed : Nat) (gpsVario : ℚ)
    (h1 : 1 ≤ port) (h24 : port ≤ 24) (S : Store)
    (hS : S = send_SBS10G st port hours minutes seconds latitude longitude altitudeMeters
      speed gpsVario) :
    (speed < 512 →
      (S.sbusTelemetryData ⟨port + 4, by omega⟩).data1 = speed &&& 0xFF ∧
      (S.sbusTelemetryData ⟨port + 5, by omega⟩).data0 = 2 ||| (speed >>> 8) ∧
      256 * ((S.sbusTelemetryData ⟨port + 5, by omega⟩).data0 - 2)
        + (S.sbusTelemetryData ⟨port + 4, by omega⟩).data1 = speed) ∧
    (512 ≤ speed →
      (S.sbusTelemetryData ⟨port + 4, by omega⟩).data1 = 0 ∧
      (S.sbusTelemetryData ⟨port + 5, by omega⟩).data0 = 0) ∧
    (S.sbusTelemetryData ⟨port + 5, by omega⟩).data1 = 0 := by
  obtain ⟨h4, h5, -, -⟩ := SBS10G_slots st port hours minutes seconds latitude longitude
    altitudeMeters speed gpsVario h1 h24 S hS
  rw [h4, h5]
  dsimp only
  rw [and_0xff, and_0x300_shr, and_0xff]
  refine ⟨?_, ?_, rfl⟩
  · intro hlt
    have hor : speed ||| 0x200 = speed + 0x200 := or_pow_of_lt 9 speed (by omega)
    have hsp : SBS10G_speed speed = speed + 512 := by
      unfold SBS10G_speed
      rw [if_pos hlt, hor]
      omega
    have hq : speed >>> 8 < 2 := by
      rw [shr_8]
      omega
    rw [hsp, two_or _ hq, shr_8]
    omega
  · intro hge
    have hsp : SBS10G_speed speed = 0 := by
      unfold SBS10G_speed
      rw [if_neg (by omega)]
    rw [hsp]
    exact ⟨rfl, rfl⟩

/-- Witness for C23 on port 8: speed 300 = 0x12C gives byte 0x2C in slot 12 and
byte 0x03 in slot 13; speed 512 gives 0 in both. -/
theorem C23_SBS10G_speed_field_witness :
    ((send_SBS10G Store.zero 8 12 34 56 0 0 0 300 0).sbusTelemetryData 12).data1 = 0x2C ∧
    ((send_SBS10G Store.zero 8 12 34 56 0 0 0 300 0).sbusTelemetryData 13).data0 = 0x03 ∧
    ((send_SBS10G Store.zero 8 12 34 56 0 0 0 512 0).sbusTelemetryData 12).data1 = 0 ∧
    ((send_SBS10G Store.zero 8 12 34 56 0 0 0 512 0).sbusTelemetryData 13).data0 = 0 ∧
    ((send_SBS10G Store.zero 8 12 34 56 0 0 0 300 0).sbusTelemetryData 13).data1 = 0 :=
  have h := C23_SBS10G_speed_field Store.zero 8 12 34 56 0 0 0 300 0 (by decide) (by decide)
    _ rfl
  have g := C23_SBS10G_speed_field Store.zero 8 12 34 56 0 0 0 512 0 (by decide) (by decide)
    _ rfl
  ⟨(h.1 (by decide)).1, (h.1 (by decide)).2.1, (g.2.1 (by decide)).1, (g.2.1 (by decide)).2,
   h.2.2⟩

/-! ## Southern and western coordinates: C27 -/

theorem or_0x1f_of_lt (x : Nat) (h : x < 16) : x ||| 0x1f = 0x1f := by
  interval_cases x <;> rfl

/-- One coordinate of the GPS block for a negative input -n: byte 1 of the
first payload is 0x1f whatever the remainder is, so bits 16..19 of the
remainder are not stored. -/
theorem f1675_coord_neg (n : Nat) (h1 : 1 ≤ n) (hmax : n ≤ 255999999) :
    f1675_coord (-(n : Int)) =
      ((n / 1000000, 0x1f), ((n % 1000000) / 256 % 256, (n % 1000000) % 256)) := by
  have hneg : ¬ (-(n : Int) ≥ 0) := by omega
  have hflip : toI32 (-(n : Int) * -1) = (n : Int) := by
    unfold toI32
    omega
  have h0 : (0 : Int) ≤ (n : Int) := Int.ofNat_nonneg n
  have hd : Int.tdiv (n : Int) 1000000 = ((n / 1000000 : Nat) : Int) := by
    rw [Int.tdiv_eq_ediv h0 (by decide)]
    norm_cast
  have hm : Int.tmod (n : Int) 1000000 = ((n % 1000000 : Nat) : Int) := by
    rw [Int.tmod_eq_emod h0 (by decide)]
    norm_cast
  have h8 : toU8 ((n / 1000000 : Nat) : Int) = n / 1000000 := by
    unfold toU8
    omega
  have h32 : toU32 ((n % 1000000 : Nat) : Int) = n % 1000000 := by
    unfold toU32
    omega
  have hc : n % 1000000 / 65536 < 16 := by omega
  unfold f1675_coord
  simp only [hneg, if_false, decide_False, hflip, hd, hm, h8, h32, shr_8, shr_16, and_0xff,
    or_0x1f_of_lt _ hc]
  have e2 : n % 1000000 / 256 % 256 % 256 = n % 1000000 / 256 % 256 := by omega
  have e3 : n % 1000000 % 256 % 256 = n % 1000000 % 256 := by omega
  rw [e2, e3]
  rfl

/-- C27 at its failing input: for the southern latitude -52520833 the
hemisphere bit 0x10 is set, but byte 1 of slot port + 4 is 0x1F, so decoding
the two slots gives 53045121 instead of 52520833; and the different southern
latitude -52455297 produces exactly the same pair of slots. -/
theorem C27_failing_input :
    (send_f1675_gps Store.zero 8 0 0 0 (-52520833) 0).sbusTelemetryData 12
      = { slotId := 0x33, data0 := 52, data1 := 0x1F } ∧
    (send_f1675_gps Store.zero 8 0 0 0 (-52520833) 0).sbusTelemetryData 13
      = { slotId := 0xB3, data0 := 0xF2, data1 := 0x81 } ∧
    0x1F &&& 0x10 = 0x10 ∧
    52 * 1000000 + (((0x1F &&& 0x0F) <<< 16) ||| (0xF2 <<< 8) ||| 0x81) = 53045121 ∧
    (send_f1675_gps Store.zero 8 0 0 0 (-52455297) 0).sbusTelemetryData 12
      = (send_f1675_gps Store.zero 8 0 0 0 (-52520833) 0).sbusTelemetryData 12 ∧
    (send_f1675_gps Store.zero 8 0 0 0 (-52455297) 0).sbusTelemetryData 13
      = (send_f1675_gps Store.zero 8 0 0 0 (-52520833) 0).sbusTelemetryData 13 := by
  decide

/-! ## The slots a three-slot encoder touches: C28 -/

/-- C28, as stated, fails: send_s1678_current with port 255, a port above 31,
marks slot 1 used on the zero-initialised store, although 1 is none of 255,
256, 257: the slot argument 255 + 2 is converted to 8 bits and becomes 1. -/
theorem C28_counterexample :
    (send_s1678_current Store.zero 255 1234 1500 1650).sbusTelemetryDataUsed 1 = 1 ∧
    Store.zero.sbusTelemetryDataUsed 1 = 0 ∧
    (send_s1678_current Store.zero 255 1234 1500 1650).sbusTelemetryData 1
      = { slotId := 0x83, data0 := 0x05, data1 := 0xDC } ∧
    (1 ≠ 255 ∧ 1 ≠ 255 + 1 ∧ 1 ≠ 255 + 2) ∧ 31 < 255 ∧
    send_s1678_current Store.zero 255 1234 1500 1650 ≠ Store.zero := by
  refine ⟨by decide, by decide, by decide, by decide, by decide, ?_⟩
  intro e
  have h : (send_s1678_current Store.zero 255 1234 1500 1650).sbusTelemetryDataUsed 1 = 1 := by
    decide
  rw [e] at h
  exact absurd h (by decide)

/-- C28, amended: a multi-slot encoder touches only its own slots, counted
modulo 256: for every port and all arguments, send_s1678_current(port, ...)
changes the frame and used flag of no slot whose index is none of port,
(port + 1) mod 256 and (port + 2) mod 256, and changes no minimum-resend time;
so a call with a port from 32 to 254 changes nothing, while port 255 reaches
slot 1 through 255 + 2 = 257 = 1 mod 256. -/
theorem C28_s1678_touched_slots_amended (st : Store) (port current capacity voltage : Nat) :
    (∀ j : Fin 32, j.val ≠ port → j.val ≠ (port + 1) % 256 → j.val ≠ (port + 2) % 256 →
      (send_s1678_current st port current capacity voltage).sbusTelemetryData j
        = st.sbusTelemetryData j ∧
      (send_s1678_current st port current capacity voltage).sbusTelemetryDataUsed j
        = st.sbusTelemetryDataUsed j) ∧
    (send_s1678_current st port current capacity voltage).sbusTelemetryMinDelay
      = st.sbusTelemetryMinDelay ∧
    (32 ≤ port → port ≤ 254 → send_s1678_current st port current capacity voltage = st) := by
  refine ⟨?_, ?_, ?_⟩
  · intro j h0 h1 h2
    unfold send_s1678_current
    simp only [portOfs]
    rw [transmit_data_other _ _ _ _ j (fun e => h2 e.symm),
      transmit_data_other _ _ _ _ j (fun e => h1 e.symm),
      transmit_data_other _ _ _ _ j (fun e => h0 e.symm),
      transmit_used_other _ _ _ _ j (fun e => h2 e.symm),
      transmit_used_other _ _ _ _ j (fun e => h1 e.symm),
      transmit_used_other _ _ _ _ j (fun e => h0 e.symm)]
    exact ⟨rfl, rfl⟩
  · unfold send_s1678_current
    dsimp only
    rw [transmit_minDelay, transmit_minDelay, transmit_minDelay]
  · intro h32 h254
    unfold send_s1678_current
    dsimp only
    rw [transmit_rejected st port _ _ (Or.inr h32),
      transmit_rejected st (portOfs port 1) _ _ (by simp only [portOfs]; omega),
      transmit_rejected st (portOfs port 2) _ _ (by simp only [portOfs]; omega)]

/-- Witness for the amended C28: port 254 changes nothing on the store of the
running example, and with port 255 slot 2 keeps its frame. -/
theorem C28_s1678_touched_slots_amended_witness :
    send_s1678_current (after exEnums exHistory) 254 1234 1500 1650
      = after exEnums exHistory ∧
    (send_s1678_current (after exEnums exHistory) 255 1234 1500 1650).sbusTelemetryData 2
      = (after exEnums exHistory).sbusTelemetryData 2 :=
  ⟨(C28_s1678_touched_slots_amended (after exEnums exHistory) 254 1234 1500 1650).2.2
      (by decide) (by decide),
   ((C28_s1678_touched_slots_amended (after exEnums exHistory) 255 1234 1500 1650).1 2
      (by decide) (by decide) (by decide)).1⟩

end Sbus2
